import Mathlib

/-!
# Frogatto character core: physics, collision and animation state

A shallow embedding of `src/character.cpp` and `src/character_type.hpp`.

* Frame pointers are compared by address in the source.  Every frame of an
  archetype lives in its own slot (`stand_` is a member, the others are
  separately allocated), so a non-null pointer is identified by the slot it
  points to: a pointer is an `Option frame_tag`, `none` being the null pointer.
* C++ `int` is modelled by `Int`; `/` is truncating division (`Int.tdiv`).
* The level and the other entities are collaborators that are consulted through
  queries; the level is a record of the answers it gives to this actor.
* Calls on collaborators (sound cue, calls on other entities) and the calls of
  `get_hit` are recorded in the actor's observation trace.
* The expressions of the scripted strategy are black boxes: functions of the actor
  they are executed against.  That an expression is not executed in a tick is
  stated as: the outcome of the tick does not depend on its body.
* The persisted representation is a WML node, modelled as a list of attributes
  with decimal texts for numbers.
* `assert` aborts: fallible operations return `Except fault _`.  The climb loop of
  the horizontal sweep has no bound of its own and the bound of the downward
  sweep is re-read at every iteration: both take fuel.  The loops whose bound is
  fixed when they start recurse on that bound.
-/

namespace Frogatto

/-! ## Data model -/

/-- The frame slots of an archetype, in the order of `character_type.hpp`. -/
inductive frame_tag where
  | stand | stand_up_slope | stand_down_slope | idle | turn | walk | run | jump
  | fall | crouch | lookup | gethit | attack | jump_attack | up_attack | run_attack
  | die | fly | slide | spring
deriving DecidableEq, Repr

/-- Modelled from the spec: the read-only frame collaborator (`frame.hpp` is not
among the sources), reduced to the accessors the character core calls: duration,
collision box, feet offset, declared impulse velocities and acceleration. -/
structure frame where
  duration : Int
  width : Int
  collide_x : Int
  collide_y : Int
  collide_w : Int
  collide_h : Int
  feet_x : Int
  feet_y : Int
  velocity_x : Int
  velocity_y : Int
  accel_x : Int
  accel_y : Int
deriving DecidableEq, Repr

/-- The archetype of `character_type.hpp`: the stand frame is a member, every
other frame is an optional slot. -/
structure character_type where
  id_ : String
  stand_ : frame
  stand_up_slope_frame_ : Option frame
  stand_down_slope_frame_ : Option frame
  idle_frame_ : Option frame
  turn_frame_ : Option frame
  walk_frame_ : Option frame
  run_frame_ : Option frame
  jump_frame_ : Option frame
  fall_frame_ : Option frame
  crouch_frame_ : Option frame
  lookup_frame_ : Option frame
  gethit_frame_ : Option frame
  attack_frame_ : Option frame
  jump_attack_frame_ : Option frame
  up_attack_frame_ : Option frame
  run_attack_frame_ : Option frame
  die_frame_ : Option frame
  fly_frame_ : Option frame
  slide_frame_ : Option frame
  spring_frame_ : Option frame
  walk_ : Int
  jump_ : Int
  boost_ : Int
  glide_ : Int
  climb_ : Int
  hitpoints_ : Int
  springiness_ : Int
  friction_ : Int
  traction_ : Int
  is_vehicle_ : Bool
  passenger_x_ : Int
  passenger_y_ : Int

/-- The content of a frame slot. -/
def character_type.slot (t : character_type) : frame_tag → Option frame
  | .stand => some t.stand_
  | .stand_up_slope => t.stand_up_slope_frame_
  | .stand_down_slope => t.stand_down_slope_frame_
  | .idle => t.idle_frame_
  | .turn => t.turn_frame_
  | .walk => t.walk_frame_
  | .run => t.run_frame_
  | .jump => t.jump_frame_
  | .fall => t.fall_frame_
  | .crouch => t.crouch_frame_
  | .lookup => t.lookup_frame_
  | .gethit => t.gethit_frame_
  | .attack => t.attack_frame_
  | .jump_attack => t.jump_attack_frame_
  | .up_attack => t.up_attack_frame_
  | .run_attack => t.run_attack_frame_
  | .die => t.die_frame_
  | .fly => t.fly_frame_
  | .slide => t.slide_frame_
  | .spring => t.spring_frame_

/-- The pointer an accessor such as `die_frame()` returns: null for an empty slot. -/
def character_type.ptr (t : character_type) (tag : frame_tag) : Option frame_tag :=
  if (t.slot tag).isSome then some tag else none

/-- The frame a non-null pointer into the archetype refers to.  A pointer to an
empty slot does not arise (`change_frame` ignores null); it reads the stand frame. -/
def character_type.deref (t : character_type) (tag : frame_tag) : frame :=
  (t.slot tag).getD t.stand_

/-- Address of the stand frame, `&type_->get_frame()`: never null. -/
def character_type.get_frame (_t : character_type) : Option frame_tag := some .stand

def character_type.id (t : character_type) : String := t.id_

def character_type.stand_up_slope_frame (t : character_type) := t.ptr .stand_up_slope
def character_type.stand_down_slope_frame (t : character_type) := t.ptr .stand_down_slope
def character_type.idle_frame (t : character_type) := t.ptr .idle
def character_type.turn_frame (t : character_type) := t.ptr .turn
def character_type.walk_frame (t : character_type) := t.ptr .walk
def character_type.run_frame (t : character_type) := t.ptr .run
def character_type.jump_frame (t : character_type) := t.ptr .jump
def character_type.fall_frame (t : character_type) := t.ptr .fall
def character_type.crouch_frame (t : character_type) := t.ptr .crouch
def character_type.lookup_frame (t : character_type) := t.ptr .lookup
def character_type.gethit_frame (t : character_type) := t.ptr .gethit
def character_type.attack_frame (t : character_type) := t.ptr .attack
def character_type.jump_attack_frame (t : character_type) := t.ptr .jump_attack
def character_type.up_attack_frame (t : character_type) := t.ptr .up_attack
def character_type.run_attack_frame (t : character_type) := t.ptr .run_attack
def character_type.die_frame (t : character_type) := t.ptr .die
def character_type.fly_frame (t : character_type) := t.ptr .fly
def character_type.slide_frame (t : character_type) := t.ptr .slide
def character_type.spring_frame (t : character_type) := t.ptr .spring

/-- What the core reads from another entity handed back by a level query. -/
structure other_entity where
  body_harmful : Bool
  springiness : Int
  velocity_x : Int
  velocity_y : Int
  face_right : Bool
deriving DecidableEq, Repr

/-- Observable calls made by the actor: the sound cue of a frame, the calls on
other entities, and each call of `get_hit`. -/
inductive event where
  | play_sound (f : frame_tag)
  | get_hit
  | hit_player (e : other_entity)
  | spring_off_head (e : other_entity)
  | stood_on_by (e : other_entity)
  | boarded (e : other_entity)
  | unboarded
  | carried (passenger : Nat) (dx dy : Int)
deriving DecidableEq, Repr

/-- The members `pc_character` adds for the interactive control strategy. -/
structure pc_state where
  running_ : Bool
  prev_left_ : Bool
  prev_right_ : Bool
  last_left_ : Int
  last_right_ : Int
deriving DecidableEq, Repr

/-- The members of one actor (`entity` and `character`), the driver apart. -/
structure actor where
  type_ : character_type
  x_ : Int
  y_ : Int
  face_right_ : Bool
  is_human_ : Bool
  group_ : Int
  previous_y_ : Int
  velocity_x_ : Int
  velocity_y_ : Int
  invincible_ : Int
  formula_test_frequency_ : Int
  time_since_last_formula_ : Int
  walk_result_ : Int
  jump_result_ : Int
  fly_result_ : Int
  collided_since_last_frame_ : Bool
  current_frame_ : frame_tag
  time_in_frame_ : Int
  hitpoints_ : Int
  max_hitpoints_ : Int
  walk_speed_ : Int
  jump_power_ : Int
  boost_power_ : Int
  glide_speed_ : Int
  cycle_num_ : Int
  last_jump_ : Bool
  frame_id_ : Int
  standing_on_ : List Nat
  pc_ : Option pc_state
  trace : List event

/-- A character: an actor with its optional driver (`driver_`), itself an actor. -/
structure character extends actor where
  driver_ : Option actor

/-- Constants and virtual constants declared in `character.hpp` / `entity.hpp`,
which are not among the sources. -/
structure params where
  FeetWidth : Int
  invincibility_duration : Int
  default_slope_range : Int
deriving DecidableEq, Repr

/-- Axis-aligned rectangle, as handed to the level queries. -/
structure rect where
  x : Int
  y : Int
  w : Int
  h : Int
deriving DecidableEq, Repr

def rect.x2 (r : rect) : Int := r.x + r.w
def rect.y2 (r : rect) : Int := r.y + r.h

/-- Answer of `level::standable` with the values it stores through its output
arguments (`none`: nothing stored). -/
structure standable_out where
  ok : Bool
  friction : Option Int
  damage : Option Int
  adjust_y : Option Int
  standing_on : Option other_entity
deriving DecidableEq, Repr

/-- Modelled from the spec: the level query surface (`level.hpp` and
`level_logic.hpp` are not among the sources), as answered to this actor during
one tick. `solid_damage x y` is the damage `solid` stores for a solid cell. -/
structure level where
  boundaries_y2 : Int
  air_resistance : Int
  solid : Int → Int → Bool
  solid_damage : Int → Int → Int
  standable : Int → Int → standable_out
  collide_rect : rect → Option other_entity
  collide_point : Int → Int → Option other_entity
  collide_anyone : Int → Int → Bool
  board : Int → Int → Option other_entity
  hit_by_player : rect → Option other_entity
  find_ground_level : Int → Int → Int → Int

/-- Ways a run of the model stops without a result. -/
inductive fault where
  | assertion
  | out_of_fuel
deriving DecidableEq, Repr

/-! ## Geometry (entity accessors) -/

def character.current_frame (c : character) : frame := c.type_.deref c.current_frame_

def character.set_pos (c : character) (x y : Int) : character := { c with x_ := x, y_ := y }

/-- Modelled from the spec: `entity::feet_x` (declared in `entity.hpp`, not among
the sources): the position plus the frame's feet offset, mirrored about the frame
width when facing left, as `collide_left` mirrors the collision box. -/
def character.feet_x (c : character) : Int :=
  if c.face_right_ then c.x_ + c.current_frame.feet_x
  else c.x_ + c.current_frame.width - c.current_frame.feet_x

/-- Modelled from the spec: `entity::feet_y`, the position plus the frame's feet offset. -/
def character.feet_y (c : character) : Int := c.y_ + c.current_frame.feet_y

def character.collide_left (c : character) : Int :=
  if c.face_right_ then c.x_ + c.current_frame.collide_x
  else c.x_ + c.current_frame.width - c.current_frame.collide_x - c.current_frame.collide_w

def character.collide_right (c : character) : Int :=
  if c.face_right_ then c.x_ + c.current_frame.collide_x + c.current_frame.collide_w
  else c.x_ + c.current_frame.width - c.current_frame.collide_x

/-- Modelled from the spec: `entity::body_rect`, the collision box of the current
frame placed at the actor's position (left edge as `collide_left`). -/
def character.body_rect (c : character) : rect :=
  { x := c.collide_left, y := c.y_ + c.current_frame.collide_y,
    w := c.current_frame.collide_w, h := c.current_frame.collide_h }

def character.log (c : character) (e : event) : character := { c with trace := c.trace ++ [e] }

/-! ## Frame changes -/

def character.change_frame (c : character) (new_frame : Option frame_tag) : character :=
  match new_frame with
  | none => c
  | some nf =>
    if some c.current_frame_ = c.type_.die_frame then c
    else
      let c1 : character := { c with frame_id_ := c.frame_id_ + 1, time_in_frame_ := 0 }
      let start_x := c1.feet_x
      let start_y := c1.feet_y
      let c2 : character := { c1 with current_frame_ := nf }
      let diff_x := c2.feet_x - start_x
      let diff_y := c2.feet_y - start_y
      let c3 := c2.set_pos (c2.x_ - diff_x) (c2.y_ - diff_y)
      let f := c.type_.deref nf
      let c4 : character :=
        if f.velocity_x ≠ 0 then
          { c3 with velocity_x_ := f.velocity_x * (if c3.face_right_ then 1 else -1) }
        else c3
      let c5 : character :=
        if f.velocity_y ≠ 0 then { c4 with velocity_y_ := f.velocity_y } else c4
      c5.log (.play_sound nf)

def character.destroyed (c : character) : Bool :=
  decide (c.hitpoints_ ≤ 0) &&
    (decide (some c.current_frame_ ≠ c.type_.die_frame) ||
      decide (c.time_in_frame_ ≥ c.current_frame.duration))

/-! ## Ground support -/

/-- Both probes of `is_standing`, with the values left in its output arguments:
the second probe runs only when the first fails, and a later store wins. -/
def character.is_standing_out (P : params) (lvl : level) (c : character) : standable_out :=
  let a := lvl.standable (c.feet_x - P.FeetWidth) c.feet_y
  if a.ok then a
  else
    let b := lvl.standable (c.feet_x + P.FeetWidth) c.feet_y
    { ok := b.ok,
      friction := b.friction <|> a.friction,
      damage := b.damage <|> a.damage,
      adjust_y := b.adjust_y <|> a.adjust_y,
      standing_on := b.standing_on <|> a.standing_on }

def character.is_standing (P : params) (lvl : level) (c : character) : Bool :=
  (c.is_standing_out P lvl).ok

/-- The loops `while(!is_standing(*lvl_) && --max) set_pos(x(), y() + dy)` of
`try_to_make_standing`; the counter is the number of moves still allowed. -/
def character.step_until_standing (P : params) (lvl : level) (dy : Int) :
    Nat → character → character
  | 0, c => c
  | n + 1, c =>
    if c.is_standing P lvl then c
    else character.step_until_standing P lvl dy n (c.set_pos c.x_ (c.y_ + dy))

def MaxStep : Int := 3

def character.try_to_make_standing (P : params) (lvl : level) (c : character) : character :=
  let c1 := character.step_until_standing P lvl 1 2 c
  if c1.is_standing P lvl then c1
  else
    let c2 := c1.set_pos c1.x_ (c1.y_ - MaxStep)
    let c3 := character.step_until_standing P lvl (-1) 2 c2
    if c3.is_standing P lvl then c3
    else c3.set_pos c3.x_ (c3.y_ + MaxStep)

/-! ## Slope measurement and the stand family -/

def INT_MIN : Int := -2147483648

/-- The value an `int` operation leaves when its exact result is `n`: a result
outside the 32-bit range comes out reduced modulo `2^32` into
`-2^31 .. 2^31 - 1` (two's complement). -/
def wrap_int (n : Int) : Int := (n + 2147483648) % 4294967296 - 2147483648

/-- The loop `for(int n = 0; !lvl_->solid(xpos, ypos) && n != 10; ++n) ++ypos`. -/
def probe_down (lvl : level) (xpos : Int) : Nat → Int → Int
  | 0, ypos => ypos
  | n + 1, ypos => if lvl.solid xpos ypos then ypos else probe_down lvl xpos n (ypos + 1)

/-- The fallback loop of the wide probe: re-issue both queries, then narrow the
range, while a side lacks ground and the range is positive. -/
def slope_retry (lvl : level) (xpos ypos forward : Int) : Nat → Int → Int → Int → Int × Int × Int
  | 0, range, y1, y2 => (range, y1, y2)
  | n + 1, range, y1, y2 =>
    if (y1 = INT_MIN ∨ y2 = INT_MIN) ∧ range > 0 then
      slope_retry lvl xpos ypos forward n (range - 1)
        (lvl.find_ground_level (xpos + forward * range) ypos (range + 1))
        (lvl.find_ground_level (xpos - forward * range) ypos (range + 1))
    else (range, y1, y2)

def character.slope_standing_on (P : params) (lvl : level) (c : character) (range : Int) : Int :=
  if !c.is_standing P lvl then 0
  else
    let forward : Int := if c.face_right_ then 1 else -1
    let xpos := c.feet_x
    let ypos := probe_down lvl xpos 10 c.feet_y
    if range = 1 then
      if lvl.solid (xpos + forward) (ypos - 1) && !lvl.solid (xpos - forward) ypos then 45
      else if !lvl.solid (xpos + forward) ypos && lvl.solid (xpos - forward) (ypos - 1) then -45
      else 0
    else
      if !c.is_standing P lvl then 0
      else
        let y1 := lvl.find_ground_level (xpos + forward * range) ypos (range + 1)
        let y2 := lvl.find_ground_level (xpos - forward * range) ypos (range + 1)
        let r := slope_retry lvl xpos ypos forward range.toNat range y1 y2
        if r.1 = 0 then 0
        else
          let dy := r.2.2 - r.2.1
          let dx := r.1 * 2
          (dy * 45).tdiv dx

def character.change_to_stand_frame (P : params) (lvl : level) (c : character) : character :=
  if (c.type_.stand_up_slope_frame.isSome && c.type_.stand_down_slope_frame.isSome) then
    let slope := c.slope_standing_on P lvl P.default_slope_range
    if slope < 0 then c.change_frame c.type_.stand_down_slope_frame
    else if slope > 0 then c.change_frame c.type_.stand_up_slope_frame
    else c.change_frame c.type_.get_frame
  else c.change_frame c.type_.get_frame

def character.in_stand_frame (c : character) : Bool :=
  decide (some c.current_frame_ = c.type_.get_frame) ||
  decide (some c.current_frame_ = c.type_.idle_frame) ||
  decide (some c.current_frame_ = c.type_.stand_up_slope_frame) ||
  decide (some c.current_frame_ = c.type_.stand_down_slope_frame)

/-! ## Intents -/

def character.set_velocity (c : character) (vx vy : Int) : character :=
  { c with velocity_x_ := vx, velocity_y_ := vy }

/-- Lines 607 to 610 of `set_face_right`: flip the facing and shift the position
back so that the feet keep their x coordinate. -/
def character.turn_about (c : character) (facing : Bool) : character :=
  let original_pos := c.feet_x
  let c2 : character := { c with face_right_ := facing }
  let diff_x := c2.feet_x - original_pos
  c2.set_pos (c2.x_ - diff_x) c2.y_

def character.set_face_right (P : params) (lvl : level) (c : character) (facing : Bool) :
    character :=
  if facing = c.face_right_ then c
  else
    character.turn_about
      (if c.is_standing P lvl || decide (some c.current_frame_ = c.type_.fly_frame) then
        c.change_frame c.type_.turn_frame
      else c) facing

/-- Lines 671 to 675 of `walk`, after the facing is set; `standing` was read
before that. -/
def character.walk_on (standing : Bool) (move_right : Bool) (c : character) : character :=
  let run_bonus : Int := if some c.current_frame_ = c.type_.run_frame then 2 else 1
  let vx := c.velocity_x_ +
    (if standing then c.walk_speed_ * run_bonus else c.glide_speed_) * (if move_right then 1 else -1)
  if standing = true ∧ some c.current_frame_ ≠ c.type_.walk_frame ∧
      c.type_.walk_frame.isSome = true ∧ some c.current_frame_ ≠ c.type_.jump_frame ∧
      some c.current_frame_ ≠ c.type_.turn_frame ∧
      some c.current_frame_ ≠ c.type_.run_frame then
    character.change_frame (c.set_velocity vx c.velocity_y_) c.type_.walk_frame
  else c.set_velocity vx c.velocity_y_

def character.walk (P : params) (lvl : level) (c : character) (move_right : Bool) : character :=
  if some c.current_frame_ = c.type_.slide_frame ∨ some c.current_frame_ = c.type_.spring_frame ∨
      some c.current_frame_ = c.type_.die_frame ∨ some c.current_frame_ = c.type_.turn_frame ∨
      some c.current_frame_ = c.type_.gethit_frame then c
  else character.walk_on (c.is_standing P lvl) move_right (c.set_face_right P lvl move_right)

def character.run (c : character) (_move_right : Bool) : character :=
  if some c.current_frame_ = c.type_.walk_frame then c.change_frame c.type_.run_frame else c

/-- Lines 689 to 694 of `fly`, after the facing is set. -/
def character.fly_on (move_right : Bool) (lift : Int) (c : character) : character :=
  let vx := c.velocity_x_ + c.glide_speed_ * (if move_right then 1 else -1)
  let vy := c.velocity_y_ + lift
  if some c.current_frame_ ≠ c.type_.fly_frame ∧ some c.current_frame_ ≠ c.type_.turn_frame ∧
      some c.current_frame_ ≠ c.type_.spring_frame then
    character.change_frame (c.set_velocity vx vy) c.type_.fly_frame
  else c.set_velocity vx vy

def character.fly (P : params) (lvl : level) (c : character) (move_right : Bool) (lift : Int) :
    character :=
  character.fly_on move_right lift (c.set_face_right P lvl move_right)

/-- The tail `if(type_->jump_frame()) change_frame(type_->jump_frame())` of both
jump branches. -/
def character.to_jump_frame (c : character) : character :=
  if c.type_.jump_frame.isSome then c.change_frame c.type_.jump_frame else c

/-- Lines 702, 703: the wall jump off a slide, after the facing is flipped. -/
def character.wall_jump (c : character) : character :=
  c.set_velocity (c.velocity_x_ + c.glide_speed_ * (if c.face_right_ then 15 else -15))
    ((-c.jump_power_ * 3).tdiv 4)

/-- Lines 708 to 712: add the platform's velocity, then set the jump velocity. -/
def character.ground_jump (platform : Option other_entity) (c : character) : character :=
  let c1 :=
    match platform with
    | some p => c.set_velocity (c.velocity_x_ + p.velocity_x) (c.velocity_y_ + p.velocity_y)
    | none => c
  c1.set_velocity c1.velocity_x_ (-c1.jump_power_)

def character.jump (P : params) (lvl : level) (c : character) : character :=
  if c.last_jump_ = false ∧ some c.current_frame_ = c.type_.slide_frame then
    character.to_jump_frame (character.wall_jump (c.set_face_right P lvl (!c.face_right_)))
  else if c.last_jump_ = false ∧ c.is_standing P lvl = true then
    character.to_jump_frame (c.ground_jump (c.is_standing_out P lvl).standing_on)
  else if c.velocity_y_ < 0 then c.set_velocity c.velocity_x_ (c.velocity_y_ - c.boost_power_)
  else c

/-- The launch of `unboarded`: the vehicle copy and the driver are handed to the
level (recorded in the trace) and the driver receives its launch velocity. -/
def character.unboarded (c : character) : character :=
  { c with
    trace := c.trace ++ [event.unboarded],
    driver_ := c.driver_.map (fun d =>
      { d with velocity_x_ := 600 * (if c.face_right_ then 1 else -1), velocity_y_ := -600 }) }

/-- Lines 727 to 732 of `jump_down`. -/
def character.drop_through (P : params) (lvl : level) (c : character) : character :=
  if c.is_standing P lvl then
    if character.is_standing P lvl (c.set_pos c.x_ (c.y_ + 1)) then
      character.set_pos (c.set_pos c.x_ (c.y_ + 1)) c.x_ (c.y_ + 1 - 1)
    else c.set_pos c.x_ (c.y_ + 1)
  else c

def character.jump_down (P : params) (lvl : level) (c : character) : character :=
  character.drop_through P lvl (if c.driver_.isSome then c.unboarded else c)

def character.crouch (P : params) (lvl : level) (c : character) : character :=
  if c.is_standing P lvl = true ∧ some c.current_frame_ ≠ c.type_.crouch_frame then
    c.change_frame c.type_.crouch_frame
  else c

def character.uncrouch (c : character) : character :=
  if c.time_in_frame_ = c.current_frame.duration.tdiv 2 - 1 then
    { c with time_in_frame_ := c.time_in_frame_ + 1 }
  else c

def character.lookup (P : params) (lvl : level) (c : character) : character :=
  if c.is_standing P lvl = true ∧ some c.current_frame_ ≠ c.type_.lookup_frame then
    c.change_frame c.type_.lookup_frame
  else c

def character.unlookup (c : character) : character :=
  if c.time_in_frame_ = c.current_frame.duration.tdiv 2 - 1 then
    { c with time_in_frame_ := c.time_in_frame_ + 1 }
  else c

/-- The attack intent; `look_up` is the value of the virtual `look_up()`. -/
def character.attack (P : params) (lvl : level) (look_up : Bool) (c : character) : character :=
  if c.is_standing P lvl then
    if c.type_.run_attack_frame.isSome = true ∧ some c.current_frame_ = c.type_.run_frame then
      c.change_frame c.type_.run_attack_frame
    else if c.type_.up_attack_frame.isSome = true ∧ look_up = true then
      c.change_frame c.type_.up_attack_frame
    else c.change_frame c.type_.attack_frame
  else if some c.current_frame_ = c.type_.jump_frame ∨ some c.current_frame_ = c.type_.fall_frame then
    c.change_frame c.type_.jump_attack_frame
  else c

/-- The callback `spring_off_head` (lines 618 to 625): an actor that is jumped on
switches to its spring frame, if it has one. -/
def character.spring_off_head (c : character) (_jumped_on_by : other_entity) : character :=
  if c.type_.spring_frame.isSome then c.change_frame c.type_.spring_frame else c

/-! ## Damage -/

/-- Lines 962 to 967 of `get_hit`: a human actor tells the body it overlaps that
it hit the player. -/
def character.notify_hitter (lvl : level) (c : character) : character :=
  if c.is_human_ then
    match lvl.collide_rect c.body_rect with
    | some hitby => c.log (.hit_player hitby)
    | none => c
  else c

/-- Lines 969, 970 of `get_hit`. -/
def character.lose_hitpoint (P : params) (c : character) : character :=
  { c with hitpoints_ := c.hitpoints_ - 1, invincible_ := P.invincibility_duration }

/-- Lines 972 to 976 of `get_hit`: the die frame, else the gethit frame. -/
def character.hurt_frame (c : character) : character :=
  if c.hitpoints_ ≤ 0 ∧ c.type_.die_frame.isSome = true then c.change_frame c.type_.die_frame
  else if c.type_.gethit_frame.isSome then c.change_frame c.type_.gethit_frame
  else c

def character.get_hit (P : params) (lvl : level) (c : character) : Except fault character :=
  if c.invincible_ ≠ 0 then .error .assertion
  else
    .ok (character.hurt_frame
      (character.lose_hitpoint P (character.notify_hitter lvl (c.log .get_hit))))

/-! ## Control layer -/

/-- The formula collaborator: each optional expression is a black-box function of
the actor it is executed against (`execute(*this).as_int()`). -/
structure formulas where
  walk_formula_ : Option (character → Int)
  jump_formula_ : Option (character → Int)
  fly_formula_ : Option (character → Int)
  xpos_formula_ : Option (character → Int)
  ypos_formula_ : Option (character → Int)

/-- Held inputs of one tick; each field is the disjunction of the key and the
joystick test of the source (`jump_button`: key a or button 1 or 3,
`attack_button`: key s or button 0 or 2). -/
structure controls where
  left : Bool
  right : Bool
  up : Bool
  down : Bool
  jump_button : Bool
  attack_button : Bool
deriving DecidableEq, Repr

/-- Lines 1117 to 1120: advance the formula counter, wrapping at the frequency. -/
def character.count_formula_tick (c : character) : character :=
  { c with time_since_last_formula_ :=
      if c.time_since_last_formula_ + 1 = c.formula_test_frequency_ then 0
      else c.time_since_last_formula_ + 1 }

/-- Lines 1122 to 1126: re-evaluate the fly expression when the counter is 0. -/
def character.eval_fly (F : formulas) (c : character) : character :=
  match F.fly_formula_ with
  | some f => if c.time_since_last_formula_ = 0 then { c with fly_result_ := f c } else c
  | none => c

/-- Lines 1129 to 1131: re-evaluate the walk expression when the counter is 0. -/
def character.eval_walk (f : character → Int) (c : character) : character :=
  if c.time_since_last_formula_ = 0 then { c with walk_result_ := f c } else c

/-- Lines 1133 to 1139: the horizontal intent issued from the cached results. -/
def character.issue_walk (P : params) (lvl : level) (F : formulas) (c : character) : character :=
  if F.fly_formula_.isSome then c.fly P lvl (decide (c.walk_result_ < 0)) c.fly_result_
  else if c.walk_result_ < 0 then c.walk P lvl false
  else if c.walk_result_ > 0 then c.walk P lvl true
  else c

/-- Lines 1128 to 1140. -/
def character.walk_block (P : params) (lvl : level) (F : formulas) (c : character) : character :=
  match F.walk_formula_ with
  | some f => character.issue_walk P lvl F (c.eval_walk f)
  | none => c

def character.eval_jump (f : character → Int) (c : character) : character :=
  if c.time_since_last_formula_ = 0 then { c with jump_result_ := f c } else c

def character.issue_jump (P : params) (lvl : level) (c : character) : character :=
  if c.jump_result_ ≠ 0 then c.jump P lvl else c

/-- Lines 1142 to 1149. -/
def character.jump_block (P : params) (lvl : level) (F : formulas) (c : character) : character :=
  match F.jump_formula_ with
  | some f => character.issue_jump P lvl (c.eval_jump f)
  | none => c

/-- Lines 1151 to 1153. -/
def character.xpos_block (F : formulas) (c : character) : character :=
  match F.xpos_formula_ with
  | some f => c.set_pos (f c) c.y_
  | none => c

/-- Lines 1155 to 1157. -/
def character.ypos_block (F : formulas) (c : character) : character :=
  match F.ypos_formula_ with
  | some f => c.set_pos c.x_ (f c)
  | none => c

/-- The scripted strategy, `character::control`. -/
def character.control (P : params) (lvl : level) (F : formulas) (c : character) : character :=
  if some c.current_frame_ = c.type_.die_frame then c
  else if c.type_.is_vehicle_ && c.driver_.isNone then c
  else
    character.ypos_block F (character.xpos_block F (character.jump_block P lvl F
      (character.walk_block P lvl F (character.eval_fly F c.count_formula_tick))))

def double_tap_cycles : Int := 10

def character.set_last_jump (c : character) (b : Bool) : character := { c with last_jump_ := b }

/-- Lines 1220 to 1229: the jump button. -/
def character.pc_jump (P : params) (lvl : level) (K : controls) (c : character) : character :=
  if K.jump_button then
    character.set_last_jump (if K.down then c.jump_down P lvl else c.jump P lvl) true
  else c.set_last_jump false

/-- Lines 1234 to 1242, reached when down is not held: release a crouch, then
look up or release a lookup. -/
def character.pc_look (P : params) (lvl : level) (K : controls) (c : character) : character :=
  let c2 := if some c.current_frame_ = c.type_.crouch_frame then c.uncrouch else c
  if K.up then c2.lookup P lvl
  else if some c2.current_frame_ = c2.type_.lookup_frame then c2.unlookup
  else c2

/-- Lines 1251 to 1264: the left direction with double-tap detection. -/
def character.pc_left (P : params) (lvl : level) (K : controls) (s : character × pc_state) :
    character × pc_state :=
  if K.left then
    let d := s.1.walk P lvl false
    if !s.2.prev_left_ || s.2.running_ then
      if decide (s.2.last_left_ > d.cycle_num_ - double_tap_cycles) || s.2.running_ then
        (d.run false, { s.2 with running_ := true, last_left_ := d.cycle_num_, prev_left_ := true })
      else (d, { s.2 with last_left_ := d.cycle_num_, prev_left_ := true })
    else (d, { s.2 with prev_left_ := true })
  else (s.1, { s.2 with prev_left_ := false })

/-- Lines 1266 to 1279: the right direction with double-tap detection. -/
def character.pc_right (P : params) (lvl : level) (K : controls) (s : character × pc_state) :
    character × pc_state :=
  if K.right then
    let d := s.1.walk P lvl true
    if !s.2.prev_right_ || s.2.running_ then
      if decide (s.2.last_right_ > d.cycle_num_ - double_tap_cycles) || s.2.running_ then
        (d.run true, { s.2 with running_ := true, last_right_ := d.cycle_num_, prev_right_ := true })
      else (d, { s.2 with last_right_ := d.cycle_num_, prev_right_ := true })
    else (d, { s.2 with prev_right_ := true })
  else (s.1, { s.2 with prev_right_ := false })

/-- Lines 1216 to 1218: running stops when no direction is held. -/
def pc_state.stop_running (K : controls) (pc : pc_state) : pc_state :=
  if pc.running_ && !K.left && !K.right then { pc with running_ := false } else pc

/-- Lines 1231 to 1279, after the jump button is handled. -/
def character.pc_rest (P : params) (lvl : level) (K : controls) (c : character)
    (pc : pc_state) : character × pc_state :=
  if K.down then (c.crouch P lvl, pc)
  else if K.attack_button then (character.attack P lvl K.up (c.pc_look P lvl K), pc)
  else character.pc_right P lvl K (character.pc_left P lvl K (c.pc_look P lvl K, pc))

/-- The interactive strategy, `pc_character::control`, on the actor and the
members of `pc_character`. -/
def character.pc_control (P : params) (lvl : level) (K : controls) (c : character)
    (pc : pc_state) : character × pc_state :=
  if some c.current_frame_ = c.type_.attack_frame ∨
      some c.current_frame_ = c.type_.jump_attack_frame ∨
      some c.current_frame_ = c.type_.up_attack_frame ∨
      some c.current_frame_ = c.type_.run_attack_frame then
    if some c.current_frame_ = c.type_.run_attack_frame then
      (c.set_velocity (c.velocity_x_ + c.current_frame.accel_x * (if c.face_right_ then 1 else -1))
         (c.velocity_y_ + c.current_frame.accel_y),
       { pc with running_ := false })
    else (c, { pc with running_ := false })
  else character.pc_rest P lvl K (c.pc_jump P lvl K) (pc.stop_running K)

/-- What one tick receives from outside: the value of `rand()`, the held inputs
and the formulas of the actor. -/
structure tick_input where
  rand : Nat
  keys : controls
  script : formulas

def character.set_pc (c : character) (pc : pc_state) : character := { c with pc_ := some pc }

/-- The virtual call `control(lvl)` of `process`: the interactive strategy for a
`pc_character`, the scripted one otherwise. -/
def character.do_control (P : params) (lvl : level) (inp : tick_input) (c : character) :
    character :=
  match c.pc_ with
  | some pc => character.set_pc (c.pc_control P lvl inp.keys pc).1 (c.pc_control P lvl inp.keys pc).2
  | none => c.control P lvl inp.script

/-! ## One simulation tick -/

def character.reset_timer (c : character) : character := { c with time_in_frame_ := 0 }

/-- The per-state completion rule applied when a frame's duration elapses
(lines 206 to 241). -/
def character.natural_transition (P : params) (lvl : level) (rand : Nat) (c : character) :
    character :=
  if some c.current_frame_ = c.type_.get_frame then
    c.change_frame (if rand % 5 = 0 then c.type_.idle_frame else c.type_.get_frame)
  else if some c.current_frame_ = c.type_.stand_up_slope_frame then c.reset_timer
  else if some c.current_frame_ = c.type_.stand_down_slope_frame then c.reset_timer
  else if some c.current_frame_ = c.type_.idle_frame then c.change_to_stand_frame P lvl
  else if some c.current_frame_ = c.type_.walk_frame then
    if c.velocity_x_.tdiv 100 = 0 then character.change_to_stand_frame P lvl c.reset_timer
    else c.reset_timer
  else if some c.current_frame_ = c.type_.fly_frame then c.reset_timer
  else if some c.current_frame_ = c.type_.crouch_frame ∨
      some c.current_frame_ = c.type_.lookup_frame then c.change_to_stand_frame P lvl
  else if some c.current_frame_ = c.type_.attack_frame ∨
      some c.current_frame_ = c.type_.up_attack_frame then c.change_to_stand_frame P lvl
  else if some c.current_frame_ = c.type_.run_attack_frame then c.change_to_stand_frame P lvl
  else if some c.current_frame_ = c.type_.slide_frame then c.change_frame c.type_.fall_frame
  else if some c.current_frame_ = c.type_.jump_attack_frame then c.change_frame c.type_.fall_frame
  else if some c.current_frame_ = c.type_.spring_frame then
    character.change_to_stand_frame P lvl c.reset_timer
  else if some c.current_frame_ = c.type_.turn_frame then c.change_to_stand_frame P lvl
  else if some c.current_frame_ = c.type_.run_frame then
    { c with time_in_frame_ := 0, current_frame_ := .run }
  else c

/-- Lines 185 to 187: a hitpoint is lost below the lower boundary of the level. -/
def character.out_of_bounds (lvl : level) (c : character) : character :=
  if c.y_ > lvl.boundaries_y2 then { c with hitpoints_ := c.hitpoints_ - 1 } else c

/-- Lines 189 to 195: remember y, count the cycle, advance the frame timer. -/
def character.advance_timers (c : character) : character :=
  { c with previous_y_ := c.y_, cycle_num_ := c.cycle_num_ + 1,
           time_in_frame_ := c.time_in_frame_ + 1 }

/-- Lines 199 to 203: half way through a crouch or lookup the timer is held. -/
def character.crouch_lock (c : character) : character :=
  if c.time_in_frame_ = c.current_frame.duration.tdiv 2 ∧
      (some c.current_frame_ = c.type_.crouch_frame ∨
       some c.current_frame_ = c.type_.lookup_frame) then
    { c with time_in_frame_ := c.time_in_frame_ - 1 }
  else c

/-- Lines 205 to 242: the duration-expiry step. -/
def character.expire (P : params) (lvl : level) (rand : Nat) (c : character) : character :=
  if c.time_in_frame_ = c.current_frame.duration ∧
      some c.current_frame_ ≠ c.type_.jump_frame ∧
      some c.current_frame_ ≠ c.type_.fall_frame ∧
      some c.current_frame_ ≠ c.type_.gethit_frame ∧
      some c.current_frame_ ≠ c.type_.die_frame then
    c.natural_transition P lvl rand
  else c

/-- Lines 244 to 246: a walk or run whose speed rounds to zero stands. -/
def character.stop_walking (P : params) (lvl : level) (c : character) : character :=
  if (some c.current_frame_ = c.type_.walk_frame ∨ some c.current_frame_ = c.type_.run_frame) ∧
      c.velocity_x_.tdiv 100 = 0 then
    c.change_to_stand_frame P lvl
  else c

/-- Lines 184 to 246 of `process`. -/
def character.start_tick (P : params) (lvl : level) (rand : Nat) (c : character) : character :=
  character.stop_walking P lvl
    (character.expire P lvl rand (character.crouch_lock (character.advance_timers
      (c.out_of_bounds lvl))))

/-- Line 250 and lines 256 to 258: clear the collided flag, count down invincibility. -/
def character.count_invincible (c : character) : character :=
  { c with collided_since_last_frame_ := false,
           invincible_ := if c.invincible_ ≠ 0 then c.invincible_ - 1 else c.invincible_ }

/-- Lines 250 to 258: whether the tick started standing (second component), the
reported adjustment applied, the flag cleared and invincibility counted down. -/
def character.pre_sweep (P : params) (lvl : level) (c : character) : character × Bool :=
  (character.count_invincible
     (c.set_pos c.x_ (c.y_ + (c.is_standing_out P lvl).adjust_y.getD 0)),
   c.is_standing P lvl)

/-- Outcome of scanning the leading-edge column. -/
inductive scan where
  | clear | collide | hit
deriving DecidableEq, Repr

/-- The damage `solid` reports for a cell: none when the actor is invincible
(the query is then made without a damage output). -/
def seen_damage (lvl : level) (invincible : Int) (x y : Int) : Int :=
  if invincible ≠ 0 then 0 else lvl.solid_damage x y

/-- The column scan of the horizontal sweep, `count` cells downward from `ypos`:
the first solid cell decides.  (The source loops while `ypos != yend`; frames
have a non-negative collision height.) -/
def scan_column (lvl : level) (invincible : Int) (xpos : Int) : Nat → Int → scan
  | 0, _ => .clear
  | n + 1, ypos =>
    if lvl.solid xpos ypos then
      if seen_damage lvl invincible xpos ypos = 0 then .collide else .hit
    else scan_column lvl invincible xpos n (ypos + 1)

/-- The row scan of the upward sweep: a damaging cell sets `hit` and the scan goes
on, a non-damaging solid cell sets `collide` and ends it.  Result: (collide, hit). -/
def scan_row (lvl : level) (invincible : Int) (ypos : Int) : Nat → Int → Bool → Bool × Bool
  | 0, _, hit => (false, hit)
  | n + 1, xpos, hit =>
    if lvl.solid xpos ypos then
      if seen_damage lvl invincible xpos ypos = 0 then (true, hit)
      else scan_row lvl invincible ypos n (xpos + 1) true
    else scan_row lvl invincible ypos n (xpos + 1) hit

/-- The entity test shared by the horizontal and the upward sweep, run when the
scan found no hit: a harmful body hits a human actor unless invincible, any
other entity blocks.  Result: (collide, hit). -/
def entity_test (c : character) (collide_with : Option other_entity) (collide : Bool) :
    Bool × Bool :=
  match collide_with with
  | some e =>
    if e.body_harmful && c.is_human_ then (collide, decide (c.invincible_ = 0))
    else (true, false)
  | none => (collide, false)

/-- Whether an iteration of a sweep goes on to the next one or leaves the loop. -/
inductive flow where
  | next (c : character)
  | done (c : character)

/-- The actor an iteration leaves behind. -/
def flow.state : flow → character
  | .next c => c
  | .done c => c

/-- The loop `while(is_standing(lvl, NULL, NULL, &adjust_y)) set_pos(x(), y()-1)`
of the horizontal sweep, with the value left in `adjust_y`. -/
def character.climb (P : params) (lvl : level) : Nat → character → Int →
    Except fault (character × Int)
  | 0, _, _ => .error .out_of_fuel
  | fuel + 1, c, adjust_y =>
    if c.is_standing P lvl then
      character.climb P lvl fuel (c.set_pos c.x_ (c.y_ - 1))
        ((c.is_standing_out P lvl).adjust_y.getD adjust_y)
    else .ok (c, (c.is_standing_out P lvl).adjust_y.getD adjust_y)

/-- The direction of the horizontal sweep. -/
def character.sweep_dir (c : character) : Int := if c.velocity_x_.tdiv 100 > 0 then 1 else -1

/-- The x coordinate of the column tested by the horizontal sweep. -/
def character.leading_x (c : character) : Int :=
  (if c.sweep_dir < 0 then c.body_rect.x else c.body_rect.x2 - 1) + c.sweep_dir

/-- The column scan of the horizontal sweep at the actor's leading edge. -/
def character.leading_scan (lvl : level) (c : character) : scan :=
  scan_column lvl c.invincible_ c.leading_x
    ((c.y_ + c.current_frame.collide_y + c.current_frame.collide_h) -
      (c.y_ + c.current_frame.collide_y)).toNat
    (c.y_ + c.current_frame.collide_y)

/-- The entity the level reports in the leading-edge column. -/
def character.leading_entity (lvl : level) (c : character) : Option other_entity :=
  lvl.collide_rect
    { x := c.leading_x, y := c.y_ + c.current_frame.collide_y, w := 1,
      h := (c.y_ + c.current_frame.collide_y + c.current_frame.collide_h) -
        (c.y_ + c.current_frame.collide_y) }

/-- What the horizontal sweep finds in the leading-edge column: (collide, hit). -/
def character.hsweep_test (lvl : level) (c : character) : Bool × Bool :=
  if c.leading_scan lvl = .hit then (false, true)
  else entity_test c (c.leading_entity lvl) (decide (c.leading_scan lvl = .collide))

/-- The condition of line 307 under which a blocked actor switches to slide. -/
def character.slides_on_wall (c : character) : Prop :=
  (some c.current_frame_ = c.type_.fall_frame ∨ some c.current_frame_ = c.type_.jump_frame) ∧
    c.type_.slide_frame.isSome = true ∧ c.velocity_y_ ≤ 100 ∧
    decide (c.velocity_x_ > 0) = c.face_right_ ∧ |c.velocity_x_| > 300

instance (c : character) : Decidable c.slides_on_wall := by
  unfold character.slides_on_wall
  infer_instance

/-- Lines 307 to 310: colliding into a wall from jump or fall switches to slide. -/
def character.wall_slide (c : character) : character :=
  if c.slides_on_wall then
    character.set_velocity (c.change_frame c.type_.slide_frame)
      (c.change_frame c.type_.slide_frame).velocity_x_ 0
  else c

/-- Lines 306 to 314: the blocked branch of the horizontal sweep. -/
def character.block (c : character) : character :=
  { c.wall_slide with velocity_x_ := 0, collided_since_last_frame_ := true }

/-- Lines 318 to 330, after the climb loop left `adjust_y`. -/
def character.after_climb (P : params) (lvl : level) (started_standing : Bool) (c : character)
    (adjust_y : Int) : character :=
  if started_standing then
    character.try_to_make_standing P lvl (c.set_pos c.x_ (c.y_ + 1 + adjust_y))
  else c.set_pos c.x_ (c.y_ + 1 + adjust_y)

/-- One iteration of the horizontal sweep (lines 262 to 330). -/
def character.hsweep_step (P : params) (lvl : level) (fuel : Nat) (started_standing : Bool)
    (c : character) : Except fault flow :=
  if (c.hsweep_test lvl).2 then
    match character.get_hit P lvl (c.set_velocity (-c.sweep_dir * 200) (-400)) with
    | .error e => .error e
    | .ok c1 => .ok (.done c1)
  else if (c.hsweep_test lvl).1 then .ok (.done c.block)
  else
    match character.climb P lvl fuel (c.set_pos (c.x_ + c.sweep_dir) (c.y_ - 1)) 0 with
    | .error e => .error e
    | .ok r => .ok (.next (character.after_climb P lvl started_standing r.1 r.2))

/-- The loop of the horizontal sweep; the counter is the number of iterations
left of `std::abs(velocity_x_/100)`, which an iteration that goes on does not change. -/
def character.hsweep_loop (P : params) (lvl : level) (fuel : Nat) (started_standing : Bool) :
    Nat → character → Except fault character
  | 0, c => .ok c
  | n + 1, c =>
    match c.hsweep_step P lvl fuel started_standing with
    | .error e => .error e
    | .ok (.done c1) => .ok c1
    | .ok (.next c1) => character.hsweep_loop P lvl fuel started_standing n c1

def character.hsweep (P : params) (lvl : level) (fuel : Nat) (started_standing : Bool)
    (c : character) : Except fault character :=
  character.hsweep_loop P lvl fuel started_standing (c.velocity_x_.tdiv 100).natAbs c

/-- The effect on the rider of `c->boarded(lvl, this)`: its frame pointer is set
to the stand frame directly; the vehicle takes over (recorded in the trace). -/
def character.board_vehicle (c : character) (vehicle : other_entity) : character :=
  { c with current_frame_ := .stand, trace := c.trace ++ [event.boarded vehicle] }

/-- The entity under the feet (lines 340 to 343). -/
def character.under_feet (P : params) (lvl : level) (c : character) : Option other_entity :=
  lvl.collide_point (c.feet_x - P.FeetWidth) c.feet_y <|>
    lvl.collide_point (c.feet_x + P.FeetWidth) c.feet_y

/-- Lines 346 to 351: the springy bounce off the entity. -/
def character.spring_up (o : other_entity) (c : character) : character :=
  if o.springiness > 0 then
    c.set_velocity c.velocity_x_
      (if o.velocity_y < 0 then -o.springiness * 13 + o.velocity_y else -o.springiness * 13)
  else c

/-- Lines 356 to 358: a bounce turns the gethit frame into the jump frame. -/
def character.leave_gethit (c : character) : character :=
  if some c.current_frame_ = c.type_.gethit_frame then c.change_frame c.type_.jump_frame else c

/-- The bounce off the head of the entity under the feet (lines 340 to 361). -/
def character.bounce (P : params) (lvl : level) (c : character) : character :=
  match c.under_feet P lvl with
  | some o => character.log (character.leave_gethit (c.spring_up o)) (.spring_off_head o)
  | none => c

/-- The vehicle boarded at the feet, `lvl.board(feet_x(), feet_y())`, which a
vehicle-type actor does not query. -/
def character.boarding (lvl : level) (c : character) : Option other_entity :=
  if !c.type_.is_vehicle_ then lvl.board c.feet_x c.feet_y else none

/-- The downward sweep, `for(int n = 0; n < velocity_y_/100; ++n)`; the bound is
re-read at every iteration.  The flag of the result tells that a vehicle was
boarded, which ends the tick. -/
def character.down_loop (P : params) (lvl : level) : Nat → Int → character →
    Except fault (character × Bool)
  | 0, _, _ => .error .out_of_fuel
  | fuel + 1, n, c =>
    if n < c.velocity_y_.tdiv 100 then
      if c.is_standing P lvl then .ok (c.set_velocity c.velocity_x_ 0, false)
      else
        match character.boarding lvl (c.bounce P lvl) with
        | some v => .ok (character.board_vehicle (c.bounce P lvl) v, true)
        | none =>
          character.down_loop P lvl fuel (n + 1)
            (character.set_pos (c.bounce P lvl) (c.bounce P lvl).x_ ((c.bounce P lvl).y_ + 1))
    else .ok (c, false)

def character.down_sweep (P : params) (lvl : level) (fuel : Nat) (c : character) :
    Except fault (character × Bool) :=
  character.down_loop P lvl fuel 0 c

/-- The row scan of the upward sweep above the collision box. -/
def character.upper_scan (lvl : level) (c : character) : Bool × Bool :=
  scan_row lvl c.invincible_ (c.y_ + c.current_frame.collide_y - 1)
    (c.collide_right - c.collide_left).toNat c.collide_left false

/-- What the upward sweep finds above the collision box: (collide, hit). -/
def character.upsweep_test (lvl : level) (c : character) : Bool × Bool :=
  if (c.upper_scan lvl).2 then ((c.upper_scan lvl).1, true)
  else entity_test c (lvl.collide_rect c.body_rect) (c.upper_scan lvl).1

/-- The player striking a non-human actor that is not invincible (lines 411, 412
and 479, 480). -/
def character.struck_by (lvl : level) (c : character) : Option other_entity :=
  if !c.is_human_ && decide (c.invincible_ = 0) then lvl.hit_by_player c.body_rect else none

/-- Lines 424 to 429: the blocked branch of the upward sweep. -/
def character.bump_head (c : character) : character :=
  { c with collided_since_last_frame_ := true, velocity_y_ := 0 }

/-- One iteration of the upward sweep (lines 376 to 431). -/
def character.upsweep_step (P : params) (lvl : level) (c : character) : Except fault flow :=
  if (c.upsweep_test lvl).2 then
    match c.get_hit P lvl with
    | .error e => .error e
    | .ok c1 => .ok (.done c1)
  else
    match c.struck_by lvl with
    | some player =>
      match character.get_hit P lvl (c.set_face_right P lvl (!player.face_right)) with
      | .error e => .error e
      | .ok c1 => .ok (.done c1)
    | none =>
      if (c.upsweep_test lvl).1 then .ok (.done c.bump_head)
      else .ok (.next (c.set_pos c.x_ (c.y_ - 1)))

/-- The loop of the upward sweep; the counter is the number of iterations left
of `-velocity_y_/100`, which an iteration that goes on does not change. -/
def character.upsweep_loop (P : params) (lvl : level) : Nat → character → Except fault character
  | 0, c => .ok c
  | n + 1, c =>
    match c.upsweep_step P lvl with
    | .error e => .error e
    | .ok (.done c1) => .ok c1
    | .ok (.next c1) => character.upsweep_loop P lvl n c1

def character.upsweep (P : params) (lvl : level) (c : character) : Except fault character :=
  character.upsweep_loop P lvl ((-c.velocity_y_).tdiv 100).toNat c

/-- The first probe point `x1` of lines 436 to 442, before the swap. -/
def character.probe_x1 (c : character) : Int :=
  if (if c.face_right_ then (1 : Int) else -1) > 0 then c.current_frame.collide_x + c.x_
  else c.x_ + c.current_frame.width - c.current_frame.collide_x

/-- The second probe point `x2` of line 444, before the swap. -/
def character.probe_x2 (c : character) : Int :=
  c.probe_x1 + c.current_frame.collide_w * (if c.face_right_ then 1 else -1)

/-- One nudge of lines 451 to 465: move by `dx` when the probe is occupied. -/
def character.nudge (P : params) (lvl : level) (started_standing : Bool) (px py dx : Int)
    (c : character) : character :=
  if lvl.solid px py || lvl.collide_anyone px py then
    if started_standing then character.try_to_make_standing P lvl (c.set_pos (c.x_ + dx) c.y_)
    else c.set_pos (c.x_ + dx) c.y_
  else c

/-- Lines 434 to 470: the two lateral probes at foot level and the one-pixel
nudges; the probe points are those of the position before the first nudge. -/
def character.push_back (P : params) (lvl : level) (started_standing : Bool) (c : character) :
    character :=
  character.nudge P lvl started_standing (max c.probe_x1 c.probe_x2)
    (c.y_ + c.current_frame.collide_y + c.current_frame.collide_h) (-1)
    (character.nudge P lvl started_standing (min c.probe_x1 c.probe_x2)
      (c.y_ + c.current_frame.collide_y + c.current_frame.collide_h) 1 c)

/-- Lines 472 to 477: a human actor overlapping a harmful body. -/
def character.touch_harmful (P : params) (lvl : level) (c : character) : Except fault character :=
  if c.is_human_ && decide (c.invincible_ = 0) then
    match lvl.collide_rect c.body_rect with
    | some e => if e.body_harmful then c.get_hit P lvl else .ok c
    | none => .ok c
  else .ok c

/-- Lines 479 to 485: a non-human actor struck by the player. -/
def character.player_strike (P : params) (lvl : level) (c : character) : Except fault character :=
  match c.struck_by lvl with
  | some player => character.get_hit P lvl (c.set_face_right P lvl (!player.face_right))
  | none => .ok c

/-- Lines 472 to 485. -/
def character.overlap_hits (P : params) (lvl : level) (c : character) : Except fault character :=
  match c.touch_harmful P lvl with
  | .error e => .error e
  | .ok c1 => c1.player_strike P lvl

/-- The probe of `can_continue_sliding`. -/
def character.can_continue_sliding (lvl : level) (c : character) : Bool :=
  lvl.solid (if c.face_right_ then c.body_rect.x2 + 5 else c.body_rect.x - 5) c.body_rect.y2

/-- The friction factor of lines 494 to 500, in the arithmetic of `int`. -/
def character.tick_friction (P : params) (lvl : level) (c : character) : Int :=
  (wrap_int (wrap_int (((c.is_standing_out P lvl).friction.getD 0) + lvl.air_resistance) *
    c.type_.traction_)).tdiv 100

/-- Lines 487 to 492: the frame's `accel_x` signed by the facing is added to
`velocity_x_`. -/
def character.accelerated_x (c : character) : Int :=
  wrap_int (c.velocity_x_ +
    (if c.face_right_ then c.current_frame.accel_x else wrap_int (c.current_frame.accel_x * -1)))

/-- Lines 487 to 501: horizontal acceleration of the frame signed by the facing,
then the friction decay, in the arithmetic of `int`. -/
def character.apply_friction (P : params) (lvl : level) (c : character) : character :=
  c.set_velocity
    ((wrap_int (c.accelerated_x * wrap_int (100 - c.tick_friction P lvl))).tdiv 100)
    c.velocity_y_

/-- Lines 505 to 507: tell the entity stood on. -/
def character.greet_platform (standing_on : Option other_entity) (c : character) : character :=
  match standing_on with
  | some e => c.log (.stood_on_by e)
  | none => c

/-- Lines 509 to 511: landing clears the airborne frames. -/
def character.land (P : params) (lvl : level) (c : character) : character :=
  if some c.current_frame_ = c.type_.jump_frame ∨ some c.current_frame_ = c.type_.fall_frame ∨
      some c.current_frame_ = c.type_.gethit_frame ∨
      some c.current_frame_ = c.type_.slide_frame ∨
      some c.current_frame_ = c.type_.jump_attack_frame then
    c.change_to_stand_frame P lvl
  else c

/-- The condition of lines 512 to 521 under which an unsupported actor falls. -/
def character.should_fall (lvl : level) (c : character) : Prop :=
  c.in_stand_frame = true ∨ some c.current_frame_ = c.type_.walk_frame ∨
  some c.current_frame_ = c.type_.run_frame ∨
  some c.current_frame_ = c.type_.idle_frame ∨
  (c.velocity_y_ + c.current_frame.accel_y > 0 ∧
    some c.current_frame_ ≠ c.type_.jump_attack_frame ∧
    some c.current_frame_ ≠ c.type_.fall_frame ∧
    some c.current_frame_ ≠ c.type_.gethit_frame ∧
    some c.current_frame_ ≠ c.type_.fly_frame ∧
    (some c.current_frame_ ≠ c.type_.slide_frame ∨ c.can_continue_sliding lvl = false))

instance (lvl : level) (c : character) : Decidable (c.should_fall lvl) := by
  unfold character.should_fall
  infer_instance

/-- Lines 512 to 525. -/
def character.fall (lvl : level) (c : character) : character :=
  if c.should_fall lvl then
    if c.type_.fall_frame.isSome then c.change_frame c.type_.fall_frame else c
  else c

/-- Line 527. -/
def character.gravity (c : character) : character :=
  c.set_velocity c.velocity_x_ (c.velocity_y_ + c.current_frame.accel_y)

/-- Lines 502 to 525: damaging ground, else landing, else falling; the support is
the one read at line 498.  The accessor `invincible()` of line 502 is declared in
`character.hpp` (not among the sources) and is taken to return `invincible_`. -/
def character.ground_outcome (P : params) (lvl : level) (r : standable_out) (c : character) :
    Except fault character :=
  if r.damage.getD 0 ≠ 0 ∧ c.invincible_ = 0 then c.get_hit P lvl
  else if r.ok = true ∧ c.velocity_y_ ≥ 0 then
    .ok (character.land P lvl (c.greet_platform r.standing_on))
  else .ok (c.fall lvl)

/-- Lines 487 to 527: horizontal acceleration and friction, damaging ground,
landing or falling frame selection, vertical acceleration. -/
def character.settle (P : params) (lvl : level) (c : character) : Except fault character :=
  match character.ground_outcome P lvl (c.is_standing_out P lvl) (c.apply_friction P lvl) with
  | .error e => .error e
  | .ok c3 => .ok c3.gravity

/-- The anchor of a driver that faces right, `pos_right` of line 545. -/
def character.pos_right (c : character) : Int := wrap_int (c.x_ + c.type_.passenger_x_)

/-- The anchor of a driver that faces left, `pos_left` of line 546. -/
def character.pos_left (c : character) (driver_width : Int) : Int :=
  wrap_int (wrap_int (wrap_int (c.x_ + c.current_frame.width) - driver_width) -
    c.type_.passenger_x_)

/-- The weight of the left anchor in the turn frame (lines 550 to 554). -/
def character.weight_left (c : character) : Int :=
  if c.face_right_ then wrap_int (c.current_frame.duration - c.time_in_frame_)
  else c.time_in_frame_

/-- The weight of the right anchor in the turn frame (lines 550 to 554). -/
def character.weight_right (c : character) : Int :=
  if c.face_right_ then c.time_in_frame_
  else wrap_int (c.current_frame.duration - c.time_in_frame_)

/-- The x coordinate `set_driver_position` gives the driver, in the arithmetic of
`int`.  The division of line 555 is by the duration of the turn frame; the
program has no behaviour for a duration of zero, and the value given here for it
stands for none. -/
def character.driver_x (c : character) (driver_width : Int) : Int :=
  if some c.current_frame_ = c.type_.turn_frame then
    (wrap_int (wrap_int (c.pos_right * c.weight_right) +
      wrap_int (c.pos_left driver_width * c.weight_left))).tdiv c.current_frame.duration
  else if c.face_right_ then c.pos_right else c.pos_left driver_width

/-- The driver as a character of its own (it has no driver itself). -/
def actor.as_character (d : actor) : character := { toactor := d, driver_ := none }

/-- The placement of the driver, `set_driver_position`; the driver's own
`set_face_right` runs on the driver as a character. -/
def character.set_driver_position (P : params) (lvl : level) (c : character) : character :=
  match c.driver_ with
  | none => c
  | some d =>
    let placed :=
      character.set_pos (d.as_character.set_face_right P lvl c.face_right_)
        (c.driver_x d.as_character.current_frame.width)
        (wrap_int (c.y_ + c.type_.passenger_y_))
    { c with driver_ := some placed.toactor }

/-- Lines 529 to 537: carry the passengers by the displacement of the tick and
clear the passenger set. -/
def character.carry_passengers (start_x start_y : Int) (c : character) : character :=
  { c with
    trace :=
      if c.x_ - start_x ≠ 0 ∨ c.y_ - start_y ≠ 0 then
        c.trace ++ c.standing_on_.map (fun p => event.carried p (c.x_ - start_x) (c.y_ - start_y))
      else c.trace,
    standing_on_ := [] }

/-- Lines 529 to 539. -/
def character.end_tick (P : params) (lvl : level) (start_x start_y : Int) (c : character) :
    character :=
  character.set_driver_position P lvl (c.carry_passengers start_x start_y)

/-- The sweeps and what follows them (lines 250 to 540), given whether the tick
started standing.  The flag of the result tells that the tick ended early
because the actor boarded a vehicle. -/
def character.after_control (P : params) (lvl : level) (fuel : Nat) (start_x start_y : Int)
    (started_standing : Bool) (c : character) : Except fault (character × Bool) :=
  match c.hsweep P lvl fuel started_standing with
  | .error e => .error e
  | .ok c4 =>
    match c4.down_sweep P lvl fuel with
    | .error e => .error e
    | .ok (c5, true) => .ok (c5, true)
    | .ok (c5, false) =>
      match c5.upsweep P lvl with
      | .error e => .error e
      | .ok c6 =>
        match character.overlap_hits P lvl (c6.push_back P lvl started_standing) with
        | .error e => .error e
        | .ok c8 =>
          match c8.settle P lvl with
          | .error e => .error e
          | .ok c9 => .ok (c9.end_tick P lvl start_x start_y, false)

/-- One tick, `character::process`. -/
def character.process (P : params) (lvl : level) (inp : tick_input) (fuel : Nat) (c : character) :
    Except fault (character × Bool) :=
  character.after_control P lvl fuel c.x_ c.y_
    (character.pre_sweep P lvl (character.do_control P lvl inp (c.start_tick P lvl inp.rand))).2
    (character.pre_sweep P lvl (character.do_control P lvl inp (c.start_tick P lvl inp.rand))).1

/-! ## Persisted representation -/

/-- Modelled from the spec: a WML node (`wml_node.hpp` is not among the sources),
reduced to its attributes.  `set_attr` adds an attribute or replaces its text, and
an attribute that was never set reads as the empty text. -/
structure wml_node where
  name : String
  attrs : List (String × String)
deriving DecidableEq, Repr

def wml_node.set_attr (n : wml_node) (key value : String) : wml_node :=
  { n with attrs := (key, value) :: n.attrs.filter (fun kv => !(kv.1 == key)) }

def wml_node.attr (n : wml_node) (key : String) : String :=
  match n.attrs.find? (fun kv => kv.1 == key) with
  | some kv => kv.2
  | none => ""

/-- Whether the node contains the attribute. -/
def wml_node.has_attr (n : wml_node) (key : String) : Bool :=
  n.attrs.any (fun kv => kv.1 == key)

/-- Modelled from the spec: `formatter() << n` for an `int` (`formatter.hpp` is not
among the sources): the decimal text of the number, as `toString` gives it. -/
def format_int (n : Int) : String :=
  match n with
  | .ofNat m => String.mk (Nat.toDigits 10 m)
  | .negSucc m => String.mk ('-' :: Nat.toDigits 10 (m + 1))

/-- The number a text of decimal digits denotes. -/
def parse_nat (cs : List Char) : Nat := cs.foldl (fun acc ch => acc * 10 + (ch.toNat - 48)) 0

/-- The integer a decimal text with an optional minus sign denotes. -/
def parse_int (s : String) : Int :=
  match s.data with
  | [] => 0
  | ch :: cs => if ch = '-' then -(parse_nat cs : Int) else (parse_nat (ch :: cs) : Int)

/-- Modelled from the spec: `wml::get_int(node, key, default)` (`wml_utils.hpp` is
not among the sources): the default for an attribute that is absent, the integer
its text denotes otherwise. -/
def wml_node.get_int (n : wml_node) (key : String) (default_value : Int) : Int :=
  if (n.attr key).data = [] then default_value else parse_int (n.attr key)

/-- Modelled from the spec: the reading of a boolean attribute, false when the
attribute is absent. -/
def wml_node.get_bool (n : wml_node) (key : String) : Bool :=
  decide (n.attr key = "true") || decide (n.attr key = "yes")

/-- The texts of the five optional expressions of a scripted actor
(`walk_formula_->str()` and so on). -/
structure formula_texts where
  walk_formula_ : Option String
  jump_formula_ : Option String
  fly_formula_ : Option String
  xpos_formula_ : Option String
  ypos_formula_ : Option String
deriving DecidableEq, Repr

/-- The guarded `set_attr` calls of `write`: `if(cond) res->set_attr(key, value)`. -/
def wml_node.set_attr_if (n : wml_node) (cond : Bool) (key value : String) : wml_node :=
  if cond then n.set_attr key value else n

/-- The `set_attr` call for an optional expression. -/
def wml_node.set_attr_opt (n : wml_node) (key : String) (value : Option String) : wml_node :=
  match value with
  | some v => n.set_attr key v
  | none => n

/-- Lines 77 to 84 of `write`: the attributes that are always stored. -/
def character.write_fixed (c : character) : wml_node :=
  ((((((({ name := "character", attrs := [] } : wml_node).set_attr "type" c.type_.id).set_attr
    "face_right" (if c.face_right_ then "true" else "false")).set_attr
    "x" (format_int c.x_)).set_attr
    "y" (format_int c.y_)).set_attr
    "velocity_x" (format_int c.velocity_x_)).set_attr
    "velocity_y" (format_int c.velocity_y_)).set_attr
    "formula_test_frequency" (format_int c.formula_test_frequency_)

/-- Lines 85 to 102 of `write`: a stat is stored when it differs from the value
of the archetype. -/
def character.write_stats (c : character) (n : wml_node) : wml_node :=
  (((((n.set_attr_if (decide (c.hitpoints_ ≠ c.type_.hitpoints_))
    "hitpoints" (format_int c.hitpoints_)).set_attr_if
    (decide (c.max_hitpoints_ ≠ c.type_.hitpoints_))
    "max_hitpoints" (format_int c.max_hitpoints_)).set_attr_if
    (decide (c.walk_speed_ ≠ c.type_.walk_))
    "walk_speed" (format_int c.walk_speed_)).set_attr_if
    (decide (c.jump_power_ ≠ c.type_.jump_))
    "jump_power" (format_int c.jump_power_)).set_attr_if
    (decide (c.boost_power_ ≠ c.type_.boost_))
    "boost_power" (format_int c.boost_power_)).set_attr_if
    (decide (c.glide_speed_ ≠ c.type_.glide_))
    "glide_speed" (format_int c.glide_speed_)

/-- Lines 103 to 117 of `write`: the texts of the expressions the actor has. -/
def formula_texts.write (S : formula_texts) (n : wml_node) : wml_node :=
  ((((n.set_attr_opt "walk_formula" S.walk_formula_).set_attr_opt
    "jump_formula" S.jump_formula_).set_attr_opt
    "fly_formula" S.fly_formula_).set_attr_opt
    "xpos_formula" S.xpos_formula_).set_attr_opt
    "ypos_formula" S.ypos_formula_

/-- Lines 118 to 124 of `write`: the human flag and the group. -/
def character.write_flags (c : character) (n : wml_node) : wml_node :=
  (n.set_attr_if c.is_human_ "is_human" "true").set_attr_if
    (decide (c.group_ ≥ 0)) "group" (format_int c.group_)

/-- The serialization `character::write` (lines 75 to 126). -/
def character.write (c : character) (S : formula_texts) : wml_node :=
  c.write_flags (S.write (c.write_stats c.write_fixed))

/-- Modelled from the spec: `formula::create_optional_formula` (`formula.hpp` is
not among the sources), on the text of the expression: none for an absent
attribute. -/
def create_optional_formula (text : String) : Option String :=
  if text.data = [] then none else some text

/-- The members of the base class `entity` that the serialization touches. -/
structure entity where
  x_ : Int
  y_ : Int
  face_right_ : Bool
  is_human_ : Bool
  group_ : Int
deriving DecidableEq, Repr

/-- Modelled from the spec: the constructor `entity::entity(node)` (`entity.cpp` is
not among the sources).  The position, the facing, the human flag and the group
are read from the attributes `write` stores them in; a node without a group
gives the group -1. -/
def entity.from_node (node : wml_node) : entity :=
  { x_ := node.get_int "x" 0, y_ := node.get_int "y" 0,
    face_right_ := node.get_bool "face_right",
    is_human_ := node.get_bool "is_human",
    group_ := node.get_int "group" (-1) }

/-- The construction of an actor from a node, `character::character(node)` (lines
15 to 43); `types` is the registry behind `character_type::get`, and the
assertion of line 42 fails for an id it does not know. -/
def character.from_node (types : String → Option character_type) (node : wml_node) :
    Except fault (character × formula_texts) :=
  match types (node.attr "type") with
  | none => .error .assertion
  | some t =>
    .ok ({ type_ := t,
           x_ := (entity.from_node node).x_, y_ := (entity.from_node node).y_,
           face_right_ := (entity.from_node node).face_right_,
           is_human_ := (entity.from_node node).is_human_,
           group_ := (entity.from_node node).group_,
           previous_y_ := (entity.from_node node).y_,
           velocity_x_ := node.get_int "velocity_x" 0,
           velocity_y_ := node.get_int "velocity_y" 0,
           invincible_ := 0,
           formula_test_frequency_ := node.get_int "formula_test_frequency" 10,
           time_since_last_formula_ := 0,
           walk_result_ := 0, jump_result_ := 0, fly_result_ := 0,
           collided_since_last_frame_ := false,
           current_frame_ := .stand,
           time_in_frame_ := 0,
           hitpoints_ := node.get_int "hitpoints" t.hitpoints_,
           max_hitpoints_ := node.get_int "max_hitpoints" t.hitpoints_,
           walk_speed_ := node.get_int "walk_speed" t.walk_,
           jump_power_ := node.get_int "jump_power" t.jump_,
           boost_power_ := node.get_int "boost_power" t.boost_,
           glide_speed_ := node.get_int "glide_speed" t.glide_,
           cycle_num_ := 0, last_jump_ := false, frame_id_ := 0,
           standing_on_ := [], pc_ := none, trace := [], driver_ := none },
         { walk_formula_ := create_optional_formula (node.attr "walk_formula"),
           jump_formula_ := create_optional_formula (node.attr "jump_formula"),
           fly_formula_ := create_optional_formula (node.attr "fly_formula"),
           xpos_formula_ := create_optional_formula (node.attr "xpos_formula"),
           ypos_formula_ := create_optional_formula (node.attr "ypos_formula") })

/-! ## Predicates used to state the properties -/

/-- The archetype, the current frame, the frame timer and the frame counter of
`c'` are those of `c`. -/
def frame_kept (c c' : character) : Prop :=
  c'.type_ = c.type_ ∧ c'.current_frame_ = c.current_frame_ ∧
  c'.time_in_frame_ = c.time_in_frame_ ∧ c'.frame_id_ = c.frame_id_

/-- The number of calls of `get_hit` recorded in the trace. -/
def character.hits (c : character) : Nat := c.trace.count event.get_hit

/-- The stand family: stand, stand-up-slope, stand-down-slope. -/
def frame_tag.stand_family : frame_tag → Bool
  | .stand => true
  | .stand_up_slope => true
  | .stand_down_slope => true
  | _ => false

/-- The archetype, the human flag, the invincibility counter, the hitpoints and
the number of recorded hits of `c'` are those of `c`. -/
def vitals_kept (c c' : character) : Prop :=
  c'.type_ = c.type_ ∧ c'.is_human_ = c.is_human_ ∧ c'.invincible_ = c.invincible_ ∧
  c'.hitpoints_ = c.hitpoints_ ∧ c'.hits = c.hits

/-- Between `c` and `d` exactly one call of `get_hit` took place, and nothing
else touched the vitals. -/
def one_hit (P : params) (lvl : level) (c d : character) : Prop :=
  ∃ c1 c2, vitals_kept c c1 ∧ c1.get_hit P lvl = .ok c2 ∧ vitals_kept c2 d

/-- A bound on the vertical velocity during the downward sweep: the current one,
or the impulse of the jump frame that a bounce out of the gethit frame applies. -/
def character.fall_bound (c : character) : Int :=
  max c.velocity_y_
    (max 0 (if some c.current_frame_ = c.type_.gethit_frame then
      (c.type_.deref .jump).velocity_y else 0))

/-- Cell `i` is the first solid cell of the column of `n` cells at `x` that
starts at height `y0`. -/
def column_first_solid (lvl : level) (x y0 : Int) (n i : Nat) : Prop :=
  i < n ∧ lvl.solid x (y0 + i) = true ∧ ∀ j, j < i → lvl.solid x (y0 + j) = false

/-- Above every point there is, fewer than `fuel` pixels up, a height at which
neither feet probe is supported: the climb loop of the horizontal sweep ends
within `fuel` iterations. -/
def climb_settles (P : params) (lvl : level) (fuel : Nat) : Prop :=
  ∀ x y : Int, ∃ k : Nat, k < fuel ∧
    (lvl.standable (x - P.FeetWidth) (y - k)).ok = false ∧
    (lvl.standable (x + P.FeetWidth) (y - k)).ok = false

/-- The actor moved down by `j` pixels. -/
def character.lowered (c : character) (j : Nat) : character := c.set_pos c.x_ (c.y_ + j)

/-- Nothing under the feet interferes with the fall: no entity to bounce off and
no vehicle to board. -/
def character.feet_free (P : params) (lvl : level) (c : character) : Prop :=
  c.under_feet P lvl = none ∧ c.boarding lvl = none

/-- Between `c` and `c'` a frame change took effect at most once: the frame
counter and the trace are those of `c`, or the counter grew by one and one sound
cue was recorded. -/
def changes_at_most_once (c c' : character) : Prop :=
  (c'.frame_id_ = c.frame_id_ ∧ c'.trace = c.trace) ∨
  (c'.frame_id_ = c.frame_id_ + 1 ∧ ∃ f, c'.trace = c.trace ++ [event.play_sound f])

/-- As `changes_at_most_once`, and a frame change that took effect did not lead
into the walk or the run frame. -/
def changes_once_off_walk (c c' : character) : Prop :=
  (c'.frame_id_ = c.frame_id_ ∧ c'.trace = c.trace) ∨
  (c'.frame_id_ = c.frame_id_ + 1 ∧ (∃ f, c'.trace = c.trace ++ [event.play_sound f]) ∧
    c'.current_frame_ ≠ .walk ∧ c'.current_frame_ ≠ .run)

/-- The timer block of a tick (lines 184 to 246) run over consecutive ticks, one
value of `rand()` per tick, with nothing else touching the actor in between. -/
def character.run_timers (P : params) (lvl : level) : List Nat → character → character
  | [], c => c
  | r :: rs, c => character.run_timers P lvl rs (c.start_tick P lvl r)

/-- The condition under which `character::control` returns at once (lines 1109 to
1115): the die frame is active, or the actor is a vehicle without a driver. -/
def character.suppressed (c : character) : Prop :=
  some c.current_frame_ = c.type_.die_frame ∨ (c.type_.is_vehicle_ = true ∧ c.driver_.isNone = true)

instance (c : character) : Decidable c.suppressed := by
  unfold character.suppressed
  infer_instance

/-- The members of the scripted-control throttle of `c'` are those of `c`: the
frequency, the formula counter and the three cached results. -/
def throttle_kept (c c' : character) : Prop :=
  c'.formula_test_frequency_ = c.formula_test_frequency_ ∧
  c'.time_since_last_formula_ = c.time_since_last_formula_ ∧
  c'.walk_result_ = c.walk_result_ ∧ c'.jump_result_ = c.jump_result_ ∧
  c'.fly_result_ = c.fly_result_

/-- Consecutive ticks of an actor under the scripted strategy: before the control
call of tick `t + 1` the rest of the simulation has acted on the actor through
`rest t`. -/
def character.control_run (P : params) (lvl : level) (F : formulas)
    (rest : Nat → character → character) : Nat → character → character
  | 0, c => c
  | t + 1, c => character.control P lvl F (rest t (character.control_run P lvl F rest t c))

/-- Two scripts that have the same expressions present and the same position
expressions: they differ at most in the bodies of the walk, jump and fly
expressions. -/
def formulas.same_shape (F G : formulas) : Prop :=
  F.walk_formula_.isSome = G.walk_formula_.isSome ∧
  F.jump_formula_.isSome = G.jump_formula_.isSome ∧
  F.fly_formula_.isSome = G.fly_formula_.isSome ∧
  F.xpos_formula_ = G.xpos_formula_ ∧ F.ypos_formula_ = G.ypos_formula_

/-- The actor with the cached walk and fly results set. -/
def character.set_walk_fly_result (c : character) (wr fr : Int) : character :=
  { c with walk_result_ := wr, fly_result_ := fr }

/-- The actor with the cached jump result set. -/
def character.set_jump_result (c : character) (jr : Int) : character :=
  { c with jump_result_ := jr }

/-- The horizontal intent that the walk result `wr` and the fly result `fr` call
for under the script `F`: none without a walk expression; the fly intent when
the script has a fly expression too; else the walk intent to the left for a
negative and to the right for a positive walk result. -/
def character.cached_walk (P : params) (lvl : level) (F : formulas) (wr fr : Int)
    (c : character) : character :=
  if F.walk_formula_.isSome then
    if F.fly_formula_.isSome then c.fly P lvl (decide (wr < 0)) fr
    else if wr < 0 then c.walk P lvl false
    else if wr > 0 then c.walk P lvl true
    else c
  else c

/-- The jump intent that the jump result `jr` calls for under the script `F`:
issued when the script has a jump expression and the result is nonzero. -/
def character.cached_jump (P : params) (lvl : level) (F : formulas) (jr : Int)
    (c : character) : character :=
  if F.jump_formula_.isSome ∧ jr ≠ 0 then c.jump P lvl else c

/-- The intents that the cached results `wr`, `jr` and `fr` drive in a control
call of the actor `c`: the horizontal intent on the actor holding the walk and
fly results, then the jump intent on the actor holding the jump result. -/
def character.cached_intents (P : params) (lvl : level) (F : formulas) (wr jr fr : Int)
    (c : character) : character :=
  character.cached_jump P lvl F jr
    (character.set_jump_result
      (character.cached_walk P lvl F wr fr (c.set_walk_fly_result wr fr)) jr)

/-- The value is representable as a 32-bit `int`. -/
def fits_int (n : Int) : Prop := -2147483648 ≤ n ∧ n ≤ 2147483647

instance (n : Int) : Decidable (fits_int n) := by
  unfold fits_int
  infer_instance

/-- The claim's description of `try_to_make_standing`: the first offset, in the
order 0, +1, +2, -1, -2, -3, at which the actor is ground-supported. -/
def character.first_supported_offset (P : params) (lvl : level) (c : character) : Option Int :=
  [0, 1, 2, -1, -2, -3].find? (fun k => (c.set_pos c.x_ (c.y_ + k)).is_standing P lvl)

/-! ## Sample data -/

/-- A frame with a 20 by 30 collision box, feet at the bottom centre. -/
def demo_frame : frame :=
  { duration := 6, width := 32, collide_x := 6, collide_y := 2, collide_w := 20, collide_h := 30,
    feet_x := 16, feet_y := 32, velocity_x := 0, velocity_y := 0, accel_x := 0, accel_y := 0 }

/-- A die frame with its feet offset lower than the other frames. -/
def demo_die_frame : frame := { demo_frame with duration := 8, feet_y := 40, collide_y := 10 }

/-- An archetype that has every frame. -/
def demo_type : character_type :=
  { id_ := "demo", stand_ := demo_frame,
    stand_up_slope_frame_ := some demo_frame, stand_down_slope_frame_ := some demo_frame,
    idle_frame_ := some demo_frame, turn_frame_ := some demo_frame,
    walk_frame_ := some demo_frame, run_frame_ := some demo_frame,
    jump_frame_ := some demo_frame, fall_frame_ := some { demo_frame with accel_y := 20 },
    crouch_frame_ := some demo_frame, lookup_frame_ := some demo_frame,
    gethit_frame_ := some demo_frame, attack_frame_ := some demo_frame,
    jump_attack_frame_ := some demo_frame, up_attack_frame_ := some demo_frame,
    run_attack_frame_ := some demo_frame, die_frame_ := some demo_die_frame,
    fly_frame_ := some demo_frame, slide_frame_ := some demo_frame,
    spring_frame_ := some demo_frame,
    walk_ := 200, jump_ := 1000, boost_ := 30, glide_ := 20, climb_ := 0, hitpoints_ := 3,
    springiness_ := 0, friction_ := 0, traction_ := 100, is_vehicle_ := false,
    passenger_x_ := 0, passenger_y_ := 0 }

/-- The same archetype without a die frame. -/
def plain_type : character_type := { demo_type with die_frame_ := none }

/-- An actor of `demo_type` at (100, 68) in the stand frame, feet at (116, 100). -/
def demo_actor : character :=
  { type_ := demo_type, x_ := 100, y_ := 68, face_right_ := true, is_human_ := false,
    group_ := -1, previous_y_ := 68, velocity_x_ := 0, velocity_y_ := 0, invincible_ := 0,
    formula_test_frequency_ := 10, time_since_last_formula_ := 0, walk_result_ := 0,
    jump_result_ := 0, fly_result_ := 0, collided_since_last_frame_ := false,
    current_frame_ := .stand, time_in_frame_ := 0, hitpoints_ := 3, max_hitpoints_ := 3,
    walk_speed_ := 200, jump_power_ := 1000, boost_power_ := 30, glide_speed_ := 20,
    cycle_num_ := 0, last_jump_ := false, frame_id_ := 0, standing_on_ := [], pc_ := none,
    trace := [], driver_ := none }

/-- An actor out of hitpoints that is not in the die frame. -/
def spent_actor : character := { demo_actor with hitpoints_ := 0 }

/-- An actor out of hitpoints, three ticks into the die frame of eight. -/
def dying_actor : character :=
  { demo_actor with hitpoints_ := 0, current_frame_ := .die, time_in_frame_ := 3 }

/-- An actor out of hitpoints whose archetype has no die frame. -/
def plain_spent_actor : character := { spent_actor with type_ := plain_type }

/-- Answer of `standable` for a point without support. -/
def no_support : standable_out :=
  { ok := false, friction := none, damage := none, adjust_y := none, standing_on := none }

/-- A level without entities: solid below y = 100, standable along y = 100. -/
def flat_level : level :=
  { boundaries_y2 := 1000, air_resistance := 0,
    solid := fun _ y => decide (y > 100), solid_damage := fun _ _ => 0,
    standable := fun _ y => { no_support with ok := decide (y = 100) },
    collide_rect := fun _ => none, collide_point := fun _ _ => none,
    collide_anyone := fun _ _ => false, board := fun _ _ => none,
    hit_by_player := fun _ => none, find_ground_level := fun _ _ _ => 100 }

def demo_params : params :=
  { FeetWidth := 5, invincibility_duration := 10, default_slope_range := 1 }

/-- A tick without held inputs and without formulas. -/
def idle_input : tick_input :=
  { rand := 1,
    keys := { left := false, right := false, up := false, down := false,
              jump_button := false, attack_button := false },
    script := { walk_formula_ := none, jump_formula_ := none, fly_formula_ := none,
                xpos_formula_ := none, ypos_formula_ := none } }

/-- The dying actor after one hit more. -/
def dying_actor_hit : character :=
  { dying_actor with hitpoints_ := -1, invincible_ := 10, trace := [event.get_hit] }

/-- The dying actor one tick later. -/
def dying_actor_next : character :=
  { dying_actor with time_in_frame_ := 4, cycle_num_ := 1 }

/-- The flat level with a wall, solid and harmless, from x = 128 on. -/
def wall_level : level :=
  { flat_level with solid := fun x y => decide (y > 100) || decide (x ≥ 128) }

def harmful_body : other_entity :=
  { body_harmful := true, springiness := 0, velocity_x := 0, velocity_y := 0, face_right := false }

/-- The level with the wall and a harmful body standing in front of it, in the
column x = 128. -/
def guarded_wall_level : level :=
  { wall_level with collide_rect := fun r => if r.x = 128 then some harmful_body else none }

/-- A human actor walking right at three pixels per tick, two pixels from the wall. -/
def walker : character := { demo_actor with is_human_ := true, velocity_x_ := 300 }

/-- The walker after the first iteration of its horizontal sweep. -/
def walker_step : character := { walker with x_ := 101 }

/-- The walker with its leading edge at the wall. -/
def walker_at_wall : character := { walker with x_ := 102 }

/-- The walker after its horizontal sweep against the wall. -/
def walker_stopped : character :=
  { walker with x_ := 102, velocity_x_ := 0, collided_since_last_frame_ := true }

/-- An actor two pixels above the ground, falling at three pixels per tick. -/
def faller : character :=
  { demo_actor with y_ := 66, current_frame_ := .fall, velocity_y_ := 300 }

/-- An actor far above the ground, falling at three pixels per tick. -/
def high_faller : character :=
  { demo_actor with y_ := 10, current_frame_ := .fall, velocity_y_ := 300 }

/-- The level with the wall, the wall being damaging. -/
def spike_wall_level : level :=
  { wall_level with solid_damage := fun x _ => if x ≥ 128 then 1 else 0 }

/-- The walker at the wall in the last tick of its invincibility. -/
def fading_walker : character := { walker_at_wall with invincible_ := 1 }

/-- The walker at the wall with two ticks of invincibility left. -/
def shielded_walker : character := { walker_at_wall with invincible_ := 2 }

/-- The flat level with a damaging surface. -/
def spike_floor_level : level :=
  { flat_level with
    standable := fun _ y =>
      if y = 100 then { no_support with ok := true, damage := some 5 } else no_support }

/-- An actor in the fall frame that is supported by the ground. -/
def landed_actor : character := { demo_actor with current_frame_ := .fall }

/-- The flat level with ground that rises to the right under the actor's feet:
the column at x is solid below y = 216 - x. -/
def ramp_level : level :=
  { flat_level with solid := fun x y => decide (y > 216 - x) }

/-- The archetype with a slide frame whose feet offset differs from the others. -/
def slider_type : character_type :=
  { demo_type with slide_frame_ := some { demo_frame with feet_x := 30 } }

/-- An actor falling against the wall fast enough to switch to the slide frame. -/
def wall_slider : character :=
  { demo_actor with type_ := slider_type, x_ := 102, current_frame_ := .fall,
                    velocity_x_ := 400 }

/-- The demo actor facing left. -/
def left_facing_actor : character := { demo_actor with face_right_ := false }

/-- The archetype with a walk frame that declares a horizontal impulse of 150. -/
def impulse_type : character_type :=
  { demo_type with walk_frame_ := some { demo_frame with velocity_x := 150 } }

/-- The demo actor with that archetype. -/
def impulse_actor : character := { demo_actor with type_ := impulse_type }

/-- An actor in the jump frame, one tick before the frame's duration. -/
def jumper : character := { demo_actor with current_frame_ := .jump, time_in_frame_ := 5 }

/-- An actor in the air in the jump-attack frame, one tick before the frame's
duration. -/
def air_striker : character :=
  { demo_actor with y_ := 10, current_frame_ := .jump_attack, time_in_frame_ := 5 }

/-- An actor on the ground in the attack frame, one tick before the frame's
duration. -/
def striker : character := { demo_actor with current_frame_ := .attack, time_in_frame_ := 5 }

/-- An actor held in the crouch frame of duration 6, at `time_in_frame = 2`. -/
def croucher : character := { demo_actor with current_frame_ := .crouch, time_in_frame_ := 2 }

/-- An actor held in the lookup frame of duration 6, at `time_in_frame = 2`. -/
def gazer : character := { demo_actor with current_frame_ := .lookup, time_in_frame_ := 2 }

/-- A script with all five expressions. -/
def busy_script : formulas :=
  { walk_formula_ := some (fun _ => 1), jump_formula_ := some (fun _ => 1),
    fly_formula_ := some (fun _ => 50), xpos_formula_ := some (fun c => c.x_ + 7),
    ypos_formula_ := some (fun c => c.y_ - 3) }

/-- A vehicle archetype. -/
def vehicle_type : character_type := { demo_type with is_vehicle_ := true }

/-- A vehicle without a driver. -/
def parked_vehicle : character := { demo_actor with type_ := vehicle_type }

/-- The members of `pc_character` at rest. -/
def idle_pc : pc_state :=
  { running_ := false, prev_left_ := false, prev_right_ := false, last_left_ := 0,
    last_right_ := 0 }

/-- A player out of hitpoints, three ticks into the die frame, its feet on the
ground at (116, 100). -/
def dying_player : character :=
  { dying_actor with y_ := 60, is_human_ := true, pc_ := some idle_pc }

/-- Only the jump button is held. -/
def jump_keys : controls :=
  { left := false, right := false, up := false, down := false, jump_button := true,
    attack_button := false }

/-- The jump button and down are held. -/
def drop_keys : controls := { jump_keys with down := true }

/-- A script with a walk and a jump expression only. -/
def march_script : formulas :=
  { walk_formula_ := some (fun _ => 1), jump_formula_ := some (fun c => c.walk_result_),
    fly_formula_ := none, xpos_formula_ := none, ypos_formula_ := none }

/-- The same script with other bodies of the two expressions. -/
def retreat_script : formulas :=
  { march_script with walk_formula_ := some (fun _ => -1), jump_formula_ := some (fun _ => 0) }

/-- A scripted actor whose expressions are tested every third tick. -/
def scripted_actor : character := { demo_actor with formula_test_frequency_ := 3 }

/-- A script with the two position expressions only. -/
def drift_script : formulas :=
  { walk_formula_ := none, jump_formula_ := none, fly_formula_ := none,
    xpos_formula_ := some (fun c => c.x_ + 7), ypos_formula_ := some (fun c => c.y_ - 3) }

/-- A script with a fly expression only. -/
def hover_script : formulas :=
  { walk_formula_ := none, jump_formula_ := none, fly_formula_ := some (fun _ => -50),
    xpos_formula_ := none, ypos_formula_ := none }

/-- A script with a fly expression and a walk expression of negative value. -/
def glide_script : formulas := { hover_script with walk_formula_ := some (fun _ => -1) }

/-- A scripted actor whose expressions are tested every tick. -/
def eager_actor : character := { demo_actor with formula_test_frequency_ := 1 }

/-- The registry that knows the demo archetype. -/
def demo_types (id : String) : Option character_type :=
  if id = "demo" then some demo_type else none

/-- No expression. -/
def no_texts : formula_texts :=
  { walk_formula_ := none, jump_formula_ := none, fly_formula_ := none,
    xpos_formula_ := none, ypos_formula_ := none }

/-- An actor at a negative position whose walk speed was overridden. -/
def tuned_actor : character :=
  { demo_actor with x_ := -12, velocity_y_ := -250, walk_speed_ := 350, face_right_ := false }

/-- An archetype with the stand, walk, fall and die frames only. -/
def bare_type : character_type :=
  { demo_type with
    stand_up_slope_frame_ := none, stand_down_slope_frame_ := none, idle_frame_ := none,
    turn_frame_ := none, run_frame_ := none, jump_frame_ := none, crouch_frame_ := none,
    lookup_frame_ := none, gethit_frame_ := none, attack_frame_ := none,
    jump_attack_frame_ := none, up_attack_frame_ := none, run_attack_frame_ := none,
    fly_frame_ := none, slide_frame_ := none, spring_frame_ := none }

/-- An actor of the bare archetype, standing on flat ground in the walk frame. -/
def bare_actor : character :=
  { demo_actor with type_ := bare_type, current_frame_ := .walk, velocity_x_ := 200 }

/-- An archetype that lacks only the run-attack frame. -/
def calm_type : character_type := { demo_type with run_attack_frame_ := none }

/-- A running actor of that archetype. -/
def calm_runner : character :=
  { demo_actor with type_ := calm_type, current_frame_ := .run, velocity_x_ := 400 }

/-- An actor with one hitpoint left. -/
def frail_actor : character := { demo_actor with hitpoints_ := 1 }

/-- An actor in the air, rising, whose jump input was held on the previous tick. -/
def held_jumper : character :=
  { demo_actor with y_ := 10, current_frame_ := .jump, velocity_y_ := -400, last_jump_ := true }

/-- An actor on the ground whose jump input was held on the previous tick. -/
def held_stander : character := { demo_actor with last_jump_ := true }

/-- A level whose ground is standable along y = 98 only. -/
def raised_level : level :=
  { flat_level with standable := fun _ y => { no_support with ok := decide (y = 98) } }

/-- A level without any support. -/
def void_level : level := { flat_level with standable := fun _ _ => no_support }

/-- The flat level with ground friction 20 and air resistance 5. -/
def rough_level : level :=
  { flat_level with
    air_resistance := 5,
    standable := fun _ y => { no_support with ok := decide (y = 100), friction := some 20 } }

/-- An actor moving left at 3.1 pixels per tick. -/
def back_walker : character := { demo_actor with velocity_x_ := -310 }

/-- The flat level seen by the wide slope probe of an actor with its feet at
x = 116: no ground within reach three pixels to either side, ground at height 98
two pixels ahead and at height 102 two pixels behind. -/
def pit_level : level :=
  { flat_level with
    find_ground_level := fun x _ _ => if x = 118 then 98 else if x = 114 then 102 else INT_MIN }

/-- The flat level with ground within reach only one pixel to either side of
x = 116: at height 99 ahead and at height 101 behind. -/
def needle_level : level :=
  { flat_level with
    find_ground_level := fun x _ _ => if x = 117 then 99 else if x = 115 then 101 else INT_MIN }

/-- The walker at thirty million hundredths of a pixel per tick, a velocity a
frame can declare. -/
def bolt : character := { walker with velocity_x_ := 30000000 }

theorem some_eq_ptr (t : character_type) (a b : frame_tag) :
    some a = t.ptr b ↔ a = b ∧ (t.slot b).isSome = true := by
  unfold character_type.ptr
  by_cases h : (t.slot b).isSome = true <;> simp [h]

theorem ptr_eq_some (t : character_type) (a b : frame_tag) :
    t.ptr b = some a ↔ a = b ∧ (t.slot b).isSome = true := by
  rw [← some_eq_ptr]
  exact eq_comm

theorem ptr_isSome (t : character_type) (b : frame_tag) :
    (t.ptr b).isSome = (t.slot b).isSome := by
  unfold character_type.ptr
  by_cases h : (t.slot b).isSome = true <;> simp [h]

theorem cur_of_die {c : character} (h : some c.current_frame_ = c.type_.die_frame) :
    c.current_frame_ = .die := ((some_eq_ptr _ _ _).1 h).1

theorem frame_kept_refl (c : character) : frame_kept c c := ⟨rfl, rfl, rfl, rfl⟩

theorem frame_kept_trans {a b c : character} (h1 : frame_kept a b) (h2 : frame_kept b c) :
    frame_kept a c :=
  ⟨h2.1.trans h1.1, h2.2.1.trans h1.2.1, h2.2.2.1.trans h1.2.2.1, h2.2.2.2.trans h1.2.2.2⟩

theorem die_of_frame_kept {c c' : character} (h : some c.current_frame_ = c.type_.die_frame)
    (k : frame_kept c c') : some c'.current_frame_ = c'.type_.die_frame := by
  rw [k.1, k.2.1]
  exact h

theorem change_frame_of_die {c : character} (h : some c.current_frame_ = c.type_.die_frame)
    (nf : Option frame_tag) : c.change_frame nf = c := by
  cases nf <;> simp [character.change_frame, h]

/-- What an applied frame change does to the archetype, the frame and the
vertical velocity. -/
theorem change_frame_applied (c : character) (nf : frame_tag)
    (h : some c.current_frame_ ≠ c.type_.die_frame) :
    (c.change_frame (some nf)).type_ = c.type_ ∧
    (c.change_frame (some nf)).current_frame_ = nf ∧
    (c.change_frame (some nf)).velocity_y_ =
      if (c.type_.deref nf).velocity_y ≠ 0 then (c.type_.deref nf).velocity_y
      else c.velocity_y_ := by
  unfold character.change_frame
  simp only [h, if_false]
  by_cases h1 : (c.type_.deref nf).velocity_x ≠ 0 <;>
  by_cases h2 : (c.type_.deref nf).velocity_y ≠ 0 <;>
  simp [h1, h2, character.set_pos, character.log]

/-! ## Death detection -/

/-- C1: `destroyed()` implies `hitpoints <= 0`, and an actor whose current frame is
the die frame with `time_in_frame` below that frame's duration is not destroyed,
whatever its hitpoints. -/
theorem destroyed_sound (c : character) :
    (c.destroyed = true → c.hitpoints_ ≤ 0) ∧
    (some c.current_frame_ = c.type_.die_frame →
      c.time_in_frame_ < c.current_frame.duration → c.destroyed = false) := by
  constructor
  · intro h
    simp only [character.destroyed, Bool.and_eq_true, decide_eq_true_eq] at h
    exact h.1
  · intro hd ht
    simp only [character.destroyed, Bool.and_eq_false_imp, decide_eq_true_eq,
      Bool.or_eq_false_iff, decide_eq_false_iff_not]
    intro _
    exact ⟨fun h => h hd, by omega⟩

theorem destroyed_sound_witness :
    spent_actor.hitpoints_ ≤ 0 ∧ dying_actor.destroyed = false :=
  ⟨(destroyed_sound spent_actor).1 (by decide),
   (destroyed_sound dying_actor).2 (by decide) (by decide)⟩

/-- C2, as stated, fails: the archetype has a die frame, the actor is out of
hitpoints and reported destroyed, yet its current frame is not the die frame. -/
theorem destroyed_outside_die_frame :
    spent_actor.type_.die_frame.isSome = true ∧ spent_actor.destroyed = true ∧
    some spent_actor.current_frame_ ≠ spent_actor.type_.die_frame := by
  decide

/-- C2, amended: `destroyed()` is true exactly when `hitpoints <= 0` and the
current frame is not the die frame or its duration has elapsed; for an archetype
without a die frame it is true exactly when `hitpoints <= 0`. -/
theorem destroyed_iff (c : character) :
    (c.destroyed = true ↔
      c.hitpoints_ ≤ 0 ∧
        (some c.current_frame_ ≠ c.type_.die_frame ∨
          c.time_in_frame_ ≥ c.current_frame.duration)) ∧
    (c.type_.die_frame = none → (c.destroyed = true ↔ c.hitpoints_ ≤ 0)) := by
  constructor
  · simp [character.destroyed]
  · intro h
    simp [character.destroyed, h]

theorem destroyed_iff_witness : plain_spent_actor.destroyed = true :=
  ((destroyed_iff plain_spent_actor).2 (by decide)).2 (by decide)

/-! ## Frame changes keep the feet in place -/

theorem feet_x_change_frame (c : character) (nf : Option frame_tag) :
    (c.change_frame nf).feet_x = c.feet_x := by
  cases nf with
  | none => rfl
  | some nf =>
    unfold character.change_frame
    by_cases hd : some c.current_frame_ = c.type_.die_frame
    · simp [hd]
    · simp only [hd, if_false]
      by_cases h1 : (c.type_.deref nf).velocity_x ≠ 0 <;>
      by_cases h2 : (c.type_.deref nf).velocity_y ≠ 0 <;>
      by_cases hf : c.face_right_ = true <;>
      simp [h1, h2, hf, character.feet_x, character.set_pos, character.log,
        character.current_frame, character.feet_y] <;> omega

theorem feet_y_change_frame (c : character) (nf : Option frame_tag) :
    (c.change_frame nf).feet_y = c.feet_y := by
  cases nf with
  | none => rfl
  | some nf =>
    unfold character.change_frame
    by_cases hd : some c.current_frame_ = c.type_.die_frame
    · simp [hd]
    · simp only [hd, if_false]
      by_cases h1 : (c.type_.deref nf).velocity_x ≠ 0 <;>
      by_cases h2 : (c.type_.deref nf).velocity_y ≠ 0 <;>
      simp [h1, h2, character.feet_x, character.set_pos, character.log,
        character.current_frame, character.feet_y] <;> omega

/-- C3: for an actor not in the die frame and a present new frame, `change_frame`
applies the new frame and leaves the feet where they were, whatever the feet and
collision offsets of the two frames and whatever the facing. -/
theorem change_frame_anchors_feet (c : character) (nf : frame_tag)
    (h : some c.current_frame_ ≠ c.type_.die_frame) :
    (c.change_frame (some nf)).current_frame_ = nf ∧
    (c.change_frame (some nf)).feet_x = c.feet_x ∧
    (c.change_frame (some nf)).feet_y = c.feet_y := by
  refine ⟨?_, feet_x_change_frame c (some nf), feet_y_change_frame c (some nf)⟩
  unfold character.change_frame
  simp only [h, if_false]
  by_cases h1 : (c.type_.deref nf).velocity_x ≠ 0 <;>
  by_cases h2 : (c.type_.deref nf).velocity_y ≠ 0 <;>
  simp [h1, h2, character.set_pos, character.log]

theorem change_frame_anchors_feet_witness :
    (demo_actor.change_frame (some .die)).current_frame_ = .die ∧
    (demo_actor.change_frame (some .die)).feet_x = demo_actor.feet_x ∧
    (demo_actor.change_frame (some .die)).feet_y = demo_actor.feet_y ∧
    (demo_actor.change_frame (some .die)).y_ = 60 :=
  ⟨(change_frame_anchors_feet demo_actor .die (by decide)).1,
   (change_frame_anchors_feet demo_actor .die (by decide)).2.1,
   (change_frame_anchors_feet demo_actor .die (by decide)).2.2, by decide⟩


/-! ## The die state is terminal -/

theorem set_face_right_of_die (P : params) (lvl : level) {c : character}
    (h : some c.current_frame_ = c.type_.die_frame) (facing : Bool) :
    frame_kept c (c.set_face_right P lvl facing) := by
  unfold character.set_face_right
  by_cases hf : facing = c.face_right_
  · simp [hf, frame_kept_refl]
  · simp only [hf, if_false, change_frame_of_die h, ite_self]
    exact ⟨rfl, rfl, rfl, rfl⟩

theorem walk_of_die (P : params) (lvl : level) {c : character}
    (h : some c.current_frame_ = c.type_.die_frame) (b : Bool) : c.walk P lvl b = c := by
  simp [character.walk, h]

theorem run_of_die {c : character}
    (h : some c.current_frame_ = c.type_.die_frame) (b : Bool) : c.run b = c := by
  unfold character.run
  rw [change_frame_of_die h]
  simp


theorem frame_kept_of_eq {c c' c'' : character} (k : frame_kept c c')
    (e1 : c''.type_ = c'.type_) (e2 : c''.current_frame_ = c'.current_frame_)
    (e3 : c''.time_in_frame_ = c'.time_in_frame_) (e4 : c''.frame_id_ = c'.frame_id_) :
    frame_kept c c'' :=
  ⟨e1.trans k.1, e2.trans k.2.1, e3.trans k.2.2.1, e4.trans k.2.2.2⟩

theorem change_frame_kept {c c' : character} (h : some c.current_frame_ = c.type_.die_frame)
    (k : frame_kept c c') (nf : Option frame_tag) : frame_kept c (c'.change_frame nf) := by
  rw [change_frame_of_die (die_of_frame_kept h k)]
  exact k

theorem set_velocity_kept {c c' : character} (k : frame_kept c c') (vx vy : Int) :
    frame_kept c (c'.set_velocity vx vy) := frame_kept_of_eq k rfl rfl rfl rfl

theorem set_pos_kept {c c' : character} (k : frame_kept c c') (x y : Int) :
    frame_kept c (c'.set_pos x y) := frame_kept_of_eq k rfl rfl rfl rfl

theorem log_kept {c c' : character} (k : frame_kept c c') (e : event) :
    frame_kept c (c'.log e) := frame_kept_of_eq k rfl rfl rfl rfl

theorem turn_about_kept {c c' : character} (k : frame_kept c c') (b : Bool) :
    frame_kept c (c'.turn_about b) := frame_kept_of_eq k rfl rfl rfl rfl

theorem set_face_right_kept (P : params) (lvl : level) {c c' : character}
    (h : some c.current_frame_ = c.type_.die_frame) (k : frame_kept c c') (b : Bool) :
    frame_kept c (c'.set_face_right P lvl b) := by
  unfold character.set_face_right
  split
  · exact k
  · apply turn_about_kept
    split
    · exact change_frame_kept h k _
    · exact k

theorem walk_kept (P : params) (lvl : level) {c c' : character}
    (h : some c.current_frame_ = c.type_.die_frame) (k : frame_kept c c') (b : Bool) :
    frame_kept c (c'.walk P lvl b) := by
  have hd := die_of_frame_kept h k
  unfold character.walk
  simp only [hd, true_or, or_true, if_true]
  exact k

theorem run_kept {c c' : character}
    (h : some c.current_frame_ = c.type_.die_frame) (k : frame_kept c c') (b : Bool) :
    frame_kept c (c'.run b) := by
  unfold character.run
  split
  · exact change_frame_kept h k _
  · exact k

theorem fly_kept (P : params) (lvl : level) {c c' : character}
    (h : some c.current_frame_ = c.type_.die_frame) (k : frame_kept c c') (b : Bool) (lift : Int) :
    frame_kept c (c'.fly P lvl b lift) := by
  have k1 := set_face_right_kept P lvl h k b
  simp only [character.fly, character.fly_on]
  split_ifs
  all_goals first
    | exact change_frame_kept h (set_velocity_kept k1 _ _) _
    | exact set_velocity_kept k1 _ _

theorem to_jump_frame_kept {c c' : character}
    (h : some c.current_frame_ = c.type_.die_frame) (k : frame_kept c c') :
    frame_kept c c'.to_jump_frame := by
  unfold character.to_jump_frame
  split
  · exact change_frame_kept h k _
  · exact k

theorem ground_jump_kept {c c' : character} (k : frame_kept c c') (p : Option other_entity) :
    frame_kept c (c'.ground_jump p) := by
  unfold character.ground_jump
  cases p with
  | none => exact set_velocity_kept k _ _
  | some p => exact set_velocity_kept (set_velocity_kept k _ _) _ _

theorem jump_kept (P : params) (lvl : level) {c c' : character}
    (h : some c.current_frame_ = c.type_.die_frame) (k : frame_kept c c') :
    frame_kept c (c'.jump P lvl) := by
  unfold character.jump
  split
  · exact to_jump_frame_kept h (set_velocity_kept (set_face_right_kept P lvl h k _) _ _)
  · split
    · exact to_jump_frame_kept h (ground_jump_kept k _)
    · split
      · exact set_velocity_kept k _ _
      · exact k

theorem crouch_kept (P : params) (lvl : level) {c c' : character}
    (h : some c.current_frame_ = c.type_.die_frame) (k : frame_kept c c') :
    frame_kept c (c'.crouch P lvl) := by
  unfold character.crouch
  split
  · exact change_frame_kept h k _
  · exact k

theorem lookup_kept (P : params) (lvl : level) {c c' : character}
    (h : some c.current_frame_ = c.type_.die_frame) (k : frame_kept c c') :
    frame_kept c (c'.lookup P lvl) := by
  unfold character.lookup
  split
  · exact change_frame_kept h k _
  · exact k

theorem attack_kept (P : params) (lvl : level) {c c' : character}
    (h : some c.current_frame_ = c.type_.die_frame) (k : frame_kept c c') (look_up : Bool) :
    frame_kept c (c'.attack P lvl look_up) := by
  unfold character.attack
  repeat' split
  all_goals first
    | exact change_frame_kept h k _
    | exact k

theorem unboarded_kept {c c' : character} (k : frame_kept c c') : frame_kept c c'.unboarded :=
  frame_kept_of_eq k rfl rfl rfl rfl

theorem drop_through_kept (P : params) (lvl : level) {c c' : character}
    (k : frame_kept c c') : frame_kept c (c'.drop_through P lvl) := by
  unfold character.drop_through
  repeat' split
  all_goals first
    | exact k

theorem jump_down_kept (P : params) (lvl : level) {c c' : character}
    (k : frame_kept c c') : frame_kept c (c'.jump_down P lvl) := by
  unfold character.jump_down
  apply drop_through_kept
  split
  · exact unboarded_kept k
  · exact k

theorem hurt_frame_kept {c c' : character}
    (h : some c.current_frame_ = c.type_.die_frame) (k : frame_kept c c') :
    frame_kept c c'.hurt_frame := by
  unfold character.hurt_frame
  repeat' split
  all_goals first
    | exact change_frame_kept h k _
    | exact k

theorem notify_hitter_kept (lvl : level) {c c' : character} (k : frame_kept c c') :
    frame_kept c (c'.notify_hitter lvl) := by
  unfold character.notify_hitter
  repeat' split
  all_goals first
    | exact k

theorem lose_hitpoint_kept (P : params) {c c' : character} (k : frame_kept c c') :
    frame_kept c (c'.lose_hitpoint P) := frame_kept_of_eq k rfl rfl rfl rfl

theorem get_hit_kept (P : params) (lvl : level) {c c' d : character}
    (h : some c.current_frame_ = c.type_.die_frame) (k : frame_kept c c')
    (e : c'.get_hit P lvl = .ok d) : frame_kept c d := by
  unfold character.get_hit at e
  split at e
  · cases e
  · cases e
    exact hurt_frame_kept h (lose_hitpoint_kept P (notify_hitter_kept lvl (log_kept k _)))

theorem change_to_stand_frame_kept (P : params) (lvl : level) {c c' : character}
    (h : some c.current_frame_ = c.type_.die_frame) (k : frame_kept c c') :
    frame_kept c (c'.change_to_stand_frame P lvl) := by
  simp only [character.change_to_stand_frame]
  split_ifs
  all_goals exact change_frame_kept h k _

theorem ne_of_die {c : character} (h : some c.current_frame_ = c.type_.die_frame)
    {tag : frame_tag} (ht : tag ≠ .die) : some c.current_frame_ ≠ c.type_.ptr tag := by
  rw [Ne, some_eq_ptr, cur_of_die h]
  intro hh
  exact ht hh.1.symm

theorem control_of_die (P : params) (lvl : level) (F : formulas) {c : character}
    (h : some c.current_frame_ = c.type_.die_frame) : c.control P lvl F = c := by
  unfold character.control
  rw [if_pos h]

theorem pc_jump_kept (P : params) (lvl : level) (K : controls) {c c' : character}
    (h : some c.current_frame_ = c.type_.die_frame) (k : frame_kept c c') :
    frame_kept c (c'.pc_jump P lvl K) := by
  unfold character.pc_jump
  repeat' split
  · exact frame_kept_of_eq (jump_down_kept P lvl k) rfl rfl rfl rfl
  · exact frame_kept_of_eq (jump_kept P lvl h k) rfl rfl rfl rfl
  · exact frame_kept_of_eq k rfl rfl rfl rfl

theorem pc_look_kept (P : params) (lvl : level) (K : controls) {c c' : character}
    (h : some c.current_frame_ = c.type_.die_frame) (k : frame_kept c c') :
    frame_kept c (c'.pc_look P lvl K) := by
  have hd := die_of_frame_kept h k
  have h1 : ¬ some c'.current_frame_ = c'.type_.crouch_frame := ne_of_die hd (by decide)
  have h2 : ¬ some c'.current_frame_ = c'.type_.lookup_frame := ne_of_die hd (by decide)
  simp only [character.pc_look, h1, h2, if_false]
  split
  · exact lookup_kept P lvl h k
  · exact k

theorem pc_left_kept (P : params) (lvl : level) (K : controls) {c : character}
    {s : character × pc_state}
    (h : some c.current_frame_ = c.type_.die_frame) (k : frame_kept c s.1) :
    frame_kept c (character.pc_left P lvl K s).1 := by
  simp only [character.pc_left]
  split_ifs
  · exact run_kept h (walk_kept P lvl h k _) false
  · exact walk_kept P lvl h k _
  · exact walk_kept P lvl h k _
  · exact k

theorem pc_right_kept (P : params) (lvl : level) (K : controls) {c : character}
    {s : character × pc_state}
    (h : some c.current_frame_ = c.type_.die_frame) (k : frame_kept c s.1) :
    frame_kept c (character.pc_right P lvl K s).1 := by
  simp only [character.pc_right]
  split_ifs
  · exact run_kept h (walk_kept P lvl h k _) true
  · exact walk_kept P lvl h k _
  · exact walk_kept P lvl h k _
  · exact k

theorem pc_rest_kept (P : params) (lvl : level) (K : controls) {c c' : character}
    (pc : pc_state)
    (h : some c.current_frame_ = c.type_.die_frame) (k : frame_kept c c') :
    frame_kept c (c'.pc_rest P lvl K pc).1 := by
  unfold character.pc_rest
  split_ifs
  · exact crouch_kept P lvl h k
  · exact attack_kept P lvl h (pc_look_kept P lvl K h k) _
  · exact pc_right_kept P lvl K h (pc_left_kept P lvl K h (pc_look_kept P lvl K h k))

theorem pc_control_kept (P : params) (lvl : level) (K : controls) {c c' : character}
    (pc : pc_state)
    (h : some c.current_frame_ = c.type_.die_frame) (k : frame_kept c c') :
    frame_kept c (c'.pc_control P lvl K pc).1 := by
  unfold character.pc_control
  split_ifs
  all_goals first
    | exact pc_rest_kept P lvl K _ h (pc_jump_kept P lvl K h k)
    | exact k

theorem do_control_kept (P : params) (lvl : level) (inp : tick_input) {c c' : character}
    (h : some c.current_frame_ = c.type_.die_frame) (k : frame_kept c c') :
    frame_kept c (c'.do_control P lvl inp) := by
  unfold character.do_control
  split
  · exact frame_kept_of_eq (pc_control_kept P lvl inp.keys _ h k) rfl rfl rfl rfl
  · rw [control_of_die P lvl _ (die_of_frame_kept h k)]
    exact k

theorem start_tick_of_die (P : params) (lvl : level) (rand : Nat) {c : character}
    (h : some c.current_frame_ = c.type_.die_frame) :
    c.start_tick P lvl rand = character.advance_timers (c.out_of_bounds lvl) := by
  have k0 : frame_kept c (c.out_of_bounds lvl) := by
    unfold character.out_of_bounds
    split
    · exact ⟨rfl, rfl, rfl, rfl⟩
    · exact frame_kept_refl c
  have hd : some (character.advance_timers (c.out_of_bounds lvl)).current_frame_ =
      (character.advance_timers (c.out_of_bounds lvl)).type_.die_frame := by
    have := die_of_frame_kept h k0
    exact this
  have h1 : ¬ some (character.advance_timers (c.out_of_bounds lvl)).current_frame_ =
      (character.advance_timers (c.out_of_bounds lvl)).type_.crouch_frame :=
    ne_of_die hd (by decide)
  have h2 : ¬ some (character.advance_timers (c.out_of_bounds lvl)).current_frame_ =
      (character.advance_timers (c.out_of_bounds lvl)).type_.lookup_frame :=
    ne_of_die hd (by decide)
  have h3 : ¬ some (character.advance_timers (c.out_of_bounds lvl)).current_frame_ =
      (character.advance_timers (c.out_of_bounds lvl)).type_.walk_frame :=
    ne_of_die hd (by decide)
  have h4 : ¬ some (character.advance_timers (c.out_of_bounds lvl)).current_frame_ =
      (character.advance_timers (c.out_of_bounds lvl)).type_.run_frame :=
    ne_of_die hd (by decide)
  have e1 : character.crouch_lock (character.advance_timers (c.out_of_bounds lvl)) =
      character.advance_timers (c.out_of_bounds lvl) := by
    unfold character.crouch_lock
    simp only [h1, h2, or_self, and_false, if_false]
  have e2 : character.expire P lvl rand (character.advance_timers (c.out_of_bounds lvl)) =
      character.advance_timers (c.out_of_bounds lvl) := by
    unfold character.expire
    simp only [hd, ne_eq, not_true_eq_false, and_false, if_false]
  have e3 : character.stop_walking P lvl (character.advance_timers (c.out_of_bounds lvl)) =
      character.advance_timers (c.out_of_bounds lvl) := by
    unfold character.stop_walking
    simp only [h3, h4, or_self, false_and, if_false]
  unfold character.start_tick
  rw [e1, e2, e3]

theorem start_tick_die_fields (P : params) (lvl : level) (rand : Nat) {c : character}
    (h : some c.current_frame_ = c.type_.die_frame) :
    (c.start_tick P lvl rand).type_ = c.type_ ∧
    (c.start_tick P lvl rand).current_frame_ = c.current_frame_ ∧
    (c.start_tick P lvl rand).time_in_frame_ = c.time_in_frame_ + 1 ∧
    (c.start_tick P lvl rand).frame_id_ = c.frame_id_ := by
  rw [start_tick_of_die P lvl rand h]
  unfold character.out_of_bounds
  split <;> exact ⟨rfl, rfl, rfl, rfl⟩

theorem pre_sweep_kept (P : params) (lvl : level) {c c' : character} (k : frame_kept c c') :
    frame_kept c (c'.pre_sweep P lvl).1 := frame_kept_of_eq k rfl rfl rfl rfl

theorem step_until_standing_kept (P : params) (lvl : level) (dy : Int) {c : character} :
    ∀ (n : Nat) (c' : character), frame_kept c c' →
      frame_kept c (character.step_until_standing P lvl dy n c') := by
  intro n
  induction n with
  | zero => intro c' k; exact k
  | succ n ih =>
    intro c' k
    unfold character.step_until_standing
    split
    · exact k
    · exact ih _ (set_pos_kept k _ _)

theorem try_to_make_standing_kept (P : params) (lvl : level) {c c' : character}
    (k : frame_kept c c') : frame_kept c (c'.try_to_make_standing P lvl) := by
  have k1 := step_until_standing_kept P lvl 1 2 c' k
  simp only [character.try_to_make_standing]
  have k3 := step_until_standing_kept P lvl (-1) 2 _ (set_pos_kept k1
    (character.step_until_standing P lvl 1 2 c').x_
    ((character.step_until_standing P lvl 1 2 c').y_ - MaxStep))
  split_ifs
  · exact k1
  · exact k3
  · exact set_pos_kept k3 _ _

theorem climb_kept (P : params) (lvl : level) {c : character} :
    ∀ (fuel : Nat) (c' : character) (adj : Int) (r : character × Int), frame_kept c c' →
      character.climb P lvl fuel c' adj = .ok r → frame_kept c r.1 := by
  intro fuel
  induction fuel with
  | zero => intro c' adj r _ e; simp [character.climb] at e
  | succ n ih =>
    intro c' adj r k e
    unfold character.climb at e
    split at e
    · exact ih _ _ _ (set_pos_kept k _ _) e
    · cases e
      exact k

theorem after_climb_kept (P : params) (lvl : level) (b : Bool) (adj : Int) {c c' : character}
    (k : frame_kept c c') : frame_kept c (c'.after_climb P lvl b adj) := by
  unfold character.after_climb
  split
  · exact try_to_make_standing_kept P lvl (set_pos_kept k _ _)
  · exact set_pos_kept k _ _

theorem wall_slide_kept {c c' : character}
    (h : some c.current_frame_ = c.type_.die_frame) (k : frame_kept c c') :
    frame_kept c c'.wall_slide := by
  unfold character.wall_slide
  split
  · exact set_velocity_kept (change_frame_kept h k _) _ _
  · exact k

theorem block_kept {c c' : character}
    (h : some c.current_frame_ = c.type_.die_frame) (k : frame_kept c c') :
    frame_kept c c'.block := frame_kept_of_eq (wall_slide_kept h k) rfl rfl rfl rfl

theorem hsweep_step_kept (P : params) (lvl : level) (fuel : Nat) (b : Bool) {c c' : character}
    (h : some c.current_frame_ = c.type_.die_frame) (k : frame_kept c c') (f : flow)
    (e : c'.hsweep_step P lvl fuel b = .ok f) : frame_kept c f.state := by
  unfold character.hsweep_step at e
  split at e
  · split at e
    · cases e
    · rename_i c1 hg
      cases e
      exact get_hit_kept P lvl h (set_velocity_kept k _ _) hg
  · split at e
    · cases e
      exact block_kept h k
    · split at e
      · cases e
      · rename_i r hr
        cases e
        exact after_climb_kept P lvl b _ (climb_kept P lvl _ _ _ _ (set_pos_kept k _ _) hr)

theorem hsweep_loop_kept (P : params) (lvl : level) (fuel : Nat) (b : Bool) {c : character}
    (h : some c.current_frame_ = c.type_.die_frame) :
    ∀ (n : Nat) (c' d : character), frame_kept c c' →
      character.hsweep_loop P lvl fuel b n c' = .ok d → frame_kept c d := by
  intro n
  induction n with
  | zero =>
    intro c' d k e
    simp only [character.hsweep_loop, Except.ok.injEq] at e
    exact e ▸ k
  | succ n ih =>
    intro c' d k e
    unfold character.hsweep_loop at e
    split at e
    · cases e
    · rename_i c1 hs
      cases e
      exact hsweep_step_kept P lvl fuel b h k _ hs
    · rename_i c1 hs
      exact ih _ _ (hsweep_step_kept P lvl fuel b h k _ hs) e

theorem bounce_kept (P : params) (lvl : level) {c c' : character}
    (h : some c.current_frame_ = c.type_.die_frame) (k : frame_kept c c') :
    frame_kept c (c'.bounce P lvl) := by
  unfold character.bounce
  split
  · apply log_kept
    unfold character.leave_gethit character.spring_up
    split_ifs
    all_goals first
      | exact change_frame_kept h (set_velocity_kept k _ _) _
      | exact change_frame_kept h k _
      | exact k
  · exact k

theorem down_loop_kept (P : params) (lvl : level) {c : character}
    (h : some c.current_frame_ = c.type_.die_frame) :
    ∀ (fuel : Nat) (n : Int) (c' d : character), frame_kept c c' →
      character.down_loop P lvl fuel n c' = .ok (d, false) → frame_kept c d := by
  intro fuel
  induction fuel with
  | zero => intro n c' d _ e; simp [character.down_loop] at e
  | succ m ih =>
    intro n c' d k e
    unfold character.down_loop at e
    split at e
    · split at e
      · cases e
        exact set_velocity_kept k _ _
      · split at e
        · cases e
        · exact ih _ _ _ (set_pos_kept (bounce_kept P lvl h k) _ _) e
    · cases e
      exact k

theorem upsweep_step_kept (P : params) (lvl : level) {c c' : character}
    (h : some c.current_frame_ = c.type_.die_frame) (k : frame_kept c c') (f : flow)
    (e : c'.upsweep_step P lvl = .ok f) : frame_kept c f.state := by
  unfold character.upsweep_step at e
  split at e
  · split at e
    · cases e
    · rename_i c1 hg
      cases e
      exact get_hit_kept P lvl h k hg
  · split at e
    · split at e
      · cases e
      · rename_i c1 hg
        cases e
        exact get_hit_kept P lvl h (set_face_right_kept P lvl h k _) hg
    · split at e
      · cases e
        exact frame_kept_of_eq k rfl rfl rfl rfl
      · cases e
        exact set_pos_kept k _ _

theorem upsweep_loop_kept (P : params) (lvl : level) {c : character}
    (h : some c.current_frame_ = c.type_.die_frame) :
    ∀ (n : Nat) (c' d : character), frame_kept c c' →
      character.upsweep_loop P lvl n c' = .ok d → frame_kept c d := by
  intro n
  induction n with
  | zero =>
    intro c' d k e
    simp only [character.upsweep_loop, Except.ok.injEq] at e
    exact e ▸ k
  | succ n ih =>
    intro c' d k e
    unfold character.upsweep_loop at e
    split at e
    · cases e
    · rename_i c1 hs
      cases e
      exact upsweep_step_kept P lvl h k _ hs
    · rename_i c1 hs
      exact ih _ _ (upsweep_step_kept P lvl h k _ hs) e

theorem nudge_kept (P : params) (lvl : level) (b : Bool) (px py dx : Int) {c c' : character}
    (k : frame_kept c c') : frame_kept c (c'.nudge P lvl b px py dx) := by
  unfold character.nudge
  split_ifs
  · exact try_to_make_standing_kept P lvl (set_pos_kept k _ _)
  · exact set_pos_kept k _ _
  · exact k

theorem push_back_kept (P : params) (lvl : level) (b : Bool) {c c' : character}
    (k : frame_kept c c') : frame_kept c (c'.push_back P lvl b) := by
  unfold character.push_back
  exact nudge_kept P lvl b _ _ _ (nudge_kept P lvl b _ _ _ k)

theorem overlap_hits_kept (P : params) (lvl : level) {c c' d : character}
    (h : some c.current_frame_ = c.type_.die_frame) (k : frame_kept c c')
    (e : c'.overlap_hits P lvl = .ok d) : frame_kept c d := by
  unfold character.overlap_hits at e
  split at e
  · cases e
  · rename_i c1 h1
    have k1 : frame_kept c c1 := by
      unfold character.touch_harmful at h1
      split at h1
      · split at h1
        · split at h1
          · exact get_hit_kept P lvl h k h1
          · cases h1
            exact k
        · cases h1
          exact k
      · cases h1
        exact k
    unfold character.player_strike at e
    split at e
    · exact get_hit_kept P lvl h (set_face_right_kept P lvl h k1 _) e
    · cases e
      exact k1

theorem settle_kept (P : params) (lvl : level) {c c' d : character}
    (h : some c.current_frame_ = c.type_.die_frame) (k : frame_kept c c')
    (e : c'.settle P lvl = .ok d) : frame_kept c d := by
  unfold character.settle at e
  split at e
  · cases e
  · rename_i c3 h3
    cases e
    apply set_velocity_kept
    have k2 : frame_kept c (c'.apply_friction P lvl) := set_velocity_kept k _ _
    unfold character.ground_outcome at h3
    split at h3
    · exact get_hit_kept P lvl h k2 h3
    · split at h3
      · cases h3
        unfold character.land
        have k4 : frame_kept c (character.greet_platform
            (c'.is_standing_out P lvl).standing_on (c'.apply_friction P lvl)) := by
          unfold character.greet_platform
          split
          · exact log_kept k2 _
          · exact k2
        split
        · exact change_to_stand_frame_kept P lvl h k4
        · exact k4
      · cases h3
        unfold character.fall
        split_ifs
        · exact change_frame_kept h k2 _
        · exact k2
        · exact k2

theorem end_tick_kept (P : params) (lvl : level) (sx sy : Int) {c c' : character}
    (k : frame_kept c c') : frame_kept c (c'.end_tick P lvl sx sy) := by
  unfold character.end_tick character.set_driver_position
  split
  · exact frame_kept_of_eq k rfl rfl rfl rfl
  · exact frame_kept_of_eq k rfl rfl rfl rfl

theorem after_control_kept (P : params) (lvl : level) (fuel : Nat) (sx sy : Int) (b : Bool)
    {c c' d : character} (h : some c.current_frame_ = c.type_.die_frame) (k : frame_kept c c')
    (e : c'.after_control P lvl fuel sx sy b = .ok (d, false)) : frame_kept c d := by
  unfold character.after_control at e
  split at e
  · cases e
  · rename_i c4 h4
    have k4 := hsweep_loop_kept P lvl fuel b h _ _ _ k h4
    split at e
    · cases e
    · cases e
    · rename_i c5 h5
      have k5 := down_loop_kept P lvl h _ _ _ _ k4 h5
      split at e
      · cases e
      · rename_i c6 h6
        have k6 := upsweep_loop_kept P lvl h _ _ _ k5 h6
        split at e
        · cases e
        · rename_i c8 h8
          have k8 := overlap_hits_kept P lvl h (push_back_kept P lvl b k6) h8
          split at e
          · cases e
          · rename_i c9 h9
            have k9 := settle_kept P lvl h k8 h9
            cases e
            exact end_tick_kept P lvl sx sy k9

/-! ## Steps that only move the actor vertically -/

theorem set_pos_self (c : character) : c.set_pos c.x_ c.y_ = c := rfl

theorem set_pos_set_pos (c : character) (x y x' y' : Int) :
    (c.set_pos x y).set_pos x' y' = c.set_pos x' y' := rfl

theorem step_until_standing_vert (P : params) (lvl : level) (dy : Int) :
    ∀ (n : Nat) (c : character),
      ∃ y, character.step_until_standing P lvl dy n c = c.set_pos c.x_ y := by
  intro n
  induction n with
  | zero => intro c; exact ⟨c.y_, rfl⟩
  | succ n ih =>
    intro c
    unfold character.step_until_standing
    split
    · exact ⟨c.y_, rfl⟩
    · obtain ⟨y, hy⟩ := ih (c.set_pos c.x_ (c.y_ + dy))
      exact ⟨y, hy⟩

theorem try_to_make_standing_vert (P : params) (lvl : level) (c : character) :
    ∃ y, c.try_to_make_standing P lvl = c.set_pos c.x_ y := by
  obtain ⟨y1, h1⟩ := step_until_standing_vert P lvl 1 2 c
  obtain ⟨y3, h3⟩ := step_until_standing_vert P lvl (-1) 2
    ((character.step_until_standing P lvl 1 2 c).set_pos
      (character.step_until_standing P lvl 1 2 c).x_
      ((character.step_until_standing P lvl 1 2 c).y_ - MaxStep))
  simp only [character.try_to_make_standing]
  split_ifs
  · exact ⟨y1, h1⟩
  · rw [h3, h1]
    exact ⟨y3, rfl⟩
  · rw [h3, h1]
    exact ⟨_, rfl⟩

theorem climb_vert (P : params) (lvl : level) :
    ∀ (fuel : Nat) (c : character) (adj : Int) (r : character × Int),
      character.climb P lvl fuel c adj = .ok r → ∃ y, r.1 = c.set_pos c.x_ y := by
  intro fuel
  induction fuel with
  | zero => intro c adj r e; simp [character.climb] at e
  | succ n ih =>
    intro c adj r e
    unfold character.climb at e
    split at e
    · obtain ⟨y, hy⟩ := ih _ _ _ e
      exact ⟨y, hy⟩
    · cases e
      exact ⟨c.y_, rfl⟩

theorem after_climb_vert (P : params) (lvl : level) (b : Bool) (c : character) (adj : Int) :
    ∃ y, c.after_climb P lvl b adj = c.set_pos c.x_ y := by
  unfold character.after_climb
  split
  · obtain ⟨y, hy⟩ := try_to_make_standing_vert P lvl (c.set_pos c.x_ (c.y_ + 1 + adj))
    exact ⟨y, hy⟩
  · exact ⟨_, rfl⟩

/-- An iteration of the horizontal sweep that goes on moved the actor by one
pixel in the sweep direction and otherwise only changed its height. -/
theorem hsweep_step_next (P : params) (lvl : level) (fuel : Nat) (b : Bool) (c c' : character)
    (e : c.hsweep_step P lvl fuel b = .ok (.next c')) :
    (c.hsweep_test lvl).2 = false ∧ (c.hsweep_test lvl).1 = false ∧
    ∃ y, c' = c.set_pos (c.x_ + c.sweep_dir) y := by
  unfold character.hsweep_step at e
  split at e
  · split at e <;> cases e
  · rename_i h2
    split at e
    · cases e
    · rename_i h1
      split at e
      · cases e
      · rename_i r hr
        cases e
        obtain ⟨y, hy⟩ := climb_vert P lvl _ _ _ _ hr
        obtain ⟨y', hy'⟩ := after_climb_vert P lvl b r.1 r.2
        refine ⟨by simpa using h2, by simpa using h1, y', ?_⟩
        rw [hy', hy]
        rfl

/-! ## The horizontal sweep -/

theorem scan_column_clear (lvl : level) (inv x : Int) :
    ∀ (n : Nat) (y0 : Int), scan_column lvl inv x n y0 = .clear →
      ∀ i : Nat, i < n → lvl.solid x (y0 + i) = false := by
  intro n
  induction n with
  | zero => intro y0 _ i hi; omega
  | succ n ih =>
    intro y0 e i hi
    unfold scan_column at e
    split at e
    · split at e <;> cases e
    · rename_i hs
      cases i with
      | zero => simpa using hs
      | succ i =>
        have := ih (y0 + 1) e i (by omega)
        rw [← this]
        congr 1
        push_cast
        omega

theorem scan_column_first_solid (lvl : level) (inv x : Int) :
    ∀ (n : Nat) (y0 : Int) (i : Nat), column_first_solid lvl x y0 n i →
      scan_column lvl inv x n y0 =
        if seen_damage lvl inv x (y0 + i) = 0 then .collide else .hit := by
  intro n
  induction n with
  | zero => intro y0 i h; exact absurd h.1 (by omega)
  | succ n ih =>
    intro y0 i h
    obtain ⟨hi, hs, hb⟩ := h
    unfold scan_column
    cases i with
    | zero =>
      have hs' : lvl.solid x y0 = true := by simpa using hs
      simp only [hs', if_true]
      simp
    | succ i =>
      have h0 : lvl.solid x y0 = false := by simpa using hb 0 (by omega)
      simp only [h0, Bool.false_eq_true, if_false]
      have e1 : y0 + ((i + 1 : Nat) : Int) = y0 + 1 + (i : Int) := by push_cast; omega
      rw [e1]
      apply ih (y0 + 1) i
      refine ⟨by omega, ?_, ?_⟩
      · rw [← e1]; exact hs
      · intro j hj
        have := hb (j + 1) (by omega)
        rw [← this]
        congr 1
        push_cast
        omega

theorem scan_column_hit_inv (lvl : level) (inv x : Int) :
    ∀ (n : Nat) (y0 : Int), scan_column lvl inv x n y0 = .hit → inv = 0 := by
  intro n
  induction n with
  | zero => intro y0 e; cases e
  | succ n ih =>
    intro y0 e
    unfold scan_column at e
    split at e
    · split at e
      · cases e
      · rename_i hd
        unfold seen_damage at hd
        by_contra hne
        exact hd (by simp [hne])
    · exact ih _ e

theorem entity_test_hit_inv (c : character) (e : Option other_entity) (b : Bool)
    (h : (entity_test c e b).2 = true) : c.invincible_ = 0 := by
  unfold entity_test at h
  split at h
  · split at h
    · simpa using h
    · cases h
  · cases h

theorem hsweep_test_hit_inv (lvl : level) (c : character)
    (h : (c.hsweep_test lvl).2 = true) : c.invincible_ = 0 := by
  unfold character.hsweep_test at h
  split at h
  · rename_i hs
    exact scan_column_hit_inv lvl _ _ _ _ hs
  · exact entity_test_hit_inv _ _ _ h

theorem get_hit_ok (P : params) (lvl : level) (c : character) (h : c.invincible_ = 0) :
    c.get_hit P lvl =
      .ok (character.hurt_frame (character.lose_hitpoint P
        (character.notify_hitter lvl (c.log .get_hit)))) := by
  unfold character.get_hit
  simp [h]

theorem get_hit_inv (P : params) (lvl : level) (c d : character)
    (e : c.get_hit P lvl = .ok d) : c.invincible_ = 0 := by
  unfold character.get_hit at e
  split at e
  · cases e
  · rename_i h
    simpa using h

theorem hurt_frame_feet (c : character) :
    c.hurt_frame.feet_x = c.feet_x ∧ c.hurt_frame.feet_y = c.feet_y := by
  unfold character.hurt_frame
  split_ifs
  · exact ⟨feet_x_change_frame _ _, feet_y_change_frame _ _⟩
  · exact ⟨feet_x_change_frame _ _, feet_y_change_frame _ _⟩
  · exact ⟨rfl, rfl⟩

theorem notify_hitter_feet (lvl : level) (c : character) :
    (c.notify_hitter lvl).feet_x = c.feet_x ∧ (c.notify_hitter lvl).feet_y = c.feet_y := by
  unfold character.notify_hitter
  repeat' split
  all_goals exact ⟨rfl, rfl⟩

theorem get_hit_feet (P : params) (lvl : level) (c d : character)
    (e : c.get_hit P lvl = .ok d) : d.feet_x = c.feet_x ∧ d.feet_y = c.feet_y := by
  rw [get_hit_ok P lvl c (get_hit_inv P lvl c d e)] at e
  cases e
  have h1 := hurt_frame_feet (character.lose_hitpoint P
    (character.notify_hitter lvl (c.log .get_hit)))
  have h2 := notify_hitter_feet lvl (c.log .get_hit)
  exact ⟨h1.1.trans h2.1, h1.2.trans h2.2⟩

theorem wall_slide_feet (c : character) :
    c.wall_slide.feet_x = c.feet_x ∧ c.wall_slide.feet_y = c.feet_y := by
  unfold character.wall_slide
  split
  · exact ⟨feet_x_change_frame _ _, feet_y_change_frame _ _⟩
  · exact ⟨rfl, rfl⟩

theorem block_feet (c : character) :
    c.block.feet_x = c.feet_x ∧ c.block.feet_y = c.feet_y := wall_slide_feet c

theorem sweep_dir_abs (c : character) : |c.sweep_dir| = 1 := by
  unfold character.sweep_dir
  split <;> simp

theorem feet_x_set_pos (c : character) (x y : Int) :
    (c.set_pos x y).feet_x = c.feet_x + (x - c.x_) := by
  unfold character.feet_x
  simp only [character.set_pos, character.current_frame]
  split <;> omega

theorem feet_y_set_pos (c : character) (x y : Int) :
    (c.set_pos x y).feet_y = c.feet_y + (y - c.y_) := by
  unfold character.feet_y
  simp only [character.set_pos, character.current_frame]
  omega

/-- What an iteration of the horizontal sweep does to the feet: a step that goes
on moves them one pixel sideways, a step that ends the sweep leaves their x. -/
theorem hsweep_step_feet (P : params) (lvl : level) (fuel : Nat) (b : Bool) (c : character)
    (f : flow) (e : c.hsweep_step P lvl fuel b = .ok f) :
    match f with
    | .next c' => c'.feet_x = c.feet_x + c.sweep_dir
    | .done c' => c'.feet_x = c.feet_x := by
  cases f with
  | next c' =>
    obtain ⟨_, _, y, hy⟩ := hsweep_step_next P lvl fuel b c c' e
    simp only [hy, feet_x_set_pos]
    omega
  | done c' =>
    unfold character.hsweep_step at e
    split at e
    · split at e
      · cases e
      · rename_i c1 hg
        cases e
        exact (get_hit_feet P lvl _ _ hg).1
    · split at e
      · cases e
        exact (block_feet c).1
      · split at e <;> cases e

theorem hsweep_loop_feet (P : params) (lvl : level) (fuel : Nat) (b : Bool) :
    ∀ (n : Nat) (c d : character), character.hsweep_loop P lvl fuel b n c = .ok d →
      |d.feet_x - c.feet_x| ≤ (n : Int) := by
  intro n
  induction n with
  | zero =>
    intro c d e
    simp only [character.hsweep_loop, Except.ok.injEq] at e
    subst e
    simp
  | succ n ih =>
    intro c d e
    unfold character.hsweep_loop at e
    split at e
    · cases e
    · rename_i c1 hs
      cases e
      have := hsweep_step_feet P lvl fuel b c _ hs
      simp only at this
      rw [this]
      simp
      omega
    · rename_i c1 hs
      have h1 := hsweep_step_feet P lvl fuel b c _ hs
      simp only at h1
      have h2 := ih c1 d e
      have h3 := sweep_dir_abs c
      rw [h1] at h2
      have : d.feet_x - c.feet_x = (d.feet_x - (c.feet_x + c.sweep_dir)) + c.sweep_dir := by ring
      rw [this]
      calc |d.feet_x - (c.feet_x + c.sweep_dir) + c.sweep_dir|
          ≤ |d.feet_x - (c.feet_x + c.sweep_dir)| + |c.sweep_dir| := abs_add _ _
        _ ≤ (n : Int) + 1 := by omega
        _ = ((n + 1 : Nat) : Int) := by push_cast; ring

theorem is_standing_eq (P : params) (lvl : level) (c : character) :
    c.is_standing P lvl =
      ((lvl.standable (c.feet_x - P.FeetWidth) c.feet_y).ok ||
       (lvl.standable (c.feet_x + P.FeetWidth) c.feet_y).ok) := by
  unfold character.is_standing character.is_standing_out
  by_cases h : (lvl.standable (c.feet_x - P.FeetWidth) c.feet_y).ok = true
  · simp [h]
  · simp [h]

theorem climb_ok (P : params) (lvl : level) :
    ∀ (fuel : Nat) (c : character) (adj : Int),
      (∃ k : Nat, k < fuel ∧
        (lvl.standable (c.feet_x - P.FeetWidth) (c.feet_y - k)).ok = false ∧
        (lvl.standable (c.feet_x + P.FeetWidth) (c.feet_y - k)).ok = false) →
      ∃ r, character.climb P lvl fuel c adj = .ok r := by
  intro fuel
  induction fuel with
  | zero => intro c adj ⟨k, hk, _⟩; omega
  | succ n ih =>
    intro c adj ⟨k, hk, h1, h2⟩
    unfold character.climb
    by_cases hs : c.is_standing P lvl = true
    · simp only [hs, if_true]
      apply ih
      cases k with
      | zero =>
        rw [is_standing_eq] at hs
        simp only [Nat.cast_zero, sub_zero] at h1 h2
        simp [h1, h2] at hs
      | succ k =>
        refine ⟨k, by omega, ?_, ?_⟩
        · rw [feet_x_set_pos, feet_y_set_pos]
          have : c.feet_y + (c.y_ - 1 - c.y_) - (k : Int) = c.feet_y - ((k + 1 : Nat) : Int) := by
            push_cast; omega
          rw [this]
          simpa using h1
        · rw [feet_x_set_pos, feet_y_set_pos]
          have : c.feet_y + (c.y_ - 1 - c.y_) - (k : Int) = c.feet_y - ((k + 1 : Nat) : Int) := by
            push_cast; omega
          rw [this]
          simpa using h2
    · simp only [hs, if_false]
      exact ⟨_, rfl⟩

theorem hsweep_step_ok (P : params) (lvl : level) (fuel : Nat) (b : Bool) (c : character)
    (hs : climb_settles P lvl fuel) : ∃ f, c.hsweep_step P lvl fuel b = .ok f := by
  unfold character.hsweep_step
  split
  · rename_i h2
    have hi := hsweep_test_hit_inv lvl c h2
    rw [get_hit_ok P lvl _ (by exact hi)]
    exact ⟨_, rfl⟩
  · split
    · exact ⟨_, rfl⟩
    · obtain ⟨r, hr⟩ := climb_ok P lvl fuel (c.set_pos (c.x_ + c.sweep_dir) (c.y_ - 1)) 0
        (hs _ _)
      rw [hr]
      exact ⟨_, rfl⟩

theorem hsweep_loop_ok (P : params) (lvl : level) (fuel : Nat) (b : Bool)
    (hs : climb_settles P lvl fuel) :
    ∀ (n : Nat) (c : character), ∃ d, character.hsweep_loop P lvl fuel b n c = .ok d := by
  intro n
  induction n with
  | zero => intro c; exact ⟨c, rfl⟩
  | succ n ih =>
    intro c
    unfold character.hsweep_loop
    obtain ⟨f, hf⟩ := hsweep_step_ok P lvl fuel b c hs
    rw [hf]
    cases f with
    | next c1 => exact ih c1
    | done c1 => exact ⟨c1, rfl⟩

theorem hsweep_test_clear (lvl : level) (c : character)
    (h1 : (c.hsweep_test lvl).1 = false) (h2 : (c.hsweep_test lvl).2 = false) :
    c.leading_scan lvl = .clear ∧
    ∀ e, c.leading_entity lvl = some e →
      e.body_harmful = true ∧ c.is_human_ = true ∧ c.invincible_ ≠ 0 := by
  unfold character.hsweep_test at h1 h2
  by_cases hs : c.leading_scan lvl = .hit
  · simp [hs] at h2
  · simp only [hs, if_false] at h1 h2
    unfold entity_test at h1 h2
    cases he : c.leading_entity lvl with
    | none =>
      simp only [he] at h1 h2
      constructor
      · cases hc : c.leading_scan lvl with
        | clear => rfl
        | collide => simp [hc] at h1
        | hit => exact absurd hc hs
      · intro e h
        cases h
    | some e =>
      simp only [he] at h1 h2
      by_cases hh : (e.body_harmful && c.is_human_) = true
      · simp only [hh, if_true] at h1 h2
        constructor
        · cases hc : c.leading_scan lvl with
          | clear => rfl
          | collide => simp [hc] at h1
          | hit => exact absurd hc hs
        · intro e' h
          cases h
          simp only [Bool.and_eq_true] at hh
          exact ⟨hh.1, hh.2, by simpa using h2⟩
      · simp [hh] at h1

theorem hsweep_test_blocked (lvl : level) (c : character) (i : Nat)
    (hf : column_first_solid lvl c.leading_x (c.y_ + c.current_frame.collide_y)
      c.current_frame.collide_h.toNat i)
    (hd : seen_damage lvl c.invincible_ c.leading_x (c.y_ + c.current_frame.collide_y + i) = 0)
    (hn : ∀ e, c.leading_entity lvl = some e →
      ¬ (e.body_harmful = true ∧ c.is_human_ = true ∧ c.invincible_ = 0)) :
    c.hsweep_test lvl = (true, false) := by
  have hs : c.leading_scan lvl = .collide := by
    unfold character.leading_scan
    have : (c.y_ + c.current_frame.collide_y + c.current_frame.collide_h -
        (c.y_ + c.current_frame.collide_y)).toNat = c.current_frame.collide_h.toNat := by
      congr 1
      omega
    rw [this, scan_column_first_solid lvl _ _ _ _ i hf, if_pos hd]
  unfold character.hsweep_test
  simp only [hs, if_false, decide_True, reduceCtorEq]
  unfold entity_test
  cases he : c.leading_entity lvl with
  | none => rfl
  | some e =>
    simp only
    by_cases hh : (e.body_harmful && c.is_human_) = true
    · simp only [hh, if_true]
      have := hn e he
      simp only [Bool.and_eq_true] at hh
      have hi : c.invincible_ ≠ 0 := fun h0 => this ⟨hh.1, hh.2, h0⟩
      simp [hi]
    · simp [hh]

/-- C5, as stated, fails.  First: the leading-edge column of the walker holds a
solid, non-damaging cell, yet the sweep does not end with `velocity_x = 0` and the
collided flag: the harmful body in that column hits the actor, which is knocked
back (`velocity_x = -200`) and takes the hit.  Second: the actor falling against
the wall is blocked in its first iteration, yet its `x` is not the one before that
step: the switch to the slide frame re-anchors it by 14 pixels, more than the
`|velocity_x/100| = 4` pixels of the sweep. -/
theorem hsweep_hit_in_front_of_wall :
    guarded_wall_level.solid walker_at_wall.leading_x
      (walker_at_wall.y_ + walker_at_wall.current_frame.collide_y) = true ∧
    seen_damage guarded_wall_level walker_at_wall.invincible_ walker_at_wall.leading_x
      (walker_at_wall.y_ + walker_at_wall.current_frame.collide_y) = 0 ∧
    (walker_at_wall.hsweep demo_params guarded_wall_level 5 true).toOption.map
      (fun d => (d.velocity_x_, d.collided_since_last_frame_, d.hits)) =
      some (-200, false, 1) ∧
    wall_slider.x_ = 102 ∧ |wall_slider.velocity_x_.tdiv 100| = 4 ∧
    (wall_slider.hsweep demo_params wall_level 5 false).toOption.map
      (fun d => (d.x_, d.feet_x, d.velocity_x_, d.collided_since_last_frame_)) =
      some (88, wall_slider.feet_x, 0, true) := by
  refine ⟨by decide, by decide, by rfl, by decide, by decide, by rfl⟩

/-- C5, amended.  In the horizontal sweep (a) an iteration moves the actor, by
exactly one pixel in the sweep direction, only if no cell of the leading-edge
column over the frame's collision height is solid and no blocking entity is
there; (b) when the first solid cell of the column is non-damaging and no
harmful body in the column hits the actor, the iteration ends the sweep with
`velocity_x = 0`, the collided flag set and the feet where they were (and `x`
itself unchanged unless the frame switches to slide); (c) the feet move
horizontally by at most `|velocity_x/100|` pixels over the sweep; (d) the sweep
returns whenever the climb loop settles within the fuel. -/
theorem hsweep_blocking (P : params) (lvl : level) (fuel : Nat) (b : Bool) (c : character) :
    (∀ c', c.hsweep_step P lvl fuel b = .ok (.next c') →
      (∀ i : Nat, i < c.current_frame.collide_h.toNat →
        lvl.solid c.leading_x (c.y_ + c.current_frame.collide_y + i) = false) ∧
      (∀ e, c.leading_entity lvl = some e →
        e.body_harmful = true ∧ c.is_human_ = true ∧ c.invincible_ ≠ 0) ∧
      c'.x_ = c.x_ + c.sweep_dir ∧ c'.feet_x = c.feet_x + c.sweep_dir) ∧
    (∀ i : Nat,
      column_first_solid lvl c.leading_x (c.y_ + c.current_frame.collide_y)
        c.current_frame.collide_h.toNat i →
      seen_damage lvl c.invincible_ c.leading_x (c.y_ + c.current_frame.collide_y + i) = 0 →
      (∀ e, c.leading_entity lvl = some e →
        ¬ (e.body_harmful = true ∧ c.is_human_ = true ∧ c.invincible_ = 0)) →
      c.hsweep_step P lvl fuel b = .ok (.done c.block) ∧
      c.block.velocity_x_ = 0 ∧ c.block.collided_since_last_frame_ = true ∧
      c.block.feet_x = c.feet_x ∧ (¬ c.slides_on_wall → c.block.x_ = c.x_)) ∧
    (∀ d, c.hsweep P lvl fuel b = .ok d →
      |d.feet_x - c.feet_x| ≤ |c.velocity_x_.tdiv 100|) ∧
    (climb_settles P lvl fuel → ∃ d, c.hsweep P lvl fuel b = .ok d) := by
  refine ⟨?_, ?_, ?_, ?_⟩
  · intro c' e
    obtain ⟨h2, h1, y, hy⟩ := hsweep_step_next P lvl fuel b c c' e
    obtain ⟨hs, he⟩ := hsweep_test_clear lvl c h1 h2
    refine ⟨?_, he, by rw [hy]; rfl, ?_⟩
    · intro i hi
      unfold character.leading_scan at hs
      exact scan_column_clear lvl _ _ _ _ hs i (by
        have : (c.y_ + c.current_frame.collide_y + c.current_frame.collide_h -
            (c.y_ + c.current_frame.collide_y)).toNat = c.current_frame.collide_h.toNat := by
          congr 1
          omega
        omega)
    · have := hsweep_step_feet P lvl fuel b c _ e
      exact this
  · intro i hf hd hn
    have ht := hsweep_test_blocked lvl c i hf hd hn
    refine ⟨?_, rfl, rfl, (block_feet c).1, ?_⟩
    · unfold character.hsweep_step
      simp [ht]
    · intro hns
      show c.wall_slide.x_ = c.x_
      unfold character.wall_slide
      rw [if_neg hns]
  · intro d e
    exact (hsweep_loop_feet P lvl fuel b _ c d e).trans
      (le_of_eq (Int.abs_eq_natAbs _).symm)
  · intro hs
    exact hsweep_loop_ok P lvl fuel b hs _ c

theorem wall_level_settles : climb_settles demo_params wall_level 3 := by
  intro x y
  by_cases h : y = 100
  · refine ⟨1, by omega, ?_, ?_⟩ <;> simp [wall_level, flat_level, no_support, h]
  · refine ⟨0, by omega, ?_, ?_⟩ <;> simp [wall_level, flat_level, no_support, h]

theorem hsweep_blocking_witness :
    walker_step.x_ = walker.x_ + walker.sweep_dir ∧
    walker_at_wall.block.velocity_x_ = 0 ∧
    |walker_stopped.feet_x - walker.feet_x| ≤ |walker.velocity_x_.tdiv 100| ∧
    (∃ d, walker.hsweep demo_params wall_level 3 true = .ok d) :=
  ⟨((hsweep_blocking demo_params wall_level 3 true walker).1 walker_step (by rfl)).2.2.1,
   ((hsweep_blocking demo_params wall_level 3 true walker_at_wall).2.1 0
      ⟨by decide, by decide, by decide⟩ (by decide) (by decide)).2.1,
   (hsweep_blocking demo_params wall_level 3 true walker).2.2.1 walker_stopped (by rfl),
   (hsweep_blocking demo_params wall_level 3 true walker).2.2.2 wall_level_settles⟩

/-! ## The downward sweep -/

theorem lowered_zero (c : character) : c.lowered 0 = c := by
  unfold character.lowered
  rw [Nat.cast_zero, add_zero]
  rfl

theorem lowered_succ (c : character) (j : Nat) :
    character.lowered (c.set_pos c.x_ (c.y_ + 1)) j = c.lowered (j + 1) := by
  unfold character.lowered
  show c.set_pos c.x_ (c.y_ + 1 + j) = c.set_pos c.x_ (c.y_ + ((j + 1 : Nat) : Int))
  congr 1
  push_cast
  omega

theorem bounce_of_free (P : params) (lvl : level) (c : character)
    (h : c.under_feet P lvl = none) : c.bounce P lvl = c := by
  unfold character.bounce
  rw [h]

theorem down_loop_stop (P : params) (lvl : level) :
    ∀ (k fuel : Nat) (n : Int) (c : character), k < fuel →
      n + k < c.velocity_y_.tdiv 100 →
      (∀ j, j < k → (c.lowered j).is_standing P lvl = false ∧ (c.lowered j).feet_free P lvl) →
      (c.lowered k).is_standing P lvl = true →
      character.down_loop P lvl fuel n c =
        .ok (character.set_velocity (c.lowered k) c.velocity_x_ 0, false) := by
  intro k
  induction k with
  | zero =>
    intro fuel n c hf hn _ hs
    obtain ⟨f, rfl⟩ : ∃ f, fuel = f + 1 := ⟨fuel - 1, by omega⟩
    rw [lowered_zero] at hs ⊢
    unfold character.down_loop
    have hn' : n < c.velocity_y_.tdiv 100 := by simpa using hn
    simp only [hn', if_true, hs]
  | succ k ih =>
    intro fuel n c hf hn hfree hs
    obtain ⟨f, rfl⟩ : ∃ f, fuel = f + 1 := ⟨fuel - 1, by omega⟩
    have h0 := hfree 0 (by omega)
    rw [lowered_zero] at h0
    unfold character.down_loop
    have hn' : n < c.velocity_y_.tdiv 100 := by push_cast at hn; omega
    simp only [hn', if_true, h0.1, Bool.false_eq_true, if_false, bounce_of_free P lvl c h0.2.1,
      h0.2.2]
    have := ih f (n + 1) (c.set_pos c.x_ (c.y_ + 1)) (by omega)
      (by show n + 1 + (k : Int) < c.velocity_y_.tdiv 100; push_cast at hn; omega)
      (by intro j hj; rw [lowered_succ]; exact hfree (j + 1) (by omega))
      (by rw [lowered_succ]; exact hs)
    rw [this, lowered_succ]
    rfl

theorem down_loop_through (P : params) (lvl : level) :
    ∀ (m fuel : Nat) (n : Int) (c : character), m < fuel →
      n + m = c.velocity_y_.tdiv 100 →
      (∀ j, j < m → (c.lowered j).is_standing P lvl = false ∧ (c.lowered j).feet_free P lvl) →
      character.down_loop P lvl fuel n c = .ok (c.lowered m, false) := by
  intro m
  induction m with
  | zero =>
    intro fuel n c hf hn _
    obtain ⟨f, rfl⟩ : ∃ f, fuel = f + 1 := ⟨fuel - 1, by omega⟩
    rw [lowered_zero]
    unfold character.down_loop
    have hn' : ¬ n < c.velocity_y_.tdiv 100 := by simp at hn; omega
    simp only [hn', if_false]
  | succ m ih =>
    intro fuel n c hf hn hfree
    obtain ⟨f, rfl⟩ : ∃ f, fuel = f + 1 := ⟨fuel - 1, by omega⟩
    have h0 := hfree 0 (by omega)
    rw [lowered_zero] at h0
    unfold character.down_loop
    have hn' : n < c.velocity_y_.tdiv 100 := by push_cast at hn; omega
    simp only [hn', if_true, h0.1, Bool.false_eq_true, if_false, bounce_of_free P lvl c h0.2.1,
      h0.2.2]
    have := ih f (n + 1) (c.set_pos c.x_ (c.y_ + 1)) (by omega)
      (by show n + 1 + (m : Int) = c.velocity_y_.tdiv 100; push_cast at hn; omega)
      (by intro j hj; rw [lowered_succ]; exact hfree (j + 1) (by omega))
    rw [this, lowered_succ]

/-- C6: for an actor with `velocity_y = v > 0` and nothing under its feet to
bounce off or board along the way, the downward sweep (given fuel for `v/100`
iterations) ends at the least `k < v/100` at which the actor is ground-supported,
with `y = y0 + k` and `velocity_y = 0`; when there is no such `k` it ends with
`y = y0 + v/100` and the state otherwise unchanged.  With `k = 0`: it never moves
the actor down from a supported position. -/
theorem down_sweep_lands (P : params) (lvl : level) (fuel : Nat) (c : character)
    (hv : 0 < c.velocity_y_) (hfuel : (c.velocity_y_.tdiv 100).toNat < fuel)
    (hfree : ∀ j : Nat, (j : Int) < c.velocity_y_.tdiv 100 → (c.lowered j).feet_free P lvl) :
    (∀ k : Nat, (k : Int) < c.velocity_y_.tdiv 100 →
      (∀ j, j < k → (c.lowered j).is_standing P lvl = false) →
      (c.lowered k).is_standing P lvl = true →
      c.down_sweep P lvl fuel =
        .ok ({ c with y_ := c.y_ + k, velocity_y_ := 0 }, false)) ∧
    ((∀ j : Nat, (j : Int) < c.velocity_y_.tdiv 100 → (c.lowered j).is_standing P lvl = false) →
      c.down_sweep P lvl fuel =
        .ok ({ c with y_ := c.y_ + c.velocity_y_.tdiv 100 }, false)) := by
  have hN : 0 ≤ c.velocity_y_.tdiv 100 := Int.tdiv_nonneg (le_of_lt hv) (by decide)
  constructor
  · intro k hk hno hs
    unfold character.down_sweep
    rw [down_loop_stop P lvl k fuel 0 c (by omega) (by omega)
      (fun j hj => ⟨hno j hj, hfree j (by omega)⟩) hs]
    rfl
  · intro hno
    unfold character.down_sweep
    rw [down_loop_through P lvl (c.velocity_y_.tdiv 100).toNat fuel 0 c hfuel
      (by rw [Int.toNat_of_nonneg hN]; omega)
      (fun j hj => ⟨hno j (by omega), hfree j (by omega)⟩)]
    unfold character.lowered
    rw [Int.toNat_of_nonneg hN]
    rfl

theorem down_sweep_lands_witness :
    faller.down_sweep demo_params flat_level 4 =
      .ok ({ faller with y_ := faller.y_ + (2 : Nat), velocity_y_ := 0 }, false) ∧
    high_faller.down_sweep demo_params flat_level 4 =
      .ok ({ high_faller with y_ := high_faller.y_ + high_faller.velocity_y_.tdiv 100 }, false) :=
  ⟨(down_sweep_lands demo_params flat_level 4 faller (by decide) (by decide)
      (fun _ _ => ⟨rfl, rfl⟩)).1 2 (by decide) (by decide) (by decide),
   (down_sweep_lands demo_params flat_level 4 high_faller (by decide) (by decide)
      (fun _ _ => ⟨rfl, rfl⟩)).2 (by
        intro j hj
        have hj' : j < 3 := by
          have : high_faller.velocity_y_.tdiv 100 = 3 := by decide
          omega
        interval_cases j <;> decide)⟩

/-! ## Steps that neither hit nor heal -/

theorem vitals_kept_refl (c : character) : vitals_kept c c := ⟨rfl, rfl, rfl, rfl, rfl⟩

theorem vitals_kept_trans {a b c : character} (h1 : vitals_kept a b) (h2 : vitals_kept b c) :
    vitals_kept a c :=
  ⟨h2.1.trans h1.1, h2.2.1.trans h1.2.1, h2.2.2.1.trans h1.2.2.1, h2.2.2.2.1.trans h1.2.2.2.1,
    h2.2.2.2.2.trans h1.2.2.2.2⟩

theorem vitals_of_eq {c c' c'' : character} (k : vitals_kept c c')
    (e1 : c''.type_ = c'.type_) (e2 : c''.is_human_ = c'.is_human_)
    (e3 : c''.invincible_ = c'.invincible_) (e4 : c''.hitpoints_ = c'.hitpoints_)
    (e5 : c''.hits = c'.hits) : vitals_kept c c'' :=
  vitals_kept_trans k ⟨e1, e2, e3, e4, e5⟩

theorem hits_log (c : character) (e : event) :
    (c.log e).hits = c.hits + if e = event.get_hit then 1 else 0 := by
  unfold character.hits character.log
  simp only [List.count_append]
  by_cases h : e = event.get_hit
  · simp [h]
  · have : (e == event.get_hit) = false := by simpa using h
    simp [h, List.count_cons, this]

theorem log_vitals {c c' : character} (k : vitals_kept c c') (e : event)
    (he : e ≠ event.get_hit) : vitals_kept c (c'.log e) :=
  vitals_of_eq k rfl rfl rfl rfl (by rw [hits_log, if_neg he, add_zero])

theorem set_velocity_vitals {c c' : character} (k : vitals_kept c c') (vx vy : Int) :
    vitals_kept c (c'.set_velocity vx vy) := vitals_of_eq k rfl rfl rfl rfl rfl

theorem change_frame_vitals {c c' : character} (k : vitals_kept c c') (nf : Option frame_tag) :
    vitals_kept c (c'.change_frame nf) := by
  apply vitals_kept_trans k
  cases nf with
  | none => exact vitals_kept_refl c'
  | some nf =>
    unfold character.change_frame vitals_kept
    by_cases hd : some c'.current_frame_ = c'.type_.die_frame
    · simp [hd]
    · by_cases h1 : (c'.type_.deref nf).velocity_x ≠ 0 <;>
      by_cases h2 : (c'.type_.deref nf).velocity_y ≠ 0 <;>
      simp [hd, h1, h2, character.set_pos, character.log, character.hits, List.count_append]

theorem turn_about_vitals {c c' : character} (k : vitals_kept c c') (b : Bool) :
    vitals_kept c (c'.turn_about b) := vitals_of_eq k rfl rfl rfl rfl rfl

theorem set_face_right_vitals (P : params) (lvl : level) {c c' : character}
    (k : vitals_kept c c') (b : Bool) : vitals_kept c (c'.set_face_right P lvl b) := by
  unfold character.set_face_right
  split
  · exact k
  · apply turn_about_vitals
    split
    · exact change_frame_vitals k _
    · exact k

theorem change_to_stand_frame_vitals (P : params) (lvl : level) {c c' : character}
    (k : vitals_kept c c') : vitals_kept c (c'.change_to_stand_frame P lvl) := by
  simp only [character.change_to_stand_frame]
  split_ifs
  all_goals exact change_frame_vitals k _

theorem walk_on_vitals (s b : Bool) {c c' : character} (k : vitals_kept c c') :
    vitals_kept c (character.walk_on s b c') := by
  simp only [character.walk_on]
  split_ifs
  all_goals first
    | exact change_frame_vitals (set_velocity_vitals k _ _) _
    | exact k

theorem walk_vitals (P : params) (lvl : level) {c c' : character}
    (k : vitals_kept c c') (b : Bool) : vitals_kept c (c'.walk P lvl b) := by
  unfold character.walk
  split
  · exact k
  · exact walk_on_vitals _ _ (set_face_right_vitals P lvl k _)

theorem run_vitals {c c' : character} (k : vitals_kept c c') (b : Bool) :
    vitals_kept c (c'.run b) := by
  unfold character.run
  split
  all_goals first
    | exact k
    | exact change_frame_vitals k _

theorem fly_on_vitals (b : Bool) (lift : Int) {c c' : character} (k : vitals_kept c c') :
    vitals_kept c (character.fly_on b lift c') := by
  simp only [character.fly_on]
  split_ifs
  all_goals first
    | exact change_frame_vitals (set_velocity_vitals k _ _) _
    | exact k

theorem fly_vitals (P : params) (lvl : level) {c c' : character}
    (k : vitals_kept c c') (b : Bool) (lift : Int) : vitals_kept c (c'.fly P lvl b lift) :=
  fly_on_vitals _ _ (set_face_right_vitals P lvl k _)

theorem to_jump_frame_vitals {c c' : character} (k : vitals_kept c c') :
    vitals_kept c c'.to_jump_frame := by
  unfold character.to_jump_frame
  split
  all_goals first
    | exact k
    | exact change_frame_vitals k _

theorem ground_jump_vitals {c c' : character} (k : vitals_kept c c')
    (p : Option other_entity) : vitals_kept c (c'.ground_jump p) := by
  unfold character.ground_jump
  cases p with
  | none => exact set_velocity_vitals k _ _
  | some p => exact set_velocity_vitals (set_velocity_vitals k _ _) _ _

theorem jump_vitals (P : params) (lvl : level) {c c' : character}
    (k : vitals_kept c c') : vitals_kept c (c'.jump P lvl) := by
  unfold character.jump
  split
  · exact to_jump_frame_vitals (set_velocity_vitals (set_face_right_vitals P lvl k _) _ _)
  · split
    · exact to_jump_frame_vitals (ground_jump_vitals k _)
    · split
      · exact set_velocity_vitals k _ _
      · exact k

theorem unboarded_vitals {c c' : character} (k : vitals_kept c c') :
    vitals_kept c c'.unboarded :=
  vitals_of_eq k rfl rfl rfl rfl (by
    have := hits_log c' event.unboarded
    simp [character.log, character.hits, character.unboarded] at this ⊢)

theorem drop_through_vitals (P : params) (lvl : level) {c c' : character}
    (k : vitals_kept c c') : vitals_kept c (c'.drop_through P lvl) := by
  unfold character.drop_through
  repeat' split
  all_goals exact k

theorem jump_down_vitals (P : params) (lvl : level) {c c' : character}
    (k : vitals_kept c c') : vitals_kept c (c'.jump_down P lvl) := by
  unfold character.jump_down
  apply drop_through_vitals
  split
  · exact unboarded_vitals k
  · exact k

theorem crouch_vitals (P : params) (lvl : level) {c c' : character}
    (k : vitals_kept c c') : vitals_kept c (c'.crouch P lvl) := by
  unfold character.crouch
  split
  all_goals first
    | exact k
    | exact change_frame_vitals k _

theorem uncrouch_vitals {c c' : character} (k : vitals_kept c c') :
    vitals_kept c c'.uncrouch := by
  unfold character.uncrouch
  split
  · exact vitals_of_eq k rfl rfl rfl rfl rfl
  · exact k

theorem lookup_vitals (P : params) (lvl : level) {c c' : character}
    (k : vitals_kept c c') : vitals_kept c (c'.lookup P lvl) := by
  unfold character.lookup
  split
  all_goals first
    | exact k
    | exact change_frame_vitals k _

theorem unlookup_vitals {c c' : character} (k : vitals_kept c c') :
    vitals_kept c c'.unlookup := by
  unfold character.unlookup
  split
  · exact vitals_of_eq k rfl rfl rfl rfl rfl
  · exact k

theorem attack_vitals (P : params) (lvl : level) {c c' : character}
    (k : vitals_kept c c') (look_up : Bool) : vitals_kept c (c'.attack P lvl look_up) := by
  unfold character.attack
  repeat' split
  all_goals first
    | exact k
    | exact change_frame_vitals k _

theorem control_vitals (P : params) (lvl : level) (F : formulas) {c c' : character}
    (k : vitals_kept c c') : vitals_kept c (c'.control P lvl F) := by
  unfold character.control
  split_ifs
  · exact k
  · exact k
  · have k1 : vitals_kept c (character.eval_fly F c'.count_formula_tick) := by
      unfold character.eval_fly
      split
      · split
        · exact vitals_of_eq k rfl rfl rfl rfl rfl
        · exact vitals_of_eq k rfl rfl rfl rfl rfl
      · exact vitals_of_eq k rfl rfl rfl rfl rfl
    have k2 : vitals_kept c (character.walk_block P lvl F
        (character.eval_fly F c'.count_formula_tick)) := by
      unfold character.walk_block
      split
      · rename_i f _
        have k' : vitals_kept c (character.eval_walk f
            (character.eval_fly F c'.count_formula_tick)) := by
          unfold character.eval_walk
          split
          · exact vitals_of_eq k1 rfl rfl rfl rfl rfl
          · exact k1
        unfold character.issue_walk
        split_ifs
        · exact fly_vitals P lvl k' _ _
        · exact walk_vitals P lvl k' _
        · exact walk_vitals P lvl k' _
        · exact k'
      · exact k1
    have k3 : vitals_kept c (character.jump_block P lvl F (character.walk_block P lvl F
        (character.eval_fly F c'.count_formula_tick))) := by
      unfold character.jump_block
      split
      · rename_i f _
        have k' : vitals_kept c (character.eval_jump f (character.walk_block P lvl F
            (character.eval_fly F c'.count_formula_tick))) := by
          unfold character.eval_jump
          split
          · exact vitals_of_eq k2 rfl rfl rfl rfl rfl
          · exact k2
        unfold character.issue_jump
        split
        · exact jump_vitals P lvl k'
        · exact k'
      · exact k2
    unfold character.ypos_block character.xpos_block
    repeat' split
    all_goals exact k3

theorem pc_jump_vitals (P : params) (lvl : level) (K : controls) {c c' : character}
    (k : vitals_kept c c') : vitals_kept c (c'.pc_jump P lvl K) := by
  unfold character.pc_jump
  repeat' split
  · exact vitals_of_eq (jump_down_vitals P lvl k) rfl rfl rfl rfl rfl
  · exact vitals_of_eq (jump_vitals P lvl k) rfl rfl rfl rfl rfl
  · exact vitals_of_eq k rfl rfl rfl rfl rfl

theorem pc_look_vitals (P : params) (lvl : level) (K : controls) {c c' : character}
    (k : vitals_kept c c') : vitals_kept c (c'.pc_look P lvl K) := by
  have k1 : vitals_kept c
      (if some c'.current_frame_ = c'.type_.crouch_frame then c'.uncrouch else c') := by
    split
    · exact uncrouch_vitals k
    · exact k
  simp only [character.pc_look]
  split_ifs
  all_goals first
    | exact lookup_vitals P lvl (uncrouch_vitals k)
    | exact lookup_vitals P lvl k
    | exact unlookup_vitals (uncrouch_vitals k)
    | exact unlookup_vitals k
    | exact uncrouch_vitals k
    | exact k

theorem pc_left_vitals (P : params) (lvl : level) (K : controls) {c : character}
    {s : character × pc_state} (k : vitals_kept c s.1) :
    vitals_kept c (character.pc_left P lvl K s).1 := by
  simp only [character.pc_left]
  split_ifs
  · exact run_vitals (walk_vitals P lvl k _) false
  · exact walk_vitals P lvl k _
  · exact walk_vitals P lvl k _
  · exact k

theorem pc_right_vitals (P : params) (lvl : level) (K : controls) {c : character}
    {s : character × pc_state} (k : vitals_kept c s.1) :
    vitals_kept c (character.pc_right P lvl K s).1 := by
  simp only [character.pc_right]
  split_ifs
  · exact run_vitals (walk_vitals P lvl k _) true
  · exact walk_vitals P lvl k _
  · exact walk_vitals P lvl k _
  · exact k

theorem pc_control_vitals (P : params) (lvl : level) (K : controls) {c c' : character}
    (pc : pc_state) (k : vitals_kept c c') :
    vitals_kept c (c'.pc_control P lvl K pc).1 := by
  have k1 := pc_jump_vitals P lvl K k
  unfold character.pc_control character.pc_rest
  split_ifs
  all_goals first
    | exact k
    | exact crouch_vitals P lvl k1
    | exact attack_vitals P lvl (pc_look_vitals P lvl K k1) _
    | exact pc_right_vitals P lvl K (pc_left_vitals P lvl K (pc_look_vitals P lvl K k1))

theorem do_control_vitals (P : params) (lvl : level) (inp : tick_input) {c c' : character}
    (k : vitals_kept c c') : vitals_kept c (c'.do_control P lvl inp) := by
  unfold character.do_control
  split
  · exact vitals_of_eq (pc_control_vitals P lvl inp.keys _ k) rfl rfl rfl rfl rfl
  · exact control_vitals P lvl _ k

theorem vitals_ite {c a b : character} {p : Prop} [Decidable p] (ha : vitals_kept c a)
    (hb : vitals_kept c b) : vitals_kept c (if p then a else b) := by
  split
  · exact ha
  · exact hb

theorem natural_transition_vitals (P : params) (lvl : level) (rand : Nat) {c c' : character}
    (k : vitals_kept c c') : vitals_kept c (c'.natural_transition P lvl rand) := by
  have kr : vitals_kept c c'.reset_timer := vitals_of_eq k rfl rfl rfl rfl rfl
  have ks := change_to_stand_frame_vitals P lvl k
  have ksr := change_to_stand_frame_vitals P lvl kr
  unfold character.natural_transition
  exact vitals_ite (change_frame_vitals k _) (vitals_ite kr (vitals_ite kr (vitals_ite ks
    (vitals_ite (vitals_ite ksr kr) (vitals_ite kr (vitals_ite ks (vitals_ite ks
    (vitals_ite ks (vitals_ite (change_frame_vitals k _) (vitals_ite (change_frame_vitals k _)
    (vitals_ite ksr (vitals_ite ks
    (vitals_ite (vitals_of_eq k rfl rfl rfl rfl rfl) k)))))))))))))

theorem start_tick_vitals (P : params) (lvl : level) (rand : Nat) (c : character) :
    vitals_kept (c.out_of_bounds lvl) (c.start_tick P lvl rand) := by
  have k0 : vitals_kept (c.out_of_bounds lvl) (character.advance_timers (c.out_of_bounds lvl)) :=
    ⟨rfl, rfl, rfl, rfl, rfl⟩
  have k1 : vitals_kept (c.out_of_bounds lvl)
      (character.crouch_lock (character.advance_timers (c.out_of_bounds lvl))) := by
    unfold character.crouch_lock
    split
    · exact vitals_of_eq k0 rfl rfl rfl rfl rfl
    · exact k0
  have k2 : vitals_kept (c.out_of_bounds lvl) (character.expire P lvl rand
      (character.crouch_lock (character.advance_timers (c.out_of_bounds lvl)))) := by
    unfold character.expire
    split
    · exact natural_transition_vitals P lvl rand k1
    · exact k1
  unfold character.start_tick character.stop_walking
  split
  · exact change_to_stand_frame_vitals P lvl k2
  · exact k2

/-! ## Hit events -/

theorem hurt_frame_vitals {c c' : character} (k : vitals_kept c c') :
    vitals_kept c c'.hurt_frame := by
  unfold character.hurt_frame
  split_ifs
  · exact change_frame_vitals k _
  · exact change_frame_vitals k _
  · exact k

theorem notify_hitter_vitals (lvl : level) {c c' : character} (k : vitals_kept c c') :
    vitals_kept c (c'.notify_hitter lvl) := by
  unfold character.notify_hitter
  split
  · split
    · exact log_vitals k _ (by simp)
    · exact k
  · exact k

/-- The effect of a call of `get_hit` that passes its assertion. -/
theorem get_hit_fields (P : params) (lvl : level) (c d : character)
    (e : c.get_hit P lvl = .ok d) :
    d.type_ = c.type_ ∧ d.is_human_ = c.is_human_ ∧
    d.invincible_ = P.invincibility_duration ∧ d.hitpoints_ = c.hitpoints_ - 1 ∧
    d.hits = c.hits + 1 := by
  rw [get_hit_ok P lvl c (get_hit_inv P lvl c d e)] at e
  cases e
  have h1 := notify_hitter_vitals lvl (vitals_kept_refl (c.log .get_hit))
  have h2 := hurt_frame_vitals (vitals_kept_refl
    (character.lose_hitpoint P (character.notify_hitter lvl (c.log .get_hit))))
  obtain ⟨a1, a2, a3, a4, a5⟩ := h1
  obtain ⟨b1, b2, b3, b4, b5⟩ := h2
  refine ⟨b1.trans a1, b2.trans a2, b3, ?_, ?_⟩
  · rw [b4]
    show (character.notify_hitter lvl (c.log .get_hit)).hitpoints_ - 1 = c.hitpoints_ - 1
    rw [a4]
    rfl
  · rw [b5]
    show (character.notify_hitter lvl (c.log .get_hit)).hits = c.hits + 1
    rw [a5, hits_log]
    simp

theorem get_hit_no_assert (P : params) (lvl : level) (c : character) (h : c.invincible_ = 0) :
    c.get_hit P lvl ≠ .error .assertion := by
  rw [get_hit_ok P lvl c h]
  intro e
  cases e

theorem get_hit_error (P : params) (lvl : level) (c : character) (f : fault)
    (e : c.get_hit P lvl = .error f) : c.invincible_ ≠ 0 := by
  unfold character.get_hit at e
  split at e
  · assumption
  · cases e

theorem wall_slide_vitals {c c' : character} (k : vitals_kept c c') :
    vitals_kept c c'.wall_slide := by
  unfold character.wall_slide
  split
  · exact set_velocity_vitals (change_frame_vitals k _) _ _
  · exact k

theorem block_vitals {c c' : character} (k : vitals_kept c c') : vitals_kept c c'.block :=
  vitals_of_eq (wall_slide_vitals k) rfl rfl rfl rfl rfl

theorem one_hit_of_get_hit (P : params) (lvl : level) {c c1 d : character}
    (k : vitals_kept c c1) (e : c1.get_hit P lvl = .ok d) : one_hit P lvl c d :=
  ⟨c1, d, k, e, vitals_kept_refl d⟩

theorem one_hit_after (P : params) (lvl : level) {c c' d : character}
    (k : vitals_kept c c') (h : one_hit P lvl c' d) : one_hit P lvl c d := by
  obtain ⟨c1, c2, k1, e, k2⟩ := h
  exact ⟨c1, c2, vitals_kept_trans k k1, e, k2⟩

/-- An iteration of the horizontal sweep either leaves the vitals alone or is a
single hit that ends the sweep. -/
theorem hsweep_step_effect (P : params) (lvl : level) (fuel : Nat) (b : Bool) (c : character)
    (f : flow) (e : c.hsweep_step P lvl fuel b = .ok f) :
    vitals_kept c f.state ∨ one_hit P lvl c f.state := by
  unfold character.hsweep_step at e
  split at e
  · split at e
    · cases e
    · rename_i c1 hg
      cases e
      exact Or.inr (one_hit_of_get_hit P lvl (set_velocity_vitals (vitals_kept_refl c) _ _) hg)
  · split at e
    · cases e
      exact Or.inl (block_vitals (vitals_kept_refl c))
    · split at e
      · cases e
      · rename_i r hr
        cases e
        left
        obtain ⟨y, hy⟩ := climb_vert P lvl _ _ _ _ hr
        obtain ⟨y', hy'⟩ := after_climb_vert P lvl b r.1 r.2
        show vitals_kept c (character.after_climb P lvl b r.1 r.2)
        rw [hy', hy]
        exact ⟨rfl, rfl, rfl, rfl, rfl⟩

theorem hsweep_step_next_vitals (P : params) (lvl : level) (fuel : Nat) (b : Bool)
    (c c' : character) (e : c.hsweep_step P lvl fuel b = .ok (.next c')) :
    vitals_kept c c' := by
  obtain ⟨_, _, y, hy⟩ := hsweep_step_next P lvl fuel b c c' e
  rw [hy]
  exact ⟨rfl, rfl, rfl, rfl, rfl⟩

theorem hsweep_loop_effect (P : params) (lvl : level) (fuel : Nat) (b : Bool) :
    ∀ (n : Nat) (c d : character), character.hsweep_loop P lvl fuel b n c = .ok d →
      vitals_kept c d ∨ one_hit P lvl c d := by
  intro n
  induction n with
  | zero =>
    intro c d e
    simp only [character.hsweep_loop, Except.ok.injEq] at e
    subst e
    exact Or.inl (vitals_kept_refl c)
  | succ n ih =>
    intro c d e
    unfold character.hsweep_loop at e
    split at e
    · cases e
    · rename_i c1 hs
      cases e
      exact hsweep_step_effect P lvl fuel b c _ hs
    · rename_i c1 hs
      have k1 := hsweep_step_next_vitals P lvl fuel b c c1 hs
      rcases ih c1 d e with h | h
      · exact Or.inl (vitals_kept_trans k1 h)
      · exact Or.inr (one_hit_after P lvl k1 h)

theorem climb_no_assert (P : params) (lvl : level) :
    ∀ (fuel : Nat) (c : character) (adj : Int),
      character.climb P lvl fuel c adj ≠ .error .assertion := by
  intro fuel
  induction fuel with
  | zero => intro c adj e; simp [character.climb] at e
  | succ n ih =>
    intro c adj
    unfold character.climb
    split
    · exact ih _ _
    · intro e
      cases e

theorem hsweep_step_no_assert (P : params) (lvl : level) (fuel : Nat) (b : Bool)
    (c : character) : c.hsweep_step P lvl fuel b ≠ .error .assertion := by
  unfold character.hsweep_step
  split
  · rename_i h2
    rw [get_hit_ok P lvl _ (by exact hsweep_test_hit_inv lvl c h2)]
    intro e
    cases e
  · split
    · intro e
      cases e
    · split
      · rename_i f hf
        intro e
        cases e
        exact climb_no_assert P lvl _ _ _ hf
      · intro e
        cases e

theorem hsweep_loop_no_assert (P : params) (lvl : level) (fuel : Nat) (b : Bool) :
    ∀ (n : Nat) (c : character),
      character.hsweep_loop P lvl fuel b n c ≠ .error .assertion := by
  intro n
  induction n with
  | zero => intro c e; cases e
  | succ n ih =>
    intro c
    unfold character.hsweep_loop
    split
    · rename_i f hf
      intro e
      cases e
      exact hsweep_step_no_assert P lvl fuel b c hf
    · intro e
      cases e
    · exact ih _

theorem down_loop_no_assert (P : params) (lvl : level) :
    ∀ (fuel : Nat) (n : Int) (c : character),
      character.down_loop P lvl fuel n c ≠ .error .assertion := by
  intro fuel
  induction fuel with
  | zero => intro n c e; simp [character.down_loop] at e
  | succ m ih =>
    intro n c
    unfold character.down_loop
    split
    · split
      · intro e
        cases e
      · split
        · intro e
          cases e
        · exact ih _ _
    · intro e
      cases e

theorem scan_row_hit_inv (lvl : level) (inv ypos : Int) :
    ∀ (n : Nat) (x : Int) (h : Bool), (scan_row lvl inv ypos n x h).2 = true →
      h = true ∨ inv = 0 := by
  intro n
  induction n with
  | zero => intro x h e; exact Or.inl e
  | succ n ih =>
    intro x h e
    unfold scan_row at e
    split at e
    · split at e
      · exact Or.inl e
      · rename_i hd
        right
        unfold seen_damage at hd
        by_contra hne
        exact hd (by simp [hne])
    · exact ih _ _ e

theorem upsweep_test_hit_inv (lvl : level) (c : character)
    (h : (c.upsweep_test lvl).2 = true) : c.invincible_ = 0 := by
  unfold character.upsweep_test at h
  split at h
  · rename_i hs
    unfold character.upper_scan at hs
    rcases scan_row_hit_inv lvl _ _ _ _ _ hs with h' | h'
    · cases h'
    · exact h'
  · exact entity_test_hit_inv _ _ _ h

theorem struck_by_inv (lvl : level) (c : character) (p : other_entity)
    (h : c.struck_by lvl = some p) : c.is_human_ = false ∧ c.invincible_ = 0 := by
  unfold character.struck_by at h
  split at h
  · rename_i hc
    simpa using hc
  · cases h

theorem upsweep_step_no_assert (P : params) (lvl : level) (c : character) :
    c.upsweep_step P lvl ≠ .error .assertion := by
  unfold character.upsweep_step
  split
  · rename_i h2
    rw [get_hit_ok P lvl _ (upsweep_test_hit_inv lvl c h2)]
    intro e
    cases e
  · split
    · rename_i p hp
      have hi := (struck_by_inv lvl c p hp).2
      have k := set_face_right_vitals P lvl (vitals_kept_refl c) (!p.face_right)
      rw [get_hit_ok P lvl _ (k.2.2.1.trans hi)]
      intro e
      cases e
    · split <;> intro e <;> cases e

theorem upsweep_loop_no_assert (P : params) (lvl : level) :
    ∀ (n : Nat) (c : character), character.upsweep_loop P lvl n c ≠ .error .assertion := by
  intro n
  induction n with
  | zero => intro c e; cases e
  | succ n ih =>
    intro c
    unfold character.upsweep_loop
    split
    · rename_i f hf
      intro e
      cases e
      exact upsweep_step_no_assert P lvl c hf
    · intro e
      cases e
    · exact ih _

theorem touch_harmful_no_assert (P : params) (lvl : level) (c : character) :
    c.touch_harmful P lvl ≠ .error .assertion := by
  unfold character.touch_harmful
  split
  · rename_i hc
    simp only [Bool.and_eq_true, decide_eq_true_eq] at hc
    split
    · split
      · exact get_hit_no_assert P lvl c hc.2
      · intro e
        cases e
    · intro e
      cases e
  · intro e
    cases e

theorem player_strike_no_assert (P : params) (lvl : level) (c : character) :
    c.player_strike P lvl ≠ .error .assertion := by
  unfold character.player_strike
  split
  · rename_i p hp
    have hi := (struck_by_inv lvl c p hp).2
    have k := set_face_right_vitals P lvl (vitals_kept_refl c) (!p.face_right)
    exact get_hit_no_assert P lvl _ (k.2.2.1.trans hi)
  · intro e
    cases e

theorem overlap_hits_no_assert (P : params) (lvl : level) (c : character) :
    c.overlap_hits P lvl ≠ .error .assertion := by
  unfold character.overlap_hits
  split
  · rename_i f hf
    intro e
    cases e
    exact touch_harmful_no_assert P lvl c hf
  · exact player_strike_no_assert P lvl _

theorem settle_no_assert (P : params) (lvl : level) (c : character) :
    c.settle P lvl ≠ .error .assertion := by
  unfold character.settle
  split
  · rename_i f hf
    intro e
    cases e
    unfold character.ground_outcome at hf
    split at hf
    · rename_i hc
      exact get_hit_no_assert P lvl _ hc.2 hf
    · split at hf <;> cases hf
  · intro e
    cases e

theorem after_control_no_assert (P : params) (lvl : level) (fuel : Nat) (sx sy : Int) (b : Bool)
    (c : character) : c.after_control P lvl fuel sx sy b ≠ .error .assertion := by
  unfold character.after_control
  split
  · rename_i f hf
    intro e
    cases e
    exact hsweep_loop_no_assert P lvl fuel b _ c hf
  · split
    · rename_i f hf
      intro e
      cases e
      exact down_loop_no_assert P lvl _ _ _ hf
    · intro e
      cases e
    · split
      · rename_i f hf
        intro e
        cases e
        exact upsweep_loop_no_assert P lvl _ _ hf
      · split
        · rename_i f hf
          intro e
          cases e
          exact overlap_hits_no_assert P lvl _ hf
        · split
          · rename_i f hf
            intro e
            cases e
            exact settle_no_assert P lvl _ hf
          · intro e
            cases e

/-- The state handed to the sweeps has the hits of the state the tick started
with, and its invincibility counter is that one counted down once. -/
theorem before_sweeps (P : params) (lvl : level) (inp : tick_input) (c : character) :
    (character.pre_sweep P lvl (character.do_control P lvl inp
      (c.start_tick P lvl inp.rand))).1.hits = c.hits ∧
    (character.pre_sweep P lvl (character.do_control P lvl inp
      (c.start_tick P lvl inp.rand))).1.invincible_ =
      (if c.invincible_ ≠ 0 then c.invincible_ - 1 else c.invincible_) ∧
    (character.pre_sweep P lvl (character.do_control P lvl inp
      (c.start_tick P lvl inp.rand))).1.is_human_ = c.is_human_ := by
  have k := do_control_vitals P lvl inp (start_tick_vitals P lvl inp.rand c)
  have h0 : (c.out_of_bounds lvl).hits = c.hits ∧
      (c.out_of_bounds lvl).invincible_ = c.invincible_ ∧
      (c.out_of_bounds lvl).is_human_ = c.is_human_ := by
    unfold character.out_of_bounds
    split <;> exact ⟨rfl, rfl, rfl⟩
  refine ⟨?_, ?_, ?_⟩
  · show (character.do_control P lvl inp (c.start_tick P lvl inp.rand)).hits = c.hits
    rw [k.2.2.2.2, h0.1]
  · show (if (character.do_control P lvl inp (c.start_tick P lvl inp.rand)).invincible_ ≠ 0
        then (character.do_control P lvl inp (c.start_tick P lvl inp.rand)).invincible_ - 1
        else (character.do_control P lvl inp (c.start_tick P lvl inp.rand)).invincible_) = _
    rw [k.2.2.1, h0.2.1]
  · show (character.do_control P lvl inp (c.start_tick P lvl inp.rand)).is_human_ = c.is_human_
    rw [k.2.1, h0.2.2]

/-- C9: inside `process` every call of `get_hit` is made with `invincible == 0`:
whatever the actor, the level, the inputs and the fuel, a tick never stops on the
assertion of `get_hit` (a call made while invincible is the only way a run of the
model ends in `fault.assertion`). -/
theorem process_meets_get_hit_precondition (P : params) (lvl : level) (inp : tick_input)
    (fuel : Nat) (c : character) :
    c.process P lvl inp fuel ≠ .error .assertion ∧
    (∀ d : character, d.get_hit P lvl = .error .assertion ↔ d.invincible_ ≠ 0) := by
  constructor
  · unfold character.process
    exact after_control_no_assert P lvl fuel _ _ _ _
  · intro d
    constructor
    · intro e
      exact get_hit_error P lvl d _ e
    · intro h
      unfold character.get_hit
      rw [if_pos h]

/-! ## Invincibility and the horizontal sweep -/

theorem hsweep_loop_invincible (P : params) (lvl : level) (fuel : Nat) (b : Bool) (n : Nat)
    (c d : character) (hi : c.invincible_ ≠ 0)
    (e : character.hsweep_loop P lvl fuel b n c = .ok d) : vitals_kept c d := by
  rcases hsweep_loop_effect P lvl fuel b n c d e with k | ⟨c1, c2, k1, eg, _⟩
  · exact k
  · have := get_hit_inv P lvl c1 c2 eg
    rw [k1.2.2.1] at this
    exact absurd this hi

/-- C7, as stated, fails: the walker starts the tick with `invincible = 1 > 0` and
its horizontal sweep reaches a solid damaging cell, yet the tick records a hit:
one call of `get_hit`, a hitpoint lost, the knock-back velocity instead of a
blocked motion, and no collided flag. -/
theorem last_invincible_tick_is_hit :
    fading_walker.invincible_ > 0 ∧
    spike_wall_level.solid fading_walker.leading_x
      (fading_walker.y_ + fading_walker.current_frame.collide_y) = true ∧
    spike_wall_level.solid_damage fading_walker.leading_x
      (fading_walker.y_ + fading_walker.current_frame.collide_y) = 1 ∧
    (fading_walker.process demo_params spike_wall_level idle_input 5).toOption.map
      (fun r => (r.1.hits, r.1.hitpoints_, r.1.velocity_x_, r.1.collided_since_last_frame_)) =
      some (1, fading_walker.hitpoints_ - 1, -200, false) := by
  refine ⟨by decide, by decide, by decide, by rfl⟩

/-- C7, amended.  The tick counts the invincibility counter down once before the
sweeps, so an actor that starts the tick with `invincible > 1` is still invincible
in its horizontal sweep.  For an invincible actor a solid cell found first in the
leading-edge column blocks the motion whatever damage the level reports for it
(`velocity_x = 0`, collided flag set, the iteration ends the sweep), and the
whole sweep makes no call of `get_hit` and leaves the hitpoints alone. -/
theorem invincible_sweep_blocks (P : params) (lvl : level) (inp : tick_input) (fuel : Nat)
    (b : Bool) (c : character) (h : 1 < c.invincible_) :
    (character.pre_sweep P lvl (character.do_control P lvl inp
      (c.start_tick P lvl inp.rand))).1.invincible_ = c.invincible_ - 1 ∧
    (∀ s : character, s.invincible_ ≠ 0 →
      (∀ i : Nat,
        column_first_solid lvl s.leading_x (s.y_ + s.current_frame.collide_y)
          s.current_frame.collide_h.toNat i →
        s.hsweep_step P lvl fuel b = .ok (.done s.block) ∧
        s.block.velocity_x_ = 0 ∧ s.block.collided_since_last_frame_ = true ∧
        s.block.hits = s.hits ∧ s.block.hitpoints_ = s.hitpoints_) ∧
      (∀ d, s.hsweep P lvl fuel b = .ok d → d.hits = s.hits ∧ d.hitpoints_ = s.hitpoints_)) := by
  refine ⟨?_, ?_⟩
  · rw [(before_sweeps P lvl inp c).2.1, if_pos (by omega)]
  · intro s hs
    refine ⟨?_, ?_⟩
    · intro i hf
      have ht := hsweep_test_blocked lvl s i hf (by unfold seen_damage; rw [if_pos hs])
        (fun e _ hh => hs hh.2.2)
      have kb := block_vitals (vitals_kept_refl s)
      refine ⟨?_, rfl, rfl, kb.2.2.2.2, kb.2.2.2.1⟩
      unfold character.hsweep_step
      simp [ht]
    · intro d e
      have k := hsweep_loop_invincible P lvl fuel b _ s d hs e
      exact ⟨k.2.2.2.2, k.2.2.2.1⟩

theorem invincible_sweep_blocks_witness :
    (character.pre_sweep demo_params spike_wall_level (character.do_control demo_params
      spike_wall_level idle_input (shielded_walker.start_tick demo_params spike_wall_level
        idle_input.rand))).1.invincible_ = shielded_walker.invincible_ - 1 ∧
    fading_walker.block.velocity_x_ = 0 ∧
    fading_walker.block.hits = fading_walker.hits ∧
    fading_walker.block.hitpoints_ = fading_walker.hitpoints_ :=
  ⟨(invincible_sweep_blocks demo_params spike_wall_level idle_input 5 true shielded_walker
      (by decide)).1,
   (((invincible_sweep_blocks demo_params spike_wall_level idle_input 5 true shielded_walker
      (by decide)).2 fading_walker (by decide)).1 0 ⟨by decide, by decide, by decide⟩).2.1,
   (((invincible_sweep_blocks demo_params spike_wall_level idle_input 5 true shielded_walker
      (by decide)).2 fading_walker (by decide)).1 0 ⟨by decide, by decide, by decide⟩).2.2.2.1,
   (((invincible_sweep_blocks demo_params spike_wall_level idle_input 5 true shielded_walker
      (by decide)).2 fading_walker (by decide)).2 fading_walker.block (by rfl)).2⟩

/-! ## Landing -/

theorem ptr_of_isSome (t : character_type) (tag : frame_tag) (h : (t.ptr tag).isSome = true) :
    t.ptr tag = some tag := by
  unfold character_type.ptr at h ⊢
  split
  · rfl
  · rename_i hn
    simp [hn] at h

theorem change_frame_current (c : character) (nf : frame_tag)
    (h : some c.current_frame_ ≠ c.type_.die_frame) :
    (c.change_frame (some nf)).current_frame_ = nf :=
  (change_frame_applied c nf h).2.1

/-- The frame `change_to_stand_frame` selects for an actor not in the die frame. -/
theorem change_to_stand_frame_current (P : params) (lvl : level) (c : character)
    (h : some c.current_frame_ ≠ c.type_.die_frame) :
    (c.change_to_stand_frame P lvl).current_frame_ =
      if (c.type_.stand_up_slope_frame.isSome && c.type_.stand_down_slope_frame.isSome) = true then
        if c.slope_standing_on P lvl P.default_slope_range < 0 then .stand_down_slope
        else if c.slope_standing_on P lvl P.default_slope_range > 0 then .stand_up_slope
        else .stand
      else .stand := by
  simp only [character.change_to_stand_frame]
  by_cases hb : (c.type_.stand_up_slope_frame.isSome &&
      c.type_.stand_down_slope_frame.isSome) = true
  · simp only [hb, if_true]
    simp only [Bool.and_eq_true] at hb
    by_cases h1 : c.slope_standing_on P lvl P.default_slope_range < 0
    · simp only [h1, if_true]
      have := ptr_of_isSome c.type_ .stand_down_slope hb.2
      unfold character_type.stand_down_slope_frame
      rw [this]
      exact change_frame_current c _ h
    · simp only [h1, if_false]
      by_cases h2 : c.slope_standing_on P lvl P.default_slope_range > 0
      · simp only [h2, if_true]
        have := ptr_of_isSome c.type_ .stand_up_slope hb.1
        unfold character_type.stand_up_slope_frame
        rw [this]
        exact change_frame_current c _ h
      · simp only [h2, if_false]
        exact change_frame_current c _ h
  · simp only [hb, if_false]
    exact change_frame_current c _ h

theorem slope_of_greeted (P : params) (lvl : level) (c : character) (o : Option other_entity)
    (r : Int) :
    character.slope_standing_on P lvl (character.greet_platform o (c.apply_friction P lvl)) r =
      c.slope_standing_on P lvl r := by
  cases o <;> rfl

theorem end_tick_current (P : params) (lvl : level) (sx sy : Int) (c : character) :
    (c.end_tick P lvl sx sy).current_frame_ = c.current_frame_ := by
  unfold character.end_tick character.set_driver_position
  split <;> rfl

/-- C10, as stated, fails: the actor is ground-supported with `velocity_y >= 0` in
the fall frame, but the ground is damaging and the actor is not invincible: the
tick ends in the gethit frame, which is not a stand-family frame. -/
theorem landing_on_damaging_ground :
    landed_actor.is_standing demo_params spike_floor_level = true ∧
    landed_actor.velocity_y_ ≥ 0 ∧
    some landed_actor.current_frame_ = landed_actor.type_.fall_frame ∧
    (landed_actor.settle demo_params spike_floor_level).toOption.map
      (fun d => d.current_frame_) = some .gethit ∧
    (landed_actor.process demo_params spike_floor_level idle_input 5).toOption.map
      (fun r => (r.1.current_frame_, r.1.current_frame_.stand_family)) =
      some (.gethit, false) := by
  refine ⟨by decide, by decide, by decide, by rfl, by rfl⟩

/-- C10, amended.  For an actor that, when the sweeps and the overlap checks are
done, is ground-supported with `velocity_y >= 0` on ground that reports no damage
(or is invincible) and whose current frame is the jump, fall, gethit, slide or
jump-attack frame, the tick ends in a stand-family frame: with both slope frames
present, the down-slope variant when the measured slope is negative and the
up-slope variant when it is positive; the plain stand frame otherwise. -/
theorem landing_selects_stand (P : params) (lvl : level) (c : character)
    (hs : c.is_standing P lvl = true) (hv : c.velocity_y_ ≥ 0)
    (hf : some c.current_frame_ = c.type_.jump_frame ∨
      some c.current_frame_ = c.type_.fall_frame ∨
      some c.current_frame_ = c.type_.gethit_frame ∨
      some c.current_frame_ = c.type_.slide_frame ∨
      some c.current_frame_ = c.type_.jump_attack_frame)
    (hd : (c.is_standing_out P lvl).damage.getD 0 = 0 ∨ c.invincible_ ≠ 0) :
    ∃ d, c.settle P lvl = .ok d ∧ d.current_frame_.stand_family = true ∧
      (∀ sx sy, (d.end_tick P lvl sx sy).current_frame_ = d.current_frame_) ∧
      d.current_frame_ =
        if (c.type_.stand_up_slope_frame.isSome &&
            c.type_.stand_down_slope_frame.isSome) = true then
          if c.slope_standing_on P lvl P.default_slope_range < 0 then .stand_down_slope
          else if c.slope_standing_on P lvl P.default_slope_range > 0 then .stand_up_slope
          else .stand
        else .stand := by
  have hnd : some c.current_frame_ ≠ c.type_.die_frame := by
    intro hdie
    have hc := cur_of_die hdie
    rw [hc] at hf
    simp [character_type.jump_frame, character_type.fall_frame, character_type.gethit_frame,
      character_type.slide_frame, character_type.jump_attack_frame, some_eq_ptr] at hf
  have h1 : ¬ ((c.is_standing_out P lvl).damage.getD 0 ≠ 0 ∧
      (c.apply_friction P lvl).invincible_ = 0) := by
    rintro ⟨a, b⟩
    rcases hd with hd | hd
    · exact a hd
    · exact hd b
  have h2 : (c.is_standing_out P lvl).ok = true ∧ (c.apply_friction P lvl).velocity_y_ ≥ 0 :=
    ⟨hs, hv⟩
  have hl : character.land P lvl (character.greet_platform (c.is_standing_out P lvl).standing_on
      (c.apply_friction P lvl)) =
      character.change_to_stand_frame P lvl
        (character.greet_platform (c.is_standing_out P lvl).standing_on
          (c.apply_friction P lvl)) := by
    unfold character.land
    rw [if_pos]
    cases (c.is_standing_out P lvl).standing_on <;> exact hf
  have hcur : (character.change_to_stand_frame P lvl
      (character.greet_platform (c.is_standing_out P lvl).standing_on
        (c.apply_friction P lvl))).current_frame_ =
      if (c.type_.stand_up_slope_frame.isSome &&
          c.type_.stand_down_slope_frame.isSome) = true then
        if c.slope_standing_on P lvl P.default_slope_range < 0 then .stand_down_slope
        else if c.slope_standing_on P lvl P.default_slope_range > 0 then .stand_up_slope
        else .stand
      else .stand := by
    rw [change_to_stand_frame_current P lvl _
      (by cases (c.is_standing_out P lvl).standing_on <;> exact hnd), slope_of_greeted]
    cases (c.is_standing_out P lvl).standing_on <;> rfl
  refine ⟨character.gravity (character.change_to_stand_frame P lvl
      (character.greet_platform (c.is_standing_out P lvl).standing_on
        (c.apply_friction P lvl))), ?_, ?_, ?_, ?_⟩
  · unfold character.settle character.ground_outcome
    rw [if_neg h1, if_pos h2, hl]
  · show (character.change_to_stand_frame P lvl _).current_frame_.stand_family = true
    rw [hcur]
    split_ifs <;> rfl
  · intro sx sy
    exact end_tick_current P lvl sx sy _
  · exact hcur

theorem landing_selects_stand_witness :
    (∃ d, landed_actor.settle demo_params flat_level = .ok d ∧ d.current_frame_ = .stand) ∧
    (∃ d, landed_actor.settle demo_params ramp_level = .ok d ∧
      d.current_frame_ = .stand_up_slope) :=
  ⟨(landing_selects_stand demo_params flat_level landed_actor (by decide) (by decide)
      (Or.inr (Or.inl (by decide))) (Or.inl (by decide))).elim
      (fun d h => ⟨d, h.1, h.2.2.2.trans (by decide)⟩),
   (landing_selects_stand demo_params ramp_level landed_actor (by decide) (by decide)
      (Or.inr (Or.inl (by decide))) (Or.inl (by decide))).elim
      (fun d h => ⟨d, h.1, h.2.2.2.trans (by decide)⟩)⟩

/-! ## A tick returns -/

theorem tdiv_100_nonpos (v : Int) (h : v < 0) : v.tdiv 100 ≤ 0 := by
  have h1 : 0 ≤ (-v).tdiv 100 := Int.tdiv_nonneg (by omega) (by decide)
  rw [Int.neg_tdiv] at h1
  omega

theorem lt_tdiv_100 (v n : Int) (hn : 0 ≤ n) : n < v.tdiv 100 ↔ 100 * (n + 1) ≤ v := by
  by_cases hv : 0 ≤ v
  · rw [Int.tdiv_eq_ediv hv (by decide)]
    omega
  · have := tdiv_100_nonpos v (by omega)
    omega

theorem bounce_bound (P : params) (lvl : level) (c : character) (hv : 0 < c.velocity_y_) :
    (c.bounce P lvl).fall_bound ≤ c.fall_bound := by
  unfold character.bounce
  split
  · rename_i o _
    show (character.leave_gethit (c.spring_up o)).fall_bound ≤ c.fall_bound
    have hs : (c.spring_up o).type_ = c.type_ ∧
        (c.spring_up o).current_frame_ = c.current_frame_ ∧
        (c.spring_up o).velocity_y_ ≤ c.velocity_y_ := by
      unfold character.spring_up
      split
      · refine ⟨rfl, rfl, ?_⟩
        show (if o.velocity_y < 0 then -o.springiness * 13 + o.velocity_y
          else -o.springiness * 13) ≤ c.velocity_y_
        split <;> omega
      · exact ⟨rfl, rfl, le_refl _⟩
    obtain ⟨s1, s2, s3⟩ := hs
    unfold character.leave_gethit
    by_cases hg : some (c.spring_up o).current_frame_ = (c.spring_up o).type_.gethit_frame
    · rw [if_pos hg]
      have hg' : some c.current_frame_ = c.type_.gethit_frame := by rw [← s1, ← s2]; exact hg
      have hcur : (c.spring_up o).current_frame_ = .gethit := ((some_eq_ptr _ _ _).1 hg).1
      have hnd : some (c.spring_up o).current_frame_ ≠ (c.spring_up o).type_.die_frame := by
        rw [hcur]
        intro hh
        have := ((some_eq_ptr _ _ _).1 hh).1
        cases this
      cases hj : (c.spring_up o).type_.jump_frame with
      | none =>
        show (c.spring_up o).fall_bound ≤ c.fall_bound
        unfold character.fall_bound
        rw [s1, s2]
        omega
      | some tag =>
        have htag : tag = .jump := by
          have := (ptr_eq_some _ _ _).1 hj
          exact this.1
        subst htag
        obtain ⟨a1, a2, a3⟩ := change_frame_applied (c.spring_up o) .jump hnd
        unfold character.fall_bound
        rw [a1, a2, a3, s1]
        have hne : ¬ some frame_tag.jump = c.type_.gethit_frame := by
          intro hh
          have := ((some_eq_ptr _ _ _).1 hh).1
          cases this
        rw [if_neg hne, if_pos hg']
        split <;> omega
    · rw [if_neg hg]
      unfold character.fall_bound
      rw [s1, s2]
      omega
  · exact le_refl _

theorem fall_bound_set_pos (c : character) (x y : Int) :
    (c.set_pos x y).fall_bound = c.fall_bound := rfl

theorem down_loop_ok (P : params) (lvl : level) :
    ∀ (fuel : Nat) (n : Int) (c : character), 0 ≤ n →
      (c.fall_bound / 100 - n).toNat < fuel →
      ∃ r, character.down_loop P lvl fuel n c = .ok r := by
  intro fuel
  induction fuel with
  | zero => intro n c _ hb; omega
  | succ f ih =>
    intro n c hn hb
    unfold character.down_loop
    by_cases hlt : n < c.velocity_y_.tdiv 100
    · rw [if_pos hlt]
      split
      · exact ⟨_, rfl⟩
      · split
        · exact ⟨_, rfl⟩
        · have hv := (lt_tdiv_100 _ _ hn).1 hlt
          have hbb := bounce_bound P lvl c (by omega)
          have hcb : c.velocity_y_ ≤ c.fall_bound := by unfold character.fall_bound; omega
          apply ih (n + 1) _ (by omega)
          rw [fall_bound_set_pos]
          omega
    · rw [if_neg hlt]
      exact ⟨_, rfl⟩

theorem climb_mono (P : params) (lvl : level) (k : Nat) :
    ∀ (fuel : Nat) (c : character) (adj : Int) (r : character × Int),
      character.climb P lvl fuel c adj = .ok r →
      character.climb P lvl (fuel + k) c adj = .ok r := by
  intro fuel
  induction fuel with
  | zero => intro c adj r e; simp [character.climb] at e
  | succ n ih =>
    intro c adj r e
    rw [Nat.add_right_comm]
    unfold character.climb at e ⊢
    split
    · rename_i hs
      rw [if_pos hs] at e
      exact ih _ _ _ e
    · rename_i hs
      rw [if_neg hs] at e
      exact e

theorem hsweep_step_mono (P : params) (lvl : level) (fuel k : Nat) (b : Bool) (c : character)
    (f : flow) (e : c.hsweep_step P lvl fuel b = .ok f) :
    c.hsweep_step P lvl (fuel + k) b = .ok f := by
  unfold character.hsweep_step at e ⊢
  split
  · rename_i h
    rw [if_pos h] at e
    exact e
  · rename_i h
    rw [if_neg h] at e
    split
    · rename_i h1
      rw [if_pos h1] at e
      exact e
    · rename_i h1
      rw [if_neg h1] at e
      split at e
      · cases e
      · rename_i r hr
        rw [climb_mono P lvl k _ _ _ _ hr]
        exact e

theorem hsweep_loop_mono (P : params) (lvl : level) (fuel k : Nat) (b : Bool) :
    ∀ (n : Nat) (c d : character), character.hsweep_loop P lvl fuel b n c = .ok d →
      character.hsweep_loop P lvl (fuel + k) b n c = .ok d := by
  intro n
  induction n with
  | zero => intro c d e; exact e
  | succ n ih =>
    intro c d e
    unfold character.hsweep_loop at e ⊢
    split at e
    · cases e
    · rename_i c1 hs
      rw [hsweep_step_mono P lvl fuel k b c _ hs]
      exact e
    · rename_i c1 hs
      rw [hsweep_step_mono P lvl fuel k b c _ hs]
      exact ih _ _ e

theorem upsweep_step_ok (P : params) (lvl : level) (c : character) :
    ∃ f, c.upsweep_step P lvl = .ok f := by
  unfold character.upsweep_step
  split
  · rename_i h2
    rw [get_hit_ok P lvl _ (upsweep_test_hit_inv lvl c h2)]
    exact ⟨_, rfl⟩
  · split
    · rename_i p hp
      have hi := (struck_by_inv lvl c p hp).2
      have k := set_face_right_vitals P lvl (vitals_kept_refl c) (!p.face_right)
      rw [get_hit_ok P lvl _ (k.2.2.1.trans hi)]
      exact ⟨_, rfl⟩
    · split <;> exact ⟨_, rfl⟩

theorem upsweep_loop_ok (P : params) (lvl : level) :
    ∀ (n : Nat) (c : character), ∃ d, character.upsweep_loop P lvl n c = .ok d := by
  intro n
  induction n with
  | zero => intro c; exact ⟨c, rfl⟩
  | succ n ih =>
    intro c
    unfold character.upsweep_loop
    obtain ⟨f, hf⟩ := upsweep_step_ok P lvl c
    rw [hf]
    cases f with
    | next c1 => exact ih c1
    | done c1 => exact ⟨c1, rfl⟩

theorem player_strike_ok (P : params) (lvl : level) (c : character) :
    ∃ d, c.player_strike P lvl = .ok d := by
  unfold character.player_strike
  split
  · rename_i p hp
    have hi := (struck_by_inv lvl c p hp).2
    have k := set_face_right_vitals P lvl (vitals_kept_refl c) (!p.face_right)
    rw [get_hit_ok P lvl _ (k.2.2.1.trans hi)]
    exact ⟨_, rfl⟩
  · exact ⟨_, rfl⟩

theorem overlap_hits_ok (P : params) (lvl : level) (c : character) :
    ∃ d, c.overlap_hits P lvl = .ok d := by
  have h1 : ∃ c1, c.touch_harmful P lvl = .ok c1 := by
    unfold character.touch_harmful
    split
    · rename_i hc
      simp only [Bool.and_eq_true, decide_eq_true_eq] at hc
      split
      · split
        · rw [get_hit_ok P lvl _ hc.2]
          exact ⟨_, rfl⟩
        · exact ⟨_, rfl⟩
      · exact ⟨_, rfl⟩
    · exact ⟨_, rfl⟩
  obtain ⟨c1, e1⟩ := h1
  unfold character.overlap_hits
  rw [e1]
  exact player_strike_ok P lvl c1

theorem settle_ok (P : params) (lvl : level) (c : character) :
    ∃ d, c.settle P lvl = .ok d := by
  have h : ∃ c3, character.ground_outcome P lvl (c.is_standing_out P lvl)
      (c.apply_friction P lvl) = .ok c3 := by
    unfold character.ground_outcome
    split
    · rename_i hc
      rw [get_hit_ok P lvl _ hc.2]
      exact ⟨_, rfl⟩
    · split <;> exact ⟨_, rfl⟩
  obtain ⟨c3, e3⟩ := h
  unfold character.settle
  rw [e3]
  exact ⟨_, rfl⟩

/-- The sweeps and what follows them return, given enough fuel, on every level on
which the climb loop of the horizontal sweep settles. -/
theorem after_control_returns (P : params) (lvl : level) (F : Nat)
    (hs : climb_settles P lvl F) (sx sy : Int) (b : Bool) (c : character) :
    ∃ fuel r, c.after_control P lvl fuel sx sy b = .ok r := by
  obtain ⟨c4, h4⟩ := hsweep_loop_ok P lvl F b hs (c.velocity_x_.tdiv 100).natAbs c
  refine ⟨F + ((c4.fall_bound / 100).toNat + 1), ?_⟩
  have h4' := hsweep_loop_mono P lvl F ((c4.fall_bound / 100).toNat + 1) b _ c c4 h4
  obtain ⟨r5, h5⟩ := down_loop_ok P lvl (F + ((c4.fall_bound / 100).toNat + 1)) 0 c4
    (le_refl _) (by omega)
  obtain ⟨c6, h6⟩ := upsweep_loop_ok P lvl ((-r5.1.velocity_y_).tdiv 100).toNat r5.1
  obtain ⟨c8, h8⟩ := overlap_hits_ok P lvl (c6.push_back P lvl b)
  obtain ⟨c9, h9⟩ := settle_ok P lvl c8
  unfold character.after_control
  unfold character.hsweep character.down_sweep
  rw [h4']
  simp only
  rw [h5]
  obtain ⟨c5, flag⟩ := r5
  cases flag with
  | true => exact ⟨_, rfl⟩
  | false =>
    simp only
    unfold character.upsweep
    rw [h6]
    simp only
    rw [h8]
    simp only
    rw [h9]
    exact ⟨_, rfl⟩

/-- A tick returns, given enough fuel, on every level on which the climb loop of
the horizontal sweep settles. -/
theorem process_returns (P : params) (lvl : level) (F : Nat) (hs : climb_settles P lvl F)
    (inp : tick_input) (c : character) :
    ∃ fuel r, c.process P lvl inp fuel = .ok r := by
  unfold character.process
  exact after_control_returns P lvl F hs _ _ _ _

/-! ## The die state is irrevocable -/

/-- C4: the die state is irrevocable.  For an actor whose current frame is the die
frame, `change_frame` with any argument is the identity; each intent (walk, run,
fly, jump, crouch, lookup, attack) and `get_hit` keep the archetype, the current
frame, `time_in_frame` and `frame_id`; and a tick of `process` in which no
vehicle is boarded keeps the frame and `frame_id` and advances `time_in_frame`
by its one increment, without resetting it.  Such a tick returns, given enough
fuel, whenever the climb loop of the horizontal sweep settles on the level. -/
theorem die_state_irrevocable (P : params) (lvl : level) (c : character)
    (h : some c.current_frame_ = c.type_.die_frame) :
    (∀ nf, c.change_frame nf = c) ∧
    (∀ b, frame_kept c (c.walk P lvl b)) ∧
    (∀ b, frame_kept c (c.run b)) ∧
    (∀ b lift, frame_kept c (c.fly P lvl b lift)) ∧
    frame_kept c (c.jump P lvl) ∧
    frame_kept c (c.crouch P lvl) ∧
    frame_kept c (c.lookup P lvl) ∧
    (∀ look_up, frame_kept c (c.attack P lvl look_up)) ∧
    (∀ d, c.get_hit P lvl = .ok d → frame_kept c d) ∧
    (∀ inp fuel d, c.process P lvl inp fuel = .ok (d, false) →
      d.type_ = c.type_ ∧ d.current_frame_ = c.current_frame_ ∧
      d.time_in_frame_ = c.time_in_frame_ + 1 ∧ d.frame_id_ = c.frame_id_) ∧
    (∀ inp F, climb_settles P lvl F → ∃ fuel r, c.process P lvl inp fuel = .ok r) := by
  have k := frame_kept_refl c
  refine ⟨change_frame_of_die h, walk_kept P lvl h k, run_kept h k, fly_kept P lvl h k,
    jump_kept P lvl h k, crouch_kept P lvl h k, lookup_kept P lvl h k,
    fun u => attack_kept P lvl h k u, fun d e => get_hit_kept P lvl h k e, ?_,
    fun inp F hs => process_returns P lvl F hs inp c⟩
  intro inp fuel d e
  unfold character.process at e
  obtain ⟨s1, s2, s3, s4⟩ := start_tick_die_fields P lvl inp.rand h
  have hs : some (c.start_tick P lvl inp.rand).current_frame_ =
      (c.start_tick P lvl inp.rand).type_.die_frame := by
    rw [s1, s2]
    exact h
  have k1 := pre_sweep_kept P lvl
    (do_control_kept P lvl inp hs (frame_kept_refl (c.start_tick P lvl inp.rand)))
  have k2 := after_control_kept P lvl fuel _ _ _ hs k1 e
  exact ⟨k2.1.trans s1, k2.2.1.trans s2, k2.2.2.1.trans s3, k2.2.2.2.trans s4⟩

theorem flat_level_settles : climb_settles demo_params flat_level 3 := by
  intro x y
  by_cases h : y = 100
  · refine ⟨1, by omega, ?_, ?_⟩ <;> simp [flat_level, no_support, h]
  · refine ⟨0, by omega, ?_, ?_⟩ <;> simp [flat_level, no_support, h]

theorem die_state_irrevocable_witness :
    frame_kept dying_actor dying_actor_hit ∧
    dying_actor_next.current_frame_ = dying_actor.current_frame_ ∧
    dying_actor_next.time_in_frame_ = dying_actor.time_in_frame_ + 1 ∧
    (∃ fuel r, dying_actor.process demo_params flat_level idle_input fuel = .ok r) :=
  ⟨(die_state_irrevocable demo_params flat_level dying_actor (by decide)).2.2.2.2.2.2.2.2.1
      dying_actor_hit (by rfl),
   ((die_state_irrevocable demo_params flat_level dying_actor (by decide)).2.2.2.2.2.2.2.2.2.1
      idle_input 5 dying_actor_next (by rfl)).2.1,
   ((die_state_irrevocable demo_params flat_level dying_actor (by decide)).2.2.2.2.2.2.2.2.2.1
      idle_input 5 dying_actor_next (by rfl)).2.2.1,
   (die_state_irrevocable demo_params flat_level dying_actor (by decide)).2.2.2.2.2.2.2.2.2.2
      idle_input 3 flat_level_settles⟩

/-! ## One hit per tick -/

/-- The horizontal velocity an applied frame change leaves: the impulse the new
frame declares, directed by the facing, or the old velocity. -/
theorem change_frame_velocity_x (c : character) (nf : frame_tag)
    (h : some c.current_frame_ ≠ c.type_.die_frame) :
    (c.change_frame (some nf)).velocity_x_ =
      if (c.type_.deref nf).velocity_x ≠ 0 then
        (c.type_.deref nf).velocity_x * (if c.face_right_ then 1 else -1)
      else c.velocity_x_ := by
  unfold character.change_frame
  simp only [h, if_false]
  by_cases h1 : (c.type_.deref nf).velocity_x ≠ 0 <;>
  by_cases h2 : (c.type_.deref nf).velocity_y ≠ 0 <;>
  simp [h1, h2, character.set_pos, character.log]

/-- A pointer into the archetype differs from the address of another slot. -/
theorem tag_ne_ptr (t : character_type) {a b : frame_tag} (h : a ≠ b) : some a ≠ t.ptr b :=
  fun e => h ((some_eq_ptr t a b).1 e).1

/-- C11, amended.  For an actor in the stand frame, standing on ground, with
`velocity_x = 0` and an archetype that has a walk frame: when the actor already
faces right, or the archetype has no turn frame, one call `walk(right)` leaves the
current frame equal to the walk frame and `velocity_x` equal to `walk_speed` (run
bonus 1), unless the walk frame declares a horizontal impulse, which then
replaces it; when the actor faces left and the archetype has a turn frame, the
call turns the actor about and leaves it in the turn frame. -/
theorem walk_from_stand (P : params) (lvl : level) (c : character)
    (hs : c.current_frame_ = .stand) (hg : c.is_standing P lvl = true)
    (hv : c.velocity_x_ = 0) (hw : c.type_.walk_frame.isSome = true) :
    ((c.face_right_ = true ∨ c.type_.turn_frame = none) →
      (c.walk P lvl true).current_frame_ = .walk ∧
      (c.walk P lvl true).velocity_x_ =
        if (c.type_.deref .walk).velocity_x ≠ 0 then (c.type_.deref .walk).velocity_x
        else c.walk_speed_) ∧
    (c.face_right_ = false → c.type_.turn_frame.isSome = true →
      (c.walk P lvl true).current_frame_ = .turn ∧ (c.walk P lvl true).face_right_ = true) := by
  have hne : ∀ {b : frame_tag}, frame_tag.stand ≠ b → some c.current_frame_ ≠ c.type_.ptr b := by
    intro b hb
    rw [hs]
    exact tag_ne_ptr _ hb
  have hwalk : c.type_.walk_frame = some .walk := ptr_of_isSome _ _ hw
  have hguard : ¬ (some c.current_frame_ = c.type_.slide_frame ∨
      some c.current_frame_ = c.type_.spring_frame ∨
      some c.current_frame_ = c.type_.die_frame ∨ some c.current_frame_ = c.type_.turn_frame ∨
      some c.current_frame_ = c.type_.gethit_frame) := by
    rintro (h | h | h | h | h)
    all_goals exact hne (by decide) h
  have hwalk_on : ∀ d : character, d.type_ = c.type_ → d.current_frame_ = .stand →
      d.velocity_x_ = 0 → d.walk_speed_ = c.walk_speed_ → d.face_right_ = true →
      (character.walk_on true true d).current_frame_ = .walk ∧
      (character.walk_on true true d).velocity_x_ =
        if (c.type_.deref .walk).velocity_x ≠ 0 then (c.type_.deref .walk).velocity_x
        else c.walk_speed_ := by
    intro d ht hc hvx hws hfr
    have hj : some frame_tag.stand ≠ d.type_.jump_frame := tag_ne_ptr _ (by decide)
    have ht2 : some frame_tag.stand ≠ d.type_.turn_frame := tag_ne_ptr _ (by decide)
    have hr : some frame_tag.stand ≠ d.type_.run_frame := tag_ne_ptr _ (by decide)
    have hwd : d.type_.walk_frame = some .walk := by rw [ht]; exact hwalk
    have hW : character.walk_on true true d =
        (d.set_velocity (d.velocity_x_ + d.walk_speed_) d.velocity_y_).change_frame
          (some .walk) := by
      simp [character.walk_on, hc, hwd, hj, ht2, hr]
    have hnd : some (d.set_velocity (d.velocity_x_ + d.walk_speed_) d.velocity_y_).current_frame_ ≠
        (d.set_velocity (d.velocity_x_ + d.walk_speed_) d.velocity_y_).type_.die_frame := by
      show some d.current_frame_ ≠ d.type_.die_frame
      rw [hc]
      exact tag_ne_ptr _ (by decide)
    rw [hW]
    refine ⟨change_frame_current _ _ hnd, ?_⟩
    rw [change_frame_velocity_x _ _ hnd]
    simp [character.set_velocity, ht, hvx, hws, hfr]
  unfold character.walk
  rw [if_neg hguard, hg]
  constructor
  · intro hf
    by_cases hfr : c.face_right_ = true
    · have : c.set_face_right P lvl true = c := by simp [character.set_face_right, hfr]
      rw [this]
      exact hwalk_on c rfl hs hv rfl hfr
    · have hturn : c.type_.turn_frame = none := hf.resolve_left hfr
      have : c.set_face_right P lvl true = c.turn_about true := by
        simp [character.set_face_right, hfr, hturn, character.change_frame]
      rw [this]
      exact hwalk_on _ rfl hs hv rfl rfl
  · intro hfl ht
    have hturn : c.type_.turn_frame = some .turn := ptr_of_isSome _ _ ht
    have hnd : some c.current_frame_ ≠ c.type_.die_frame := hne (by decide)
    have hset : c.set_face_right P lvl true =
        character.turn_about (c.change_frame (some .turn)) true := by
      simp [character.set_face_right, hfl, hg, hturn]
    rw [hset]
    have hcur : (character.turn_about (c.change_frame (some .turn)) true).current_frame_ = .turn :=
      change_frame_current c .turn hnd
    have hty : (character.turn_about (c.change_frame (some .turn)) true).type_ = c.type_ :=
      (change_frame_applied c .turn hnd).1
    have hW : character.walk_on true true
        (character.turn_about (c.change_frame (some .turn)) true) =
        (character.turn_about (c.change_frame (some .turn)) true).set_velocity
          ((character.turn_about (c.change_frame (some .turn)) true).velocity_x_ +
            (character.turn_about (c.change_frame (some .turn)) true).walk_speed_)
          (character.turn_about (c.change_frame (some .turn)) true).velocity_y_ := by
      have hr : some frame_tag.turn ≠ c.type_.run_frame := tag_ne_ptr _ (by decide)
      simp [character.walk_on, hcur, hty, hturn, hr]
    rw [hW]
    exact ⟨hcur, rfl⟩

/-- C11, as stated, fails.  An actor in the stand frame that faces left, standing
on flat ground with `velocity_x = 0`, is put into the turn frame by `walk(right)`
(line 604), and line 673 then keeps it out of the walk frame.  And an actor whose
walk frame declares the impulse 150 ends with `velocity_x = 150` (line 888), not
with its `walk_speed` of 200. -/
theorem walk_from_stand_turns_first :
    (left_facing_actor.current_frame_ = .stand ∧
      left_facing_actor.is_standing demo_params flat_level = true ∧
      left_facing_actor.velocity_x_ = 0 ∧ left_facing_actor.type_.walk_frame.isSome = true ∧
      (left_facing_actor.walk demo_params flat_level true).current_frame_ = .turn ∧
      (left_facing_actor.walk demo_params flat_level true).current_frame_ ≠ .walk) ∧
    (impulse_actor.current_frame_ = .stand ∧
      impulse_actor.is_standing demo_params flat_level = true ∧
      impulse_actor.velocity_x_ = 0 ∧ impulse_actor.type_.walk_frame.isSome = true ∧
      impulse_actor.walk_speed_ = 200 ∧
      (impulse_actor.walk demo_params flat_level true).velocity_x_ = 150) :=
  ⟨⟨rfl, by decide, rfl, by decide, by decide, by decide⟩,
   ⟨rfl, by decide, rfl, by decide, rfl, by decide⟩⟩

theorem walk_from_stand_witness :
    (demo_actor.walk demo_params flat_level true).current_frame_ = .walk ∧
    (demo_actor.walk demo_params flat_level true).velocity_x_ = 200 ∧
    (left_facing_actor.walk demo_params flat_level true).current_frame_ = .turn :=
  ⟨((walk_from_stand demo_params flat_level demo_actor rfl (by decide) rfl (by decide)).1
      (Or.inl rfl)).1,
   ((walk_from_stand demo_params flat_level demo_actor rfl (by decide) rfl (by decide)).1
      (Or.inl rfl)).2.trans (by decide),
   ((walk_from_stand demo_params flat_level left_facing_actor rfl (by decide) rfl
      (by decide)).2 rfl (by decide)).1⟩

/-! ## Natural frame transitions -/

theorem once_of_off_walk {c c' : character} (h : changes_once_off_walk c c') :
    changes_at_most_once c c' := by
  rcases h with h | h
  · exact Or.inl h
  · exact Or.inr ⟨h.1, h.2.1⟩

/-- A frame change counts once; its target decides where it leads. -/
theorem change_frame_once {c c' : character} (h1 : c'.frame_id_ = c.frame_id_)
    (h2 : c'.trace = c.trace) (nf : Option frame_tag)
    (hw : nf ≠ some .walk) (hr : nf ≠ some .run) :
    changes_once_off_walk c (c'.change_frame nf) := by
  cases nf with
  | none => exact Or.inl ⟨h1, h2⟩
  | some t =>
    by_cases hd : some c'.current_frame_ = c'.type_.die_frame
    · rw [change_frame_of_die hd]
      exact Or.inl ⟨h1, h2⟩
    · have hc := change_frame_current c' t hd
      refine Or.inr ⟨?_, ⟨t, ?_⟩, ?_, ?_⟩
      · rw [← h1]
        unfold character.change_frame
        simp only [hd, if_false]
        by_cases a : (c'.type_.deref t).velocity_x ≠ 0 <;>
        by_cases b : (c'.type_.deref t).velocity_y ≠ 0 <;>
        simp [a, b, character.set_pos, character.log]
      · rw [← h2]
        unfold character.change_frame
        simp only [hd, if_false]
        by_cases a : (c'.type_.deref t).velocity_x ≠ 0 <;>
        by_cases b : (c'.type_.deref t).velocity_y ≠ 0 <;>
        simp [a, b, character.set_pos, character.log]
      · rw [hc]
        exact fun e => hw (by rw [e])
      · rw [hc]
        exact fun e => hr (by rw [e])

theorem ptr_ne_some (t : character_type) (a b : frame_tag) (h : a ≠ b) : t.ptr b ≠ some a :=
  fun e => h ((ptr_eq_some t a b).1 e).1

theorem change_to_stand_frame_once (P : params) (lvl : level) {c c' : character}
    (h1 : c'.frame_id_ = c.frame_id_) (h2 : c'.trace = c.trace) :
    changes_once_off_walk c (c'.change_to_stand_frame P lvl) := by
  simp only [character.change_to_stand_frame]
  split_ifs
  · exact change_frame_once h1 h2 _ (ptr_ne_some _ .walk .stand_down_slope (by decide))
      (ptr_ne_some _ .run .stand_down_slope (by decide))
  · exact change_frame_once h1 h2 _ (ptr_ne_some _ .walk .stand_up_slope (by decide))
      (ptr_ne_some _ .run .stand_up_slope (by decide))
  · exact change_frame_once h1 h2 _ (by simp [character_type.get_frame])
      (by simp [character_type.get_frame])
  · exact change_frame_once h1 h2 _ (by simp [character_type.get_frame])
      (by simp [character_type.get_frame])

theorem once_ite {c a b : character} {p : Prop} [Decidable p] (ha : changes_once_off_walk c a)
    (hb : changes_once_off_walk c b) : changes_once_off_walk c (if p then a else b) := by
  split
  · exact ha
  · exact hb

theorem natural_transition_once (P : params) (lvl : level) (rand : Nat) {c c' : character}
    (h1 : c'.frame_id_ = c.frame_id_) (h2 : c'.trace = c.trace) :
    changes_once_off_walk c (c'.natural_transition P lvl rand) := by
  have kr : changes_once_off_walk c c'.reset_timer := Or.inl ⟨h1, h2⟩
  have ks := change_to_stand_frame_once P lvl h1 h2
  have ksr : changes_once_off_walk c (character.change_to_stand_frame P lvl c'.reset_timer) :=
    change_to_stand_frame_once P lvl h1 h2
  have kf : changes_once_off_walk c (c'.change_frame c'.type_.fall_frame) :=
    change_frame_once h1 h2 _ (ptr_ne_some _ .walk .fall (by decide))
      (ptr_ne_some _ .run .fall (by decide))
  have ki : changes_once_off_walk c
      (c'.change_frame (if rand % 5 = 0 then c'.type_.idle_frame else c'.type_.get_frame)) := by
    refine change_frame_once h1 h2 _ ?_ ?_ <;> split
    · exact ptr_ne_some _ .walk .idle (by decide)
    · simp [character_type.get_frame]
    · exact ptr_ne_some _ .run .idle (by decide)
    · simp [character_type.get_frame]
  unfold character.natural_transition
  exact once_ite ki (once_ite kr (once_ite kr (once_ite ks
    (once_ite (once_ite ksr kr) (once_ite kr (once_ite ks (once_ite ks
    (once_ite ks (once_ite kf (once_ite kf
    (once_ite ksr (once_ite ks
    (once_ite (Or.inl ⟨h1, h2⟩) (Or.inl ⟨h1, h2⟩))))))))))))))

theorem expire_once (P : params) (lvl : level) (rand : Nat) {c c' : character}
    (h1 : c'.frame_id_ = c.frame_id_) (h2 : c'.trace = c.trace) :
    changes_once_off_walk c (c'.expire P lvl rand) := by
  unfold character.expire
  split
  · exact natural_transition_once P lvl rand h1 h2
  · exact Or.inl ⟨h1, h2⟩

theorem timers_frame_id (lvl : level) (c : character) :
    (character.crouch_lock (character.advance_timers (c.out_of_bounds lvl))).frame_id_ =
      c.frame_id_ ∧
    (character.crouch_lock (character.advance_timers (c.out_of_bounds lvl))).trace = c.trace := by
  unfold character.crouch_lock character.advance_timers character.out_of_bounds
  split_ifs <;> exact ⟨rfl, rfl⟩

theorem start_tick_once (P : params) (lvl : level) (rand : Nat) (c : character) :
    changes_at_most_once c (c.start_tick P lvl rand) := by
  have h := expire_once P lvl rand (timers_frame_id lvl c).1 (timers_frame_id lvl c).2
  unfold character.start_tick character.stop_walking
  rcases h with h | h
  · split
    · exact once_of_off_walk (change_to_stand_frame_once P lvl h.1 h.2)
    · exact Or.inl h
  · rw [if_neg]
    · exact Or.inr ⟨h.1, h.2.1⟩
    · rintro ⟨hw | hr, -⟩
      · exact h.2.2.1 ((some_eq_ptr _ _ _).1 hw).1
      · exact h.2.2.2 ((some_eq_ptr _ _ _).1 hr).1

/-- In the die, jump, fall or gethit frame the timer block of a tick only counts. -/
theorem start_tick_of_exempt (P : params) (lvl : level) (rand : Nat) {c : character}
    {t : frame_tag} (h : some c.current_frame_ = c.type_.ptr t)
    (ht : t = .die ∨ t = .jump ∨ t = .fall ∨ t = .gethit) :
    c.start_tick P lvl rand = character.advance_timers (c.out_of_bounds lvl) := by
  have hcur : (character.advance_timers (c.out_of_bounds lvl)).current_frame_ = t := by
    have := ((some_eq_ptr _ _ _).1 h).1
    unfold character.advance_timers character.out_of_bounds
    split <;> exact this
  have hne : ∀ b : frame_tag, t ≠ b →
      ¬ some (character.advance_timers (c.out_of_bounds lvl)).current_frame_ =
        (character.advance_timers (c.out_of_bounds lvl)).type_.ptr b := by
    intro b hb
    rw [hcur]
    exact tag_ne_ptr _ hb
  have h1 := hne .crouch (by rcases ht with e | e | e | e <;> rw [e] <;> decide)
  have h2 := hne .lookup (by rcases ht with e | e | e | e <;> rw [e] <;> decide)
  have h3 := hne .walk (by rcases ht with e | e | e | e <;> rw [e] <;> decide)
  have h4 := hne .run (by rcases ht with e | e | e | e <;> rw [e] <;> decide)
  have hx : some (character.advance_timers (c.out_of_bounds lvl)).current_frame_ =
      (character.advance_timers (c.out_of_bounds lvl)).type_.ptr t := by
    have e : (character.advance_timers (c.out_of_bounds lvl)).type_ = c.type_ := by
      unfold character.advance_timers character.out_of_bounds
      split <;> rfl
    rw [hcur, e, ← h, ((some_eq_ptr _ _ _).1 h).1]
  have e1 : character.crouch_lock (character.advance_timers (c.out_of_bounds lvl)) =
      character.advance_timers (c.out_of_bounds lvl) := by
    unfold character.crouch_lock
    rw [if_neg]
    rintro ⟨-, a | a⟩
    · exact h1 a
    · exact h2 a
  have e2 : character.expire P lvl rand (character.advance_timers (c.out_of_bounds lvl)) =
      character.advance_timers (c.out_of_bounds lvl) := by
    unfold character.expire
    rw [if_neg]
    rintro ⟨-, a1, a2, a3, a4⟩
    rcases ht with e | e | e | e
    · rw [e] at hx
      exact a4 hx
    · rw [e] at hx
      exact a1 hx
    · rw [e] at hx
      exact a2 hx
    · rw [e] at hx
      exact a3 hx
  have e3 : character.stop_walking P lvl (character.advance_timers (c.out_of_bounds lvl)) =
      character.advance_timers (c.out_of_bounds lvl) := by
    unfold character.stop_walking
    rw [if_neg]
    rintro ⟨a | a, -⟩
    · exact h3 a
    · exact h4 a
  unfold character.start_tick
  rw [e1, e2, e3]

/-- C13: the duration-expiry step of a tick (lines 205 to 242) applies at most one
frame change, and so does the whole timer block of lines 184 to 246; in the die,
jump, fall or gethit frame the step leaves the actor as it is, and the timer
block leaves the frame and the frame counter untouched and adds its one
increment to `time_in_frame`. -/
theorem natural_transition_at_most_once (P : params) (lvl : level) (rand : Nat)
    (c : character) :
    changes_at_most_once c (c.expire P lvl rand) ∧
    changes_at_most_once c (c.start_tick P lvl rand) ∧
    ((some c.current_frame_ = c.type_.die_frame ∨ some c.current_frame_ = c.type_.jump_frame ∨
        some c.current_frame_ = c.type_.fall_frame ∨
        some c.current_frame_ = c.type_.gethit_frame) →
      c.expire P lvl rand = c ∧
      (c.start_tick P lvl rand).type_ = c.type_ ∧
      (c.start_tick P lvl rand).current_frame_ = c.current_frame_ ∧
      (c.start_tick P lvl rand).time_in_frame_ = c.time_in_frame_ + 1 ∧
      (c.start_tick P lvl rand).frame_id_ = c.frame_id_ ∧
      (c.start_tick P lvl rand).trace = c.trace) := by
  refine ⟨once_of_off_walk (expire_once P lvl rand rfl rfl), start_tick_once P lvl rand c, ?_⟩
  intro h
  constructor
  · unfold character.expire
    rw [if_neg]
    rintro ⟨-, a1, a2, a3, a4⟩
    rcases h with e | e | e | e
    · exact a4 e
    · exact a1 e
    · exact a2 e
    · exact a3 e
  · have e : c.start_tick P lvl rand = character.advance_timers (c.out_of_bounds lvl) := by
      rcases h with e | e | e | e
      · exact start_tick_of_exempt P lvl rand e (Or.inl rfl)
      · exact start_tick_of_exempt P lvl rand e (Or.inr (Or.inl rfl))
      · exact start_tick_of_exempt P lvl rand e (Or.inr (Or.inr (Or.inl rfl)))
      · exact start_tick_of_exempt P lvl rand e (Or.inr (Or.inr (Or.inr rfl)))
    rw [e]
    unfold character.advance_timers character.out_of_bounds
    split <;> exact ⟨rfl, rfl, rfl, rfl, rfl⟩

theorem natural_transition_at_most_once_witness :
    (dying_actor.expire demo_params flat_level 0 = dying_actor ∧
      (dying_actor.start_tick demo_params flat_level 0).time_in_frame_ = 3 + 1) ∧
    (jumper.time_in_frame_ + 1 = jumper.current_frame.duration ∧
      (jumper.start_tick demo_params flat_level 0).current_frame_ = .jump ∧
      (jumper.start_tick demo_params flat_level 0).time_in_frame_ = 5 + 1) :=
  ⟨⟨((natural_transition_at_most_once demo_params flat_level 0 dying_actor).2.2
      (Or.inl (by decide))).1,
    ((natural_transition_at_most_once demo_params flat_level 0 dying_actor).2.2
      (Or.inl (by decide))).2.2.2.1⟩,
   ⟨by decide,
    ((natural_transition_at_most_once demo_params flat_level 0 jumper).2.2
      (Or.inr (Or.inl (by decide)))).2.2.1,
    ((natural_transition_at_most_once demo_params flat_level 0 jumper).2.2
      (Or.inr (Or.inl (by decide)))).2.2.2.1⟩⟩

/-! ## Completion of the attack frames -/

/-- What the first lines of a tick leave of the frame state. -/
theorem advance_fields (lvl : level) (c : character) :
    (character.advance_timers (c.out_of_bounds lvl)).type_ = c.type_ ∧
    (character.advance_timers (c.out_of_bounds lvl)).current_frame_ = c.current_frame_ ∧
    (character.advance_timers (c.out_of_bounds lvl)).time_in_frame_ = c.time_in_frame_ + 1 ∧
    (character.advance_timers (c.out_of_bounds lvl)).frame_id_ = c.frame_id_ := by
  unfold character.advance_timers character.out_of_bounds
  split <;> exact ⟨rfl, rfl, rfl, rfl⟩

theorem stand_family_of_change_to_stand (P : params) (lvl : level) (c : character)
    (h : some c.current_frame_ ≠ c.type_.die_frame) :
    (c.change_to_stand_frame P lvl).current_frame_.stand_family = true := by
  rw [change_to_stand_frame_current P lvl c h]
  split_ifs <;> rfl

theorem stop_walking_of_stand_family (P : params) (lvl : level) (c : character)
    (h : c.current_frame_.stand_family = true) : c.stop_walking P lvl = c := by
  unfold character.stop_walking
  rw [if_neg]
  rintro ⟨a | a, -⟩
  · rw [((some_eq_ptr _ _ _).1 a).1] at h
    exact absurd h (by decide)
  · rw [((some_eq_ptr _ _ _).1 a).1] at h
    exact absurd h (by decide)

/-- The completion rule of the attack, up-attack and run-attack frames. -/
theorem natural_transition_of_attack (P : params) (lvl : level) (rand : Nat) (c : character)
    (h : some c.current_frame_ = c.type_.attack_frame ∨
      some c.current_frame_ = c.type_.up_attack_frame ∨
      some c.current_frame_ = c.type_.run_attack_frame) :
    c.natural_transition P lvl rand = c.change_to_stand_frame P lvl := by
  have key : ∀ t : frame_tag, c.current_frame_ = t →
      (t = .attack ∨ t = .up_attack ∨ t = .run_attack) →
      c.natural_transition P lvl rand = c.change_to_stand_frame P lvl := by
    intro t hc ht
    have hne : ∀ b : frame_tag, t ≠ b → ¬ some c.current_frame_ = c.type_.ptr b := by
      intro b hb
      rw [hc]
      exact tag_ne_ptr _ hb
    have n0 : ¬ some c.current_frame_ = c.type_.get_frame := by
      rw [hc]
      rcases ht with e | e | e <;> rw [e] <;> simp [character_type.get_frame]
    have n1 : ¬ some c.current_frame_ = c.type_.stand_up_slope_frame :=
      hne .stand_up_slope (by rcases ht with e | e | e <;> rw [e] <;> decide)
    have n2 : ¬ some c.current_frame_ = c.type_.stand_down_slope_frame :=
      hne .stand_down_slope (by rcases ht with e | e | e <;> rw [e] <;> decide)
    have n3 : ¬ some c.current_frame_ = c.type_.idle_frame :=
      hne .idle (by rcases ht with e | e | e <;> rw [e] <;> decide)
    have n4 : ¬ some c.current_frame_ = c.type_.walk_frame :=
      hne .walk (by rcases ht with e | e | e <;> rw [e] <;> decide)
    have n5 : ¬ some c.current_frame_ = c.type_.fly_frame :=
      hne .fly (by rcases ht with e | e | e <;> rw [e] <;> decide)
    have n6 : ¬ (some c.current_frame_ = c.type_.crouch_frame ∨
        some c.current_frame_ = c.type_.lookup_frame) := by
      rintro (a | a)
      · exact hne .crouch (by rcases ht with e | e | e <;> rw [e] <;> decide) a
      · exact hne .lookup (by rcases ht with e | e | e <;> rw [e] <;> decide) a
    unfold character.natural_transition
    rw [if_neg n0, if_neg n1, if_neg n2, if_neg n3, if_neg n4, if_neg n5, if_neg n6]
    by_cases h7 : some c.current_frame_ = c.type_.attack_frame ∨
        some c.current_frame_ = c.type_.up_attack_frame
    · rw [if_pos h7]
    · rw [if_neg h7, if_pos (h.resolve_left (fun a => h7 (Or.inl a)) |>.resolve_left
        (fun a => h7 (Or.inr a)))]
  rcases h with a | a | a
  · exact key _ ((some_eq_ptr _ _ _).1 a).1 (Or.inl rfl)
  · exact key _ ((some_eq_ptr _ _ _).1 a).1 (Or.inr (Or.inl rfl))
  · exact key _ ((some_eq_ptr _ _ _).1 a).1 (Or.inr (Or.inr rfl))

/-- The completion rule of the jump-attack frame (lines 231, 232). -/
theorem natural_transition_of_jump_attack (P : params) (lvl : level) (rand : Nat)
    (c : character) (h : some c.current_frame_ = c.type_.jump_attack_frame) :
    c.natural_transition P lvl rand = c.change_frame c.type_.fall_frame := by
  have hc : c.current_frame_ = .jump_attack := ((some_eq_ptr _ _ _).1 h).1
  have hne : ∀ b : frame_tag, frame_tag.jump_attack ≠ b →
      ¬ some c.current_frame_ = c.type_.ptr b := by
    intro b hb
    rw [hc]
    exact tag_ne_ptr _ hb
  have n0 : ¬ some c.current_frame_ = c.type_.get_frame := by
    rw [hc]
    simp [character_type.get_frame]
  have n6 : ¬ (some c.current_frame_ = c.type_.crouch_frame ∨
      some c.current_frame_ = c.type_.lookup_frame) := by
    rintro (a | a)
    · exact hne .crouch (by decide) a
    · exact hne .lookup (by decide) a
  have n7 : ¬ (some c.current_frame_ = c.type_.attack_frame ∨
      some c.current_frame_ = c.type_.up_attack_frame) := by
    rintro (a | a)
    · exact hne .attack (by decide) a
    · exact hne .up_attack (by decide) a
  have n1 : ¬ some c.current_frame_ = c.type_.stand_up_slope_frame :=
    hne .stand_up_slope (by decide)
  have n2 : ¬ some c.current_frame_ = c.type_.stand_down_slope_frame :=
    hne .stand_down_slope (by decide)
  have n3 : ¬ some c.current_frame_ = c.type_.idle_frame := hne .idle (by decide)
  have n4 : ¬ some c.current_frame_ = c.type_.walk_frame := hne .walk (by decide)
  have n5 : ¬ some c.current_frame_ = c.type_.fly_frame := hne .fly (by decide)
  have n8 : ¬ some c.current_frame_ = c.type_.run_attack_frame := hne .run_attack (by decide)
  have n9 : ¬ some c.current_frame_ = c.type_.slide_frame := hne .slide (by decide)
  unfold character.natural_transition
  rw [if_neg n0, if_neg n1, if_neg n2, if_neg n3, if_neg n4, if_neg n5, if_neg n6, if_neg n7,
    if_neg n8, if_neg n9, if_pos h]

/-- An applied frame change restarts the frame timer. -/
theorem change_frame_time (c : character) (nf : frame_tag)
    (h : some c.current_frame_ ≠ c.type_.die_frame) :
    (c.change_frame (some nf)).time_in_frame_ = 0 := by
  unfold character.change_frame
  simp only [h, if_false]
  by_cases h1 : (c.type_.deref nf).velocity_x ≠ 0 <;>
  by_cases h2 : (c.type_.deref nf).velocity_y ≠ 0 <;>
  simp [h1, h2, character.set_pos, character.log]

theorem change_to_stand_frame_time (P : params) (lvl : level) (c : character)
    (h : some c.current_frame_ ≠ c.type_.die_frame) :
    (c.change_to_stand_frame P lvl).time_in_frame_ = 0 := by
  simp only [character.change_to_stand_frame]
  by_cases hb : (c.type_.stand_up_slope_frame.isSome &&
      c.type_.stand_down_slope_frame.isSome) = true
  · simp only [hb, if_true]
    simp only [Bool.and_eq_true] at hb
    by_cases h1 : c.slope_standing_on P lvl P.default_slope_range < 0
    · simp only [h1, if_true]
      have := ptr_of_isSome c.type_ .stand_down_slope hb.2
      unfold character_type.stand_down_slope_frame
      rw [this]
      exact change_frame_time c _ h
    · simp only [h1, if_false]
      by_cases h2 : c.slope_standing_on P lvl P.default_slope_range > 0
      · simp only [h2, if_true]
        have := ptr_of_isSome c.type_ .stand_up_slope hb.1
        unfold character_type.stand_up_slope_frame
        rw [this]
        exact change_frame_time c _ h
      · simp only [h2, if_false]
        exact change_frame_time c _ h
  · simp only [hb, if_false]
    exact change_frame_time c _ h

theorem crouch_lock_of_other (c : character)
    (h1 : ¬ some c.current_frame_ = c.type_.crouch_frame)
    (h2 : ¬ some c.current_frame_ = c.type_.lookup_frame) : c.crouch_lock = c := by
  unfold character.crouch_lock
  rw [if_neg]
  rintro ⟨-, a | a⟩
  · exact h1 a
  · exact h2 a

/-- C14, amended.  For an actor in the attack, up-attack or run-attack frame whose
`time_in_frame` reaches the frame's duration, the natural transition of that tick
changes the frame to a frame of the stand family and restarts the frame timer.
For an actor in the jump-attack frame the natural transition is a change to the
fall frame: the tick leaves it in the fall frame when the archetype has one, and
in the jump-attack frame otherwise. -/
theorem attack_completion (P : params) (lvl : level) (rand : Nat) (c : character)
    (ht : c.time_in_frame_ + 1 = c.current_frame.duration) :
    ((some c.current_frame_ = c.type_.attack_frame ∨
        some c.current_frame_ = c.type_.up_attack_frame ∨
        some c.current_frame_ = c.type_.run_attack_frame) →
      (c.start_tick P lvl rand).current_frame_.stand_family = true ∧
      (c.start_tick P lvl rand).time_in_frame_ = 0) ∧
    (some c.current_frame_ = c.type_.jump_attack_frame →
      (c.start_tick P lvl rand).current_frame_ =
        if c.type_.fall_frame.isSome then .fall else .jump_attack) := by
  obtain ⟨f1, f2, f3, -⟩ := advance_fields lvl c
  have hdur : (character.advance_timers (c.out_of_bounds lvl)).time_in_frame_ =
      (character.advance_timers (c.out_of_bounds lvl)).current_frame.duration := by
    rw [f3, ht]
    unfold character.current_frame
    rw [f1, f2]
  have hne : ∀ t b : frame_tag, c.current_frame_ = t → t ≠ b →
      ¬ some (character.advance_timers (c.out_of_bounds lvl)).current_frame_ =
        (character.advance_timers (c.out_of_bounds lvl)).type_.ptr b := by
    intro t b hc hb
    rw [f2, hc]
    exact tag_ne_ptr _ hb
  constructor
  · intro h
    have h' : some (character.advance_timers (c.out_of_bounds lvl)).current_frame_ =
          (character.advance_timers (c.out_of_bounds lvl)).type_.attack_frame ∨
        some (character.advance_timers (c.out_of_bounds lvl)).current_frame_ =
          (character.advance_timers (c.out_of_bounds lvl)).type_.up_attack_frame ∨
        some (character.advance_timers (c.out_of_bounds lvl)).current_frame_ =
          (character.advance_timers (c.out_of_bounds lvl)).type_.run_attack_frame := by
      rw [f1, f2]
      exact h
    have key : ∀ t : frame_tag, c.current_frame_ = t →
        (t = .attack ∨ t = .up_attack ∨ t = .run_attack) →
        (c.start_tick P lvl rand).current_frame_.stand_family = true ∧
        (c.start_tick P lvl rand).time_in_frame_ = 0 := by
      intro t hc hcase
      have m1 : ¬ some (character.advance_timers (c.out_of_bounds lvl)).current_frame_ =
          (character.advance_timers (c.out_of_bounds lvl)).type_.crouch_frame :=
        hne t .crouch hc (by rcases hcase with e | e | e <;> rw [e] <;> decide)
      have m2 : ¬ some (character.advance_timers (c.out_of_bounds lvl)).current_frame_ =
          (character.advance_timers (c.out_of_bounds lvl)).type_.lookup_frame :=
        hne t .lookup hc (by rcases hcase with e | e | e <;> rw [e] <;> decide)
      have m3 : some (character.advance_timers (c.out_of_bounds lvl)).current_frame_ ≠
          (character.advance_timers (c.out_of_bounds lvl)).type_.jump_frame :=
        hne t .jump hc (by rcases hcase with e | e | e <;> rw [e] <;> decide)
      have m4 : some (character.advance_timers (c.out_of_bounds lvl)).current_frame_ ≠
          (character.advance_timers (c.out_of_bounds lvl)).type_.fall_frame :=
        hne t .fall hc (by rcases hcase with e | e | e <;> rw [e] <;> decide)
      have m5 : some (character.advance_timers (c.out_of_bounds lvl)).current_frame_ ≠
          (character.advance_timers (c.out_of_bounds lvl)).type_.gethit_frame :=
        hne t .gethit hc (by rcases hcase with e | e | e <;> rw [e] <;> decide)
      have m6 : some (character.advance_timers (c.out_of_bounds lvl)).current_frame_ ≠
          (character.advance_timers (c.out_of_bounds lvl)).type_.die_frame :=
        hne t .die hc (by rcases hcase with e | e | e <;> rw [e] <;> decide)
      have e : c.start_tick P lvl rand =
          character.change_to_stand_frame P lvl (character.advance_timers (c.out_of_bounds lvl)) := by
        unfold character.start_tick
        rw [crouch_lock_of_other _ m1 m2]
        unfold character.expire
        rw [if_pos ⟨hdur, m3, m4, m5, m6⟩, natural_transition_of_attack P lvl rand _ h']
        exact stop_walking_of_stand_family P lvl _ (stand_family_of_change_to_stand P lvl _ m6)
      rw [e]
      exact ⟨stand_family_of_change_to_stand P lvl _ m6, change_to_stand_frame_time P lvl _ m6⟩
    rcases h with a | a | a
    · exact key _ ((some_eq_ptr _ _ _).1 a).1 (Or.inl rfl)
    · exact key _ ((some_eq_ptr _ _ _).1 a).1 (Or.inr (Or.inl rfl))
    · exact key _ ((some_eq_ptr _ _ _).1 a).1 (Or.inr (Or.inr rfl))
  · intro h
    have hc : c.current_frame_ = .jump_attack := ((some_eq_ptr _ _ _).1 h).1
    have h' : some (character.advance_timers (c.out_of_bounds lvl)).current_frame_ =
        (character.advance_timers (c.out_of_bounds lvl)).type_.jump_attack_frame := by
      rw [f1, f2]
      exact h
    have m1 : ¬ some (character.advance_timers (c.out_of_bounds lvl)).current_frame_ =
        (character.advance_timers (c.out_of_bounds lvl)).type_.crouch_frame :=
      hne _ .crouch hc (by decide)
    have m2 : ¬ some (character.advance_timers (c.out_of_bounds lvl)).current_frame_ =
        (character.advance_timers (c.out_of_bounds lvl)).type_.lookup_frame :=
      hne _ .lookup hc (by decide)
    have m3 : some (character.advance_timers (c.out_of_bounds lvl)).current_frame_ ≠
        (character.advance_timers (c.out_of_bounds lvl)).type_.jump_frame :=
      hne _ .jump hc (by decide)
    have m4 : some (character.advance_timers (c.out_of_bounds lvl)).current_frame_ ≠
        (character.advance_timers (c.out_of_bounds lvl)).type_.fall_frame :=
      hne _ .fall hc (by decide)
    have m5 : some (character.advance_timers (c.out_of_bounds lvl)).current_frame_ ≠
        (character.advance_timers (c.out_of_bounds lvl)).type_.gethit_frame :=
      hne _ .gethit hc (by decide)
    have m6 : some (character.advance_timers (c.out_of_bounds lvl)).current_frame_ ≠
        (character.advance_timers (c.out_of_bounds lvl)).type_.die_frame :=
      hne _ .die hc (by decide)
    have hcur : ((character.advance_timers (c.out_of_bounds lvl)).change_frame
        (character.advance_timers (c.out_of_bounds lvl)).type_.fall_frame).current_frame_ =
        if c.type_.fall_frame.isSome then .fall else .jump_attack := by
      rw [f1]
      by_cases hf : c.type_.fall_frame.isSome = true
      · have e : c.type_.fall_frame = some .fall := ptr_of_isSome _ _ hf
        rw [if_pos hf, e]
        exact change_frame_current _ _ m6
      · rw [if_neg hf]
        have e : c.type_.fall_frame = none := by
          cases hx : c.type_.fall_frame with
          | none => rfl
          | some v => rw [hx] at hf; exact absurd rfl hf
        rw [e]
        exact f2.trans hc
    have e : c.start_tick P lvl rand =
        (character.advance_timers (c.out_of_bounds lvl)).change_frame
          (character.advance_timers (c.out_of_bounds lvl)).type_.fall_frame := by
      unfold character.start_tick
      rw [crouch_lock_of_other _ m1 m2]
      unfold character.expire
      rw [if_pos ⟨hdur, m3, m4, m5, m6⟩, natural_transition_of_jump_attack P lvl rand _ h']
      unfold character.stop_walking
      rw [if_neg]
      rintro ⟨a | a, -⟩
      · have := ((some_eq_ptr _ _ _).1 a).1
        rw [hcur] at this
        split at this <;> exact absurd this (by decide)
      · have := ((some_eq_ptr _ _ _).1 a).1
        rw [hcur] at this
        split at this <;> exact absurd this (by decide)
    rw [e]
    exact hcur

/-- C14, as stated, fails for the jump-attack frame.  An actor in the air whose
jump-attack frame reaches its duration is put into the fall frame (line 232),
which is not a frame of the stand family. -/
theorem jump_attack_completes_to_fall :
    some air_striker.current_frame_ = air_striker.type_.jump_attack_frame ∧
    air_striker.time_in_frame_ + 1 = air_striker.current_frame.duration ∧
    (air_striker.start_tick demo_params flat_level 0).current_frame_ = .fall ∧
    (air_striker.start_tick demo_params flat_level 0).current_frame_.stand_family = false :=
  ⟨by decide, by decide, by decide, by decide⟩

theorem attack_completion_witness :
    (striker.start_tick demo_params flat_level 0).current_frame_.stand_family = true ∧
    (striker.start_tick demo_params flat_level 0).time_in_frame_ = 0 ∧
    (air_striker.start_tick demo_params flat_level 0).current_frame_ = .fall :=
  ⟨((attack_completion demo_params flat_level 0 striker (by decide)).1
      (Or.inl (by decide))).1,
   ((attack_completion demo_params flat_level 0 striker (by decide)).1
      (Or.inl (by decide))).2,
   ((attack_completion demo_params flat_level 0 air_striker (by decide)).2
      (by decide)).trans (by decide)⟩

/-! ## The crouch and lookup lock -/

theorem stop_walking_of_other (P : params) (lvl : level) (c : character)
    (h1 : ¬ some c.current_frame_ = c.type_.walk_frame)
    (h2 : ¬ some c.current_frame_ = c.type_.run_frame) : c.stop_walking P lvl = c := by
  unfold character.stop_walking
  rw [if_neg]
  rintro ⟨a | a, -⟩
  · exact h1 a
  · exact h2 a

/-- In the crouch or the lookup frame the current frame is none of the others. -/
theorem crouching_ne (c : character)
    (hf : some c.current_frame_ = c.type_.crouch_frame ∨
      some c.current_frame_ = c.type_.lookup_frame)
    (b : frame_tag) (h1 : b ≠ .crouch) (h2 : b ≠ .lookup) :
    ¬ some c.current_frame_ = c.type_.ptr b := by
  rcases hf with a | a
  · rw [((some_eq_ptr _ _ _).1 a).1]
    exact tag_ne_ptr _ (Ne.symm h1)
  · rw [((some_eq_ptr _ _ _).1 a).1]
    exact tag_ne_ptr _ (Ne.symm h2)

/-- The completion rule of the crouch and lookup frames (lines 221 to 223). -/
theorem natural_transition_of_crouch (P : params) (lvl : level) (rand : Nat) (c : character)
    (hf : some c.current_frame_ = c.type_.crouch_frame ∨
      some c.current_frame_ = c.type_.lookup_frame) :
    c.natural_transition P lvl rand = c.change_to_stand_frame P lvl := by
  have n0 : ¬ some c.current_frame_ = c.type_.get_frame := by
    rcases hf with a | a <;> rw [((some_eq_ptr _ _ _).1 a).1] <;>
      simp [character_type.get_frame]
  have n1 : ¬ some c.current_frame_ = c.type_.stand_up_slope_frame :=
    crouching_ne c hf .stand_up_slope (by decide) (by decide)
  have n2 : ¬ some c.current_frame_ = c.type_.stand_down_slope_frame :=
    crouching_ne c hf .stand_down_slope (by decide) (by decide)
  have n3 : ¬ some c.current_frame_ = c.type_.idle_frame :=
    crouching_ne c hf .idle (by decide) (by decide)
  have n4 : ¬ some c.current_frame_ = c.type_.walk_frame :=
    crouching_ne c hf .walk (by decide) (by decide)
  have n5 : ¬ some c.current_frame_ = c.type_.fly_frame :=
    crouching_ne c hf .fly (by decide) (by decide)
  unfold character.natural_transition
  rw [if_neg n0, if_neg n1, if_neg n2, if_neg n3, if_neg n4, if_neg n5, if_pos hf]

theorem expire_of_unexpired (P : params) (lvl : level) (rand : Nat) (c : character)
    (h : c.time_in_frame_ ≠ c.current_frame.duration) : c.expire P lvl rand = c := by
  unfold character.expire
  rw [if_neg]
  exact fun a => h a.1

/-- The frame state after the timer block, for an actor that enters it in the
crouch or lookup frame: held at the midpoint, counting, or expiring. -/
theorem start_tick_of_crouch (P : params) (lvl : level) (rand : Nat) (c : character)
    (hf : some c.current_frame_ = c.type_.crouch_frame ∨
      some c.current_frame_ = c.type_.lookup_frame)
    (hd : 0 < c.current_frame.duration) :
    (c.time_in_frame_ = c.current_frame.duration.tdiv 2 - 1 →
      (c.start_tick P lvl rand).type_ = c.type_ ∧
      (c.start_tick P lvl rand).current_frame_ = c.current_frame_ ∧
      (c.start_tick P lvl rand).time_in_frame_ = c.time_in_frame_ ∧
      (c.start_tick P lvl rand).frame_id_ = c.frame_id_) ∧
    (c.current_frame.duration.tdiv 2 ≤ c.time_in_frame_ →
      c.time_in_frame_ + 1 < c.current_frame.duration →
      (c.start_tick P lvl rand).type_ = c.type_ ∧
      (c.start_tick P lvl rand).current_frame_ = c.current_frame_ ∧
      (c.start_tick P lvl rand).time_in_frame_ = c.time_in_frame_ + 1 ∧
      (c.start_tick P lvl rand).frame_id_ = c.frame_id_) ∧
    (c.current_frame.duration.tdiv 2 ≤ c.time_in_frame_ →
      c.time_in_frame_ + 1 = c.current_frame.duration →
      (c.start_tick P lvl rand).current_frame_.stand_family = true ∧
      (c.start_tick P lvl rand).time_in_frame_ = 0) := by
  obtain ⟨f1, f2, f3, f4⟩ := advance_fields lvl c
  have hdur : (character.advance_timers (c.out_of_bounds lvl)).current_frame.duration =
      c.current_frame.duration := by
    unfold character.current_frame
    rw [f1, f2]
  have hf' : some (character.advance_timers (c.out_of_bounds lvl)).current_frame_ =
        (character.advance_timers (c.out_of_bounds lvl)).type_.crouch_frame ∨
      some (character.advance_timers (c.out_of_bounds lvl)).current_frame_ =
        (character.advance_timers (c.out_of_bounds lvl)).type_.lookup_frame := by
    rw [f1, f2]
    exact hf
  have hhalf : c.current_frame.duration.tdiv 2 = c.current_frame.duration / 2 :=
    Int.tdiv_eq_ediv (le_of_lt hd) (by decide)
  have hst : c.start_tick P lvl rand = character.stop_walking P lvl
      (character.expire P lvl rand (character.crouch_lock
        (character.advance_timers (c.out_of_bounds lvl)))) := rfl
  rw [hst]
  generalize character.advance_timers (c.out_of_bounds lvl) = d at f1 f2 f3 f4 hdur hf'
  have m3 : some d.current_frame_ ≠ d.type_.jump_frame :=
    crouching_ne d hf' .jump (by decide) (by decide)
  have m4 : some d.current_frame_ ≠ d.type_.fall_frame :=
    crouching_ne d hf' .fall (by decide) (by decide)
  have m5 : some d.current_frame_ ≠ d.type_.gethit_frame :=
    crouching_ne d hf' .gethit (by decide) (by decide)
  have m6 : some d.current_frame_ ≠ d.type_.die_frame :=
    crouching_ne d hf' .die (by decide) (by decide)
  have m7 : ¬ some d.current_frame_ = d.type_.walk_frame :=
    crouching_ne d hf' .walk (by decide) (by decide)
  have m8 : ¬ some d.current_frame_ = d.type_.run_frame :=
    crouching_ne d hf' .run (by decide) (by decide)
  refine ⟨?_, ?_, ?_⟩
  · intro ht
    have e1 : d.crouch_lock = { d with time_in_frame_ := d.time_in_frame_ - 1 } := by
      unfold character.crouch_lock
      rw [if_pos ⟨by rw [f3, hdur, ht]; ring, hf'⟩]
    have e2 : character.expire P lvl rand
        ({ d with time_in_frame_ := d.time_in_frame_ - 1 } : character) =
        { d with time_in_frame_ := d.time_in_frame_ - 1 } := by
      apply expire_of_unexpired
      show d.time_in_frame_ - 1 ≠ d.current_frame.duration
      rw [f3, hdur, ht, hhalf]
      omega
    have e3 : character.stop_walking P lvl
        ({ d with time_in_frame_ := d.time_in_frame_ - 1 } : character) =
        { d with time_in_frame_ := d.time_in_frame_ - 1 } :=
      stop_walking_of_other P lvl _ m7 m8
    rw [e1, e2, e3]
    refine ⟨f1, f2, ?_, f4⟩
    show d.time_in_frame_ - 1 = c.time_in_frame_
    rw [f3]
    ring
  · intro hlo hhi
    have e1 : d.crouch_lock = d := by
      unfold character.crouch_lock
      rw [if_neg]
      intro a
      have := a.1
      rw [f3, hdur] at this
      omega
    have e2 : character.expire P lvl rand d = d := by
      apply expire_of_unexpired
      rw [f3, hdur]
      omega
    rw [e1, e2, stop_walking_of_other P lvl _ m7 m8]
    exact ⟨f1, f2, f3, f4⟩
  · intro hlo hhi
    have e1 : d.crouch_lock = d := by
      unfold character.crouch_lock
      rw [if_neg]
      intro a
      have := a.1
      rw [f3, hdur, hhalf] at this
      rw [hhalf] at hlo
      omega
    have e2 : character.expire P lvl rand d = d.change_to_stand_frame P lvl := by
      unfold character.expire
      rw [if_pos ⟨by rw [f3, hdur, hhi], m3, m4, m5, m6⟩,
        natural_transition_of_crouch P lvl rand d hf']
    rw [e1, e2, stop_walking_of_stand_family P lvl _ (stand_family_of_change_to_stand P lvl _ m6)]
    exact ⟨stand_family_of_change_to_stand P lvl _ m6, change_to_stand_frame_time P lvl _ m6⟩

theorem current_frame_of_fields {c d : character} (h1 : d.type_ = c.type_)
    (h2 : d.current_frame_ = c.current_frame_) : d.current_frame = c.current_frame := by
  unfold character.current_frame
  rw [h1, h2]

/-- Held at the midpoint, the timer blocks of any number of ticks change nothing
of the frame state. -/
theorem run_timers_locked (P : params) (lvl : level) :
    ∀ (rs : List Nat) (c : character),
      (some c.current_frame_ = c.type_.crouch_frame ∨
        some c.current_frame_ = c.type_.lookup_frame) →
      0 < c.current_frame.duration →
      c.time_in_frame_ = c.current_frame.duration.tdiv 2 - 1 →
      (character.run_timers P lvl rs c).type_ = c.type_ ∧
      (character.run_timers P lvl rs c).current_frame_ = c.current_frame_ ∧
      (character.run_timers P lvl rs c).time_in_frame_ = c.time_in_frame_ ∧
      (character.run_timers P lvl rs c).frame_id_ = c.frame_id_ := by
  intro rs
  induction rs with
  | nil => intro c _ _ _; exact ⟨rfl, rfl, rfl, rfl⟩
  | cons r rs ih =>
    intro c hf hd ht
    obtain ⟨g1, g2, g3, g4⟩ := (start_tick_of_crouch P lvl r c hf hd).1 ht
    have hcf := current_frame_of_fields g1 g2
    have := ih (c.start_tick P lvl r) (by rw [g1, g2]; exact hf) (by rw [hcf]; exact hd)
      (by rw [hcf, g3]; exact ht)
    show (character.run_timers P lvl rs (c.start_tick P lvl r)).type_ = c.type_ ∧ _
    exact ⟨this.1.trans g1, this.2.1.trans g2, this.2.2.1.trans g3, this.2.2.2.trans g4⟩

/-- Past the midpoint the timer counts one per tick, and the tick in which it
reaches the duration leaves a frame of the stand family. -/
theorem run_timers_released (P : params) (lvl : level) :
    ∀ (rs : List Nat) (c : character),
      (some c.current_frame_ = c.type_.crouch_frame ∨
        some c.current_frame_ = c.type_.lookup_frame) →
      0 < c.current_frame.duration →
      c.current_frame.duration.tdiv 2 ≤ c.time_in_frame_ →
      (c.time_in_frame_ + rs.length < c.current_frame.duration →
        (character.run_timers P lvl rs c).type_ = c.type_ ∧
        (character.run_timers P lvl rs c).current_frame_ = c.current_frame_ ∧
        (character.run_timers P lvl rs c).time_in_frame_ = c.time_in_frame_ + rs.length) ∧
      (c.time_in_frame_ < c.current_frame.duration →
        c.time_in_frame_ + rs.length = c.current_frame.duration →
        (character.run_timers P lvl rs c).current_frame_.stand_family = true ∧
        (character.run_timers P lvl rs c).time_in_frame_ = 0) := by
  intro rs
  induction rs with
  | nil =>
    intro c _ _ _
    refine ⟨fun _ => ⟨rfl, rfl, by simp [character.run_timers]⟩, fun h1 h2 => ?_⟩
    simp at h2
    omega
  | cons r rs ih =>
    intro c hf hd hlo
    have hlen : ((r :: rs).length : Int) = rs.length + 1 := by simp
    have hrun : character.run_timers P lvl (r :: rs) c =
        character.run_timers P lvl rs (c.start_tick P lvl r) := rfl
    rw [hrun]
    constructor
    · intro hlt
      rw [hlen] at hlt
      obtain ⟨g1, g2, g3, -⟩ := (start_tick_of_crouch P lvl r c hf hd).2.1 hlo (by omega)
      have hcf := current_frame_of_fields g1 g2
      have := (ih (c.start_tick P lvl r) (by rw [g1, g2]; exact hf) (by rw [hcf]; exact hd)
        (by rw [hcf, g3]; omega)).1 (by rw [hcf, g3]; omega)
      refine ⟨this.1.trans g1, this.2.1.trans g2, ?_⟩
      rw [this.2.2, g3, hlen]
      ring
    · intro _ heq
      rw [hlen] at heq
      cases rs with
      | nil =>
        simp at heq
        exact (start_tick_of_crouch P lvl r c hf hd).2.2 hlo heq
      | cons r2 rs2 =>
        have hpos : (0 : Int) < (r2 :: rs2).length := by
          rw [List.length_cons]
          omega
        obtain ⟨g1, g2, g3, -⟩ := (start_tick_of_crouch P lvl r c hf hd).2.1 hlo (by omega)
        have hcf := current_frame_of_fields g1 g2
        exact (ih (c.start_tick P lvl r) (by rw [g1, g2]; exact hf) (by rw [hcf]; exact hd)
          (by rw [hcf, g3]; omega)).2 (by rw [hcf, g3]; omega) (by rw [hcf, g3]; omega)

/-- C15: for an actor in the crouch or lookup frame of duration `d > 0` with
`time_in_frame = d/2 - 1`, the timer block of a tick leaves `time_in_frame` at
`d/2 - 1`, over any number of ticks, so the timer never reaches `d/2` and the
frame never expires; `uncrouch` (or `unlookup`) sets `time_in_frame` to `d/2`,
after which the timer block of each tick advances the timer by one, and the
tick in which it reaches `d` leaves a frame of the stand family. -/
theorem crouch_lock_holds (P : params) (lvl : level) (c : character)
    (hf : some c.current_frame_ = c.type_.crouch_frame ∨
      some c.current_frame_ = c.type_.lookup_frame)
    (hd : 0 < c.current_frame.duration)
    (ht : c.time_in_frame_ = c.current_frame.duration.tdiv 2 - 1) :
    (∀ rand, (c.start_tick P lvl rand).time_in_frame_ = c.current_frame.duration.tdiv 2 - 1) ∧
    (∀ rs, (character.run_timers P lvl rs c).current_frame_ = c.current_frame_ ∧
      (character.run_timers P lvl rs c).time_in_frame_ = c.current_frame.duration.tdiv 2 - 1 ∧
      (character.run_timers P lvl rs c).frame_id_ = c.frame_id_) ∧
    (c.uncrouch.time_in_frame_ = c.current_frame.duration.tdiv 2 ∧
      c.unlookup.time_in_frame_ = c.current_frame.duration.tdiv 2 ∧
      c.uncrouch.current_frame_ = c.current_frame_ ∧
      c.unlookup.current_frame_ = c.current_frame_) ∧
    (∀ rs : List Nat, c.current_frame.duration.tdiv 2 + rs.length < c.current_frame.duration →
      ((character.run_timers P lvl rs c.uncrouch).current_frame_ = c.current_frame_ ∧
        (character.run_timers P lvl rs c.uncrouch).time_in_frame_ =
          c.current_frame.duration.tdiv 2 + rs.length) ∧
      ((character.run_timers P lvl rs c.unlookup).current_frame_ = c.current_frame_ ∧
        (character.run_timers P lvl rs c.unlookup).time_in_frame_ =
          c.current_frame.duration.tdiv 2 + rs.length)) ∧
    (∀ rs : List Nat, c.current_frame.duration.tdiv 2 + rs.length = c.current_frame.duration →
      (character.run_timers P lvl rs c.uncrouch).current_frame_.stand_family = true ∧
      (character.run_timers P lvl rs c.unlookup).current_frame_.stand_family = true) := by
  have hhalf : c.current_frame.duration.tdiv 2 = c.current_frame.duration / 2 :=
    Int.tdiv_eq_ediv (le_of_lt hd) (by decide)
  have hun : c.uncrouch = { c with time_in_frame_ := c.time_in_frame_ + 1 } := by
    unfold character.uncrouch
    rw [if_pos ht]
  have hlook : c.unlookup = c.uncrouch := rfl
  have u1 : c.uncrouch.type_ = c.type_ := by rw [hun]
  have u2 : c.uncrouch.current_frame_ = c.current_frame_ := by rw [hun]
  have u3 : c.uncrouch.time_in_frame_ = c.current_frame.duration.tdiv 2 := by
    rw [hun]
    show c.time_in_frame_ + 1 = _
    rw [ht]
    ring
  have ucf : c.uncrouch.current_frame = c.current_frame := current_frame_of_fields u1 u2
  have uf : some c.uncrouch.current_frame_ = c.uncrouch.type_.crouch_frame ∨
      some c.uncrouch.current_frame_ = c.uncrouch.type_.lookup_frame := by
    rw [u1, u2]
    exact hf
  have rel := fun rs => run_timers_released P lvl rs c.uncrouch uf (by rw [ucf]; exact hd)
    (by rw [ucf, u3])
  refine ⟨fun rand => ?_, fun rs => ?_, ⟨u3, hlook ▸ u3, u2, hlook ▸ u2⟩, fun rs hlt => ?_,
    fun rs heq => ?_⟩
  · rw [((start_tick_of_crouch P lvl rand c hf hd).1 ht).2.2.1, ht]
  · obtain ⟨-, g2, g3, g4⟩ := run_timers_locked P lvl rs c hf hd ht
    exact ⟨g2, g3.trans ht, g4⟩
  · have := (rel rs).1 (by rw [ucf, u3]; exact hlt)
    rw [hlook]
    refine ⟨⟨this.2.1.trans u2, ?_⟩, ⟨this.2.1.trans u2, ?_⟩⟩ <;> rw [this.2.2, u3]
  · have := (rel rs).2 (by rw [ucf, u3, hhalf]; omega) (by rw [ucf, u3]; exact heq)
    rw [hlook]
    exact ⟨this.1, this.1⟩

theorem crouch_lock_holds_witness :
    (croucher.start_tick demo_params flat_level 0).time_in_frame_ = 2 ∧
    (character.run_timers demo_params flat_level [0, 1, 2, 3, 4] croucher).time_in_frame_ = 2 ∧
    croucher.uncrouch.time_in_frame_ = 3 ∧
    (character.run_timers demo_params flat_level [0, 1] croucher.uncrouch).time_in_frame_ = 5 ∧
    (character.run_timers demo_params flat_level [0, 1, 2]
      croucher.uncrouch).current_frame_.stand_family = true ∧
    (character.run_timers demo_params flat_level [0, 1, 2]
      gazer.unlookup).current_frame_.stand_family = true :=
  ⟨((crouch_lock_holds demo_params flat_level croucher (Or.inl (by decide)) (by decide)
      (by decide)).1 0).trans (by decide),
   ((crouch_lock_holds demo_params flat_level croucher (Or.inl (by decide)) (by decide)
      (by decide)).2.1 [0, 1, 2, 3, 4]).2.1.trans (by decide),
   (crouch_lock_holds demo_params flat_level croucher (Or.inl (by decide)) (by decide)
      (by decide)).2.2.1.1.trans (by decide),
   ((crouch_lock_holds demo_params flat_level croucher (Or.inl (by decide)) (by decide)
      (by decide)).2.2.2.1 [0, 1] (by decide)).1.2.trans (by decide),
   ((crouch_lock_holds demo_params flat_level croucher (Or.inl (by decide)) (by decide)
      (by decide)).2.2.2.2 [0, 1, 2] (by decide)).1,
   ((crouch_lock_holds demo_params flat_level gazer (Or.inr (by decide)) (by decide)
      (by decide)).2.2.2.2 [0, 1, 2] (by decide)).2⟩

/-! ## Suppressed control -/

/-- C19: for an actor whose current frame is the die frame, and for a vehicle
without a driver, `character::control` returns the actor unchanged, whatever the
five expressions are: none of them is evaluated. -/
theorem control_suppressed (P : params) (lvl : level) (F : formulas) (c : character)
    (h : c.suppressed) : c.control P lvl F = c := by
  rcases h with h | ⟨h1, h2⟩
  · exact control_of_die P lvl F h
  · unfold character.control
    split
    · rfl
    · rw [if_pos]
      simp [h1, h2]

theorem control_suppressed_witness :
    dying_actor.control demo_params flat_level busy_script = dying_actor ∧
    parked_vehicle.control demo_params flat_level busy_script = parked_vehicle ∧
    (demo_actor.control demo_params flat_level busy_script).x_ = 107 :=
  ⟨control_suppressed demo_params flat_level busy_script dying_actor (Or.inl (by decide)),
   control_suppressed demo_params flat_level busy_script parked_vehicle
     (Or.inr ⟨by decide, by decide⟩),
   by decide⟩

/-- C20 does not hold of the code: `pc_character::control` has no test of the die
frame (`character::control` has one at line 1109, `walk` at line 665).  A player
in the die frame that stands on the ground and holds the jump button gets
`velocity_y = -jump_power` from `jump` (line 712); with down held as well,
`jump_down` moves it one pixel down (line 728).  The frame stays the die frame. -/
theorem dying_player_jumps :
    some dying_player.current_frame_ = dying_player.type_.die_frame ∧
    dying_player.is_standing demo_params flat_level = true ∧
    dying_player.velocity_y_ = 0 ∧ dying_player.y_ = 60 ∧
    (dying_player.pc_control demo_params flat_level jump_keys idle_pc).1.velocity_y_ = -1000 ∧
    (dying_player.pc_control demo_params flat_level drop_keys idle_pc).1.y_ = 61 ∧
    (dying_player.do_control demo_params flat_level
      { idle_input with keys := jump_keys }).velocity_y_ = -1000 ∧
    (dying_player.pc_control demo_params flat_level jump_keys idle_pc).1.current_frame_ = .die :=
  ⟨by decide, by decide, rfl, rfl, by decide, by decide, by decide, by decide⟩

/-! ## The throttle of the scripted strategy -/

theorem throttle_kept_refl (c : character) : throttle_kept c c := ⟨rfl, rfl, rfl, rfl, rfl⟩

theorem throttle_of_eq {c c' c'' : character} (k : throttle_kept c c')
    (e1 : c''.formula_test_frequency_ = c'.formula_test_frequency_)
    (e2 : c''.time_since_last_formula_ = c'.time_since_last_formula_)
    (e3 : c''.walk_result_ = c'.walk_result_) (e4 : c''.jump_result_ = c'.jump_result_)
    (e5 : c''.fly_result_ = c'.fly_result_) : throttle_kept c c'' :=
  ⟨e1.trans k.1, e2.trans k.2.1, e3.trans k.2.2.1, e4.trans k.2.2.2.1, e5.trans k.2.2.2.2⟩

theorem set_velocity_throttle {c c' : character} (k : throttle_kept c c') (vx vy : Int) :
    throttle_kept c (c'.set_velocity vx vy) := throttle_of_eq k rfl rfl rfl rfl rfl

theorem set_pos_throttle {c c' : character} (k : throttle_kept c c') (x y : Int) :
    throttle_kept c (c'.set_pos x y) := throttle_of_eq k rfl rfl rfl rfl rfl

theorem change_frame_throttle {c c' : character} (k : throttle_kept c c')
    (nf : Option frame_tag) : throttle_kept c (c'.change_frame nf) := by
  refine throttle_of_eq k ?_ ?_ ?_ ?_ ?_
  all_goals
    cases nf with
    | none => rfl
    | some nf =>
      unfold character.change_frame
      by_cases hd : some c'.current_frame_ = c'.type_.die_frame
      · simp [hd]
      · by_cases h1 : (c'.type_.deref nf).velocity_x ≠ 0 <;>
        by_cases h2 : (c'.type_.deref nf).velocity_y ≠ 0 <;>
        simp [hd, h1, h2, character.set_pos, character.log]

theorem turn_about_throttle {c c' : character} (k : throttle_kept c c') (b : Bool) :
    throttle_kept c (c'.turn_about b) := throttle_of_eq k rfl rfl rfl rfl rfl

theorem set_face_right_throttle (P : params) (lvl : level) {c c' : character}
    (k : throttle_kept c c') (b : Bool) : throttle_kept c (c'.set_face_right P lvl b) := by
  unfold character.set_face_right
  split
  · exact k
  · apply turn_about_throttle
    split
    · exact change_frame_throttle k _
    · exact k

theorem walk_on_throttle (s b : Bool) {c c' : character} (k : throttle_kept c c') :
    throttle_kept c (character.walk_on s b c') := by
  simp only [character.walk_on]
  split_ifs
  all_goals first
    | exact change_frame_throttle (set_velocity_throttle k _ _) _
    | exact k

theorem walk_throttle (P : params) (lvl : level) {c c' : character}
    (k : throttle_kept c c') (b : Bool) : throttle_kept c (c'.walk P lvl b) := by
  unfold character.walk
  split
  · exact k
  · exact walk_on_throttle _ _ (set_face_right_throttle P lvl k _)

theorem fly_on_throttle (b : Bool) (lift : Int) {c c' : character} (k : throttle_kept c c') :
    throttle_kept c (character.fly_on b lift c') := by
  simp only [character.fly_on]
  split_ifs
  all_goals first
    | exact change_frame_throttle (set_velocity_throttle k _ _) _
    | exact k

theorem fly_throttle (P : params) (lvl : level) {c c' : character}
    (k : throttle_kept c c') (b : Bool) (lift : Int) :
    throttle_kept c (c'.fly P lvl b lift) :=
  fly_on_throttle _ _ (set_face_right_throttle P lvl k _)

theorem to_jump_frame_throttle {c c' : character} (k : throttle_kept c c') :
    throttle_kept c c'.to_jump_frame := by
  unfold character.to_jump_frame
  split
  all_goals first
    | exact k
    | exact change_frame_throttle k _

theorem ground_jump_throttle {c c' : character} (k : throttle_kept c c')
    (p : Option other_entity) : throttle_kept c (c'.ground_jump p) := by
  unfold character.ground_jump
  cases p with
  | none => exact set_velocity_throttle k _ _
  | some p => exact set_velocity_throttle (set_velocity_throttle k _ _) _ _

theorem jump_throttle (P : params) (lvl : level) {c c' : character}
    (k : throttle_kept c c') : throttle_kept c (c'.jump P lvl) := by
  unfold character.jump
  split
  · exact to_jump_frame_throttle (set_velocity_throttle (set_face_right_throttle P lvl k _) _ _)
  · split
    · exact to_jump_frame_throttle (ground_jump_throttle k _)
    · split
      · exact set_velocity_throttle k _ _
      · exact k

theorem issue_walk_throttle (P : params) (lvl : level) (F : formulas) {c c' : character}
    (k : throttle_kept c c') : throttle_kept c (c'.issue_walk P lvl F) := by
  unfold character.issue_walk
  split_ifs
  · exact fly_throttle P lvl k _ _
  · exact walk_throttle P lvl k _
  · exact walk_throttle P lvl k _
  · exact k

theorem issue_jump_throttle (P : params) (lvl : level) {c c' : character}
    (k : throttle_kept c c') : throttle_kept c (c'.issue_jump P lvl) := by
  unfold character.issue_jump
  split
  · exact jump_throttle P lvl k
  · exact k

theorem xpos_block_throttle (F : formulas) {c c' : character} (k : throttle_kept c c') :
    throttle_kept c (c'.xpos_block F) := by
  unfold character.xpos_block
  split
  · exact set_pos_throttle k _ _
  · exact k

theorem ypos_block_throttle (F : formulas) {c c' : character} (k : throttle_kept c c') :
    throttle_kept c (c'.ypos_block F) := by
  unfold character.ypos_block
  split
  · exact set_pos_throttle k _ _
  · exact k

theorem control_active (P : params) (lvl : level) (F : formulas) (c : character)
    (h : ¬ c.suppressed) :
    c.control P lvl F =
      character.ypos_block F (character.xpos_block F (character.jump_block P lvl F
        (character.walk_block P lvl F (character.eval_fly F c.count_formula_tick)))) := by
  unfold character.suppressed at h
  unfold character.control
  rw [if_neg (fun a => h (Or.inl a)), if_neg]
  intro a
  rw [Bool.and_eq_true] at a
  exact h (Or.inr a)

/-- What the evaluation of the fly expression leaves of the throttle. -/
theorem eval_fly_fields (F : formulas) (c : character) :
    (c.eval_fly F).formula_test_frequency_ = c.formula_test_frequency_ ∧
    (c.eval_fly F).time_since_last_formula_ = c.time_since_last_formula_ ∧
    (c.eval_fly F).walk_result_ = c.walk_result_ ∧
    (c.eval_fly F).jump_result_ = c.jump_result_ := by
  unfold character.eval_fly
  split
  · split <;> exact ⟨rfl, rfl, rfl, rfl⟩
  · exact ⟨rfl, rfl, rfl, rfl⟩

theorem eval_walk_fields (f : character → Int) (c : character) :
    (c.eval_walk f).formula_test_frequency_ = c.formula_test_frequency_ ∧
    (c.eval_walk f).time_since_last_formula_ = c.time_since_last_formula_ ∧
    (c.eval_walk f).fly_result_ = c.fly_result_ ∧
    (c.eval_walk f).jump_result_ = c.jump_result_ := by
  unfold character.eval_walk
  split <;> exact ⟨rfl, rfl, rfl, rfl⟩

theorem eval_jump_fields (f : character → Int) (c : character) :
    (c.eval_jump f).formula_test_frequency_ = c.formula_test_frequency_ ∧
    (c.eval_jump f).time_since_last_formula_ = c.time_since_last_formula_ ∧
    (c.eval_jump f).fly_result_ = c.fly_result_ ∧
    (c.eval_jump f).walk_result_ = c.walk_result_ := by
  unfold character.eval_jump
  split <;> exact ⟨rfl, rfl, rfl, rfl⟩

/-- The walk block keeps the frequency, the counter, the fly result and the jump
result. -/
theorem walk_block_fields (P : params) (lvl : level) (F : formulas) (c : character) :
    (c.walk_block P lvl F).formula_test_frequency_ = c.formula_test_frequency_ ∧
    (c.walk_block P lvl F).time_since_last_formula_ = c.time_since_last_formula_ ∧
    (c.walk_block P lvl F).fly_result_ = c.fly_result_ ∧
    (c.walk_block P lvl F).jump_result_ = c.jump_result_ := by
  unfold character.walk_block
  split
  · rename_i f _
    have k := issue_walk_throttle P lvl F (throttle_kept_refl (c.eval_walk f))
    have e := eval_walk_fields f c
    exact ⟨k.1.trans e.1, k.2.1.trans e.2.1, k.2.2.2.2.trans e.2.2.1, k.2.2.2.1.trans e.2.2.2⟩
  · exact ⟨rfl, rfl, rfl, rfl⟩

/-- The jump block keeps the frequency, the counter, the fly result and the walk
result. -/
theorem jump_block_fields (P : params) (lvl : level) (F : formulas) (c : character) :
    (c.jump_block P lvl F).formula_test_frequency_ = c.formula_test_frequency_ ∧
    (c.jump_block P lvl F).time_since_last_formula_ = c.time_since_last_formula_ ∧
    (c.jump_block P lvl F).fly_result_ = c.fly_result_ ∧
    (c.jump_block P lvl F).walk_result_ = c.walk_result_ := by
  unfold character.jump_block
  split
  · rename_i f _
    have k := issue_jump_throttle P lvl (throttle_kept_refl (c.eval_jump f))
    have e := eval_jump_fields f c
    exact ⟨k.1.trans e.1, k.2.1.trans e.2.1, k.2.2.2.2.trans e.2.2.1, k.2.2.1.trans e.2.2.2⟩
  · exact ⟨rfl, rfl, rfl, rfl⟩

theorem pos_blocks_throttle (F : formulas) (c : character) :
    throttle_kept c (character.ypos_block F (character.xpos_block F c)) :=
  ypos_block_throttle F (xpos_block_throttle F (throttle_kept_refl c))

/-- One control call of an actor that is not suppressed: the counter advances,
the three expressions are executed when it wrapped to 0, and otherwise the cached
results stay and the outcome does not depend on the bodies of the expressions. -/
theorem control_tick (P : params) (lvl : level) (F : formulas) (b : character)
    (hact : ¬ b.suppressed) :
    (b.control P lvl F).formula_test_frequency_ = b.formula_test_frequency_ ∧
    (b.control P lvl F).time_since_last_formula_ =
      b.count_formula_tick.time_since_last_formula_ ∧
    (b.count_formula_tick.time_since_last_formula_ = 0 →
      (∀ f, F.fly_formula_ = some f → (b.control P lvl F).fly_result_ = f b.count_formula_tick) ∧
      (∀ f, F.walk_formula_ = some f →
        (b.control P lvl F).walk_result_ = f (character.eval_fly F b.count_formula_tick)) ∧
      (∀ f, F.jump_formula_ = some f →
        (b.control P lvl F).jump_result_ =
          f (character.walk_block P lvl F (character.eval_fly F b.count_formula_tick)))) ∧
    (b.count_formula_tick.time_since_last_formula_ ≠ 0 →
      (b.control P lvl F).walk_result_ = b.walk_result_ ∧
      (b.control P lvl F).jump_result_ = b.jump_result_ ∧
      (b.control P lvl F).fly_result_ = b.fly_result_ ∧
      ∀ G : formulas, F.same_shape G → b.control P lvl G = b.control P lvl F) := by
  have hF := control_active P lvl F b hact
  have kp := pos_blocks_throttle F (character.jump_block P lvl F
    (character.walk_block P lvl F (character.eval_fly F b.count_formula_tick)))
  have kj := jump_block_fields P lvl F
    (character.walk_block P lvl F (character.eval_fly F b.count_formula_tick))
  have kw := walk_block_fields P lvl F (character.eval_fly F b.count_formula_tick)
  have ke := eval_fly_fields F b.count_formula_tick
  rw [← hF] at kp
  refine ⟨?_, ?_, ?_, ?_⟩
  · exact kp.1.trans (kj.1.trans (kw.1.trans ke.1))
  · exact kp.2.1.trans (kj.2.1.trans (kw.2.1.trans ke.2.1))
  · intro h0
    refine ⟨fun f hf => ?_, fun f hf => ?_, fun f hf => ?_⟩
    · rw [kp.2.2.2.2, kj.2.2.1, kw.2.2.1]
      unfold character.eval_fly
      rw [hf]
      simp only [h0, if_true]
    · rw [kp.2.2.1, kj.2.2.2]
      have hc : (character.eval_fly F b.count_formula_tick).time_since_last_formula_ = 0 :=
        ke.2.1.trans h0
      unfold character.walk_block
      rw [hf]
      have k := issue_walk_throttle P lvl F (throttle_kept_refl
        (character.eval_walk f (character.eval_fly F b.count_formula_tick)))
      show (character.issue_walk P lvl F
        (character.eval_walk f (character.eval_fly F b.count_formula_tick))).walk_result_ = _
      rw [k.2.2.1]
      unfold character.eval_walk
      rw [if_pos hc]
    · rw [kp.2.2.2.1]
      have hc : (character.walk_block P lvl F
          (character.eval_fly F b.count_formula_tick)).time_since_last_formula_ = 0 :=
        kw.2.1.trans (ke.2.1.trans h0)
      unfold character.jump_block
      rw [hf]
      have k := issue_jump_throttle P lvl (throttle_kept_refl
        (character.eval_jump f (character.walk_block P lvl F
          (character.eval_fly F b.count_formula_tick))))
      show (character.issue_jump P lvl (character.eval_jump f (character.walk_block P lvl F
          (character.eval_fly F b.count_formula_tick)))).jump_result_ = _
      rw [k.2.2.2.1]
      unfold character.eval_jump
      rw [if_pos hc]
  · intro h0
    have efly : ∀ G : formulas, character.eval_fly G b.count_formula_tick =
        b.count_formula_tick := by
      intro G
      unfold character.eval_fly
      split
      · rw [if_neg h0]
      · rfl
    have ewalk : ∀ G : formulas, character.walk_block P lvl G b.count_formula_tick =
        if G.walk_formula_.isSome then character.issue_walk P lvl G b.count_formula_tick
        else b.count_formula_tick := by
      intro G
      unfold character.walk_block
      cases G.walk_formula_ with
      | none => rfl
      | some f =>
        have : character.eval_walk f b.count_formula_tick = b.count_formula_tick := by
          unfold character.eval_walk
          rw [if_neg h0]
        simp [this]
    have ejump : ∀ (G : formulas) (w : character), w.time_since_last_formula_ ≠ 0 →
        character.jump_block P lvl G w =
          if G.jump_formula_.isSome then character.issue_jump P lvl w else w := by
      intro G w hw
      unfold character.jump_block
      cases G.jump_formula_ with
      | none => rfl
      | some f =>
        have : character.eval_jump f w = w := by
          unfold character.eval_jump
          rw [if_neg hw]
        simp [this]
    have hb1 : b.count_formula_tick.walk_result_ = b.walk_result_ ∧
        b.count_formula_tick.jump_result_ = b.jump_result_ ∧
        b.count_formula_tick.fly_result_ = b.fly_result_ := ⟨rfl, rfl, rfl⟩
    refine ⟨?_, ?_, ?_, ?_⟩
    · rw [kp.2.2.1, kj.2.2.2, efly F, ewalk F]
      split
      · exact (issue_walk_throttle P lvl F (throttle_kept_refl _)).2.2.1
      · rfl
    · rw [kp.2.2.2.1, efly F]
      have hw : (character.walk_block P lvl F b.count_formula_tick).time_since_last_formula_
          ≠ 0 := by
        rw [(walk_block_fields P lvl F _).2.1]
        exact h0
      rw [ejump F _ hw]
      split
      · rw [(issue_jump_throttle P lvl (throttle_kept_refl _)).2.2.2.1]
        exact (walk_block_fields P lvl F _).2.2.2
      · exact (walk_block_fields P lvl F _).2.2.2
    · rw [kp.2.2.2.2, kj.2.2.1, kw.2.2.1, efly F]
      rfl
    · intro G hG
      have hGact : b.control P lvl G = character.ypos_block G (character.xpos_block G
          (character.jump_block P lvl G (character.walk_block P lvl G
            (character.eval_fly G b.count_formula_tick)))) := control_active P lvl G b hact
      have hiss : character.issue_walk P lvl G b.count_formula_tick =
          character.issue_walk P lvl F b.count_formula_tick := by
        unfold character.issue_walk
        rw [hG.2.2.1]
      have hwb : character.walk_block P lvl G b.count_formula_tick =
          character.walk_block P lvl F b.count_formula_tick := by
        rw [ewalk G, ewalk F, hG.1, hiss]
      have hw : (character.walk_block P lvl F b.count_formula_tick).time_since_last_formula_
          ≠ 0 := by
        rw [(walk_block_fields P lvl F _).2.1]
        exact h0
      rw [hGact, hF, efly G, efly F, hwb, ejump G _ hw, ejump F _ hw, hG.2.1]
      unfold character.ypos_block character.xpos_block
      rw [hG.2.2.2.1, hG.2.2.2.2]

/-- The wrap of the formula counter is counting modulo the frequency. -/
theorem count_wrap (N : Int) (hN : 1 ≤ N) (t : Int) :
    (if t % N + 1 = N then 0 else t % N + 1) = (t + 1) % N := by
  have h1 : 0 ≤ t % N := Int.emod_nonneg t (by omega)
  have h2 : t % N < N := Int.emod_lt_of_pos t (by omega)
  have h3 : (t + 1) % N = (t % N + 1) % N := (Int.emod_add_emod t N 1).symm
  rw [h3]
  split
  · rename_i h
    rw [h, Int.emod_self]
  · rename_i h
    have := Int.emod_eq_of_lt (show 0 ≤ t % N + 1 by omega) (show t % N + 1 < N by omega)
    rw [this]

theorem control_run_counter (P : params) (lvl : level) (F : formulas)
    (rest : Nat → character → character) (N : Int) (c : character) (hN : 1 ≤ N)
    (hfreq : c.formula_test_frequency_ = N) (h0 : c.time_since_last_formula_ = 0)
    (hrest : ∀ t d, throttle_kept d (rest t d)) :
    ∀ t : Nat, (∀ k, k < t → ¬ (rest k (character.control_run P lvl F rest k c)).suppressed) →
      (character.control_run P lvl F rest t c).formula_test_frequency_ = N ∧
      (character.control_run P lvl F rest t c).time_since_last_formula_ = (t : Int) % N := by
  intro t
  induction t with
  | zero =>
    intro _
    refine ⟨hfreq, ?_⟩
    show c.time_since_last_formula_ = _
    rw [h0]
    simp
  | succ t ih =>
    intro hact
    obtain ⟨i1, i2⟩ := ih (fun k hk => hact k (by omega))
    have kr := hrest t (character.control_run P lvl F rest t c)
    obtain ⟨g1, g2, -, -⟩ := control_tick P lvl F _ (hact t (by omega))
    show (character.control P lvl F (rest t (character.control_run P lvl F rest t c))
        ).formula_test_frequency_ = N ∧
      (character.control P lvl F (rest t (character.control_run P lvl F rest t c))
        ).time_since_last_formula_ = _
    refine ⟨g1.trans (kr.1.trans i1), ?_⟩
    rw [g2]
    unfold character.count_formula_tick
    show (if (rest t (character.control_run P lvl F rest t c)).time_since_last_formula_ + 1 =
        (rest t (character.control_run P lvl F rest t c)).formula_test_frequency_ then 0
      else (rest t (character.control_run P lvl F rest t c)).time_since_last_formula_ + 1) = _
    rw [kr.1, kr.2.1, i1, i2, count_wrap N hN]
    push_cast
    rfl

theorem eval_fly_sets (F : formulas) (c : character) :
    c.eval_fly F = c.set_walk_fly_result c.walk_result_ (c.eval_fly F).fly_result_ := by
  unfold character.eval_fly
  split
  · split <;> rfl
  · rfl

/-- The walk block stores the walk result and, with a walk expression, goes on
to the horizontal intent. -/
theorem walk_block_stored (P : params) (lvl : level) (F : formulas) (c : character) :
    c.walk_block P lvl F =
      if F.walk_formula_.isSome then
        character.issue_walk P lvl F
          (c.set_walk_fly_result (c.walk_block P lvl F).walk_result_ c.fly_result_)
      else c.set_walk_fly_result (c.walk_block P lvl F).walk_result_ c.fly_result_ := by
  cases hw : F.walk_formula_ with
  | none =>
    have e : c.walk_block P lvl F = c := by
      unfold character.walk_block
      rw [hw]
    rw [e]
    simp only [Option.isSome_none, Bool.false_eq_true, if_false]
    rfl
  | some f =>
    have e : c.walk_block P lvl F = character.issue_walk P lvl F (c.eval_walk f) := by
      unfold character.walk_block
      rw [hw]
    have hv : (c.walk_block P lvl F).walk_result_ = (c.eval_walk f).walk_result_ := by
      rw [e]
      exact (issue_walk_throttle P lvl F (throttle_kept_refl (c.eval_walk f))).2.2.1
    have hs : c.eval_walk f =
        c.set_walk_fly_result (c.eval_walk f).walk_result_ c.fly_result_ := by
      unfold character.eval_walk
      split <;> rfl
    rw [hv]
    simp only [Option.isSome_some, if_true]
    rw [e, ← hs]

/-- The jump block stores the jump result and, with a jump expression, goes on
to the jump intent. -/
theorem jump_block_stored (P : params) (lvl : level) (F : formulas) (c : character) :
    c.jump_block P lvl F =
      if F.jump_formula_.isSome then
        character.issue_jump P lvl (c.set_jump_result (c.jump_block P lvl F).jump_result_)
      else c.set_jump_result (c.jump_block P lvl F).jump_result_ := by
  cases hj : F.jump_formula_ with
  | none =>
    have e : c.jump_block P lvl F = c := by
      unfold character.jump_block
      rw [hj]
    rw [e]
    simp only [Option.isSome_none, Bool.false_eq_true, if_false]
    rfl
  | some f =>
    have e : c.jump_block P lvl F = character.issue_jump P lvl (c.eval_jump f) := by
      unfold character.jump_block
      rw [hj]
    have hv : (c.jump_block P lvl F).jump_result_ = (c.eval_jump f).jump_result_ := by
      rw [e]
      exact (issue_jump_throttle P lvl (throttle_kept_refl (c.eval_jump f))).2.2.2.1
    have hs : c.eval_jump f = c.set_jump_result (c.eval_jump f).jump_result_ := by
      unfold character.eval_jump
      split <;> rfl
    rw [hv]
    simp only [Option.isSome_some, if_true]
    rw [e, ← hs]

/-- A control call of an actor that is not suppressed, in terms of the cached
results as the call leaves them: the results are stored, the two intent steps
run on the stored values, and the position overrides follow. -/
theorem control_stored (P : params) (lvl : level) (F : formulas) (b : character)
    (hact : ¬ b.suppressed) :
    b.control P lvl F =
      character.ypos_block F (character.xpos_block F
        (if F.jump_formula_.isSome then
          character.issue_jump P lvl (character.set_jump_result
            (if F.walk_formula_.isSome then
              character.issue_walk P lvl F (b.count_formula_tick.set_walk_fly_result
                (b.control P lvl F).walk_result_ (b.control P lvl F).fly_result_)
            else b.count_formula_tick.set_walk_fly_result
              (b.control P lvl F).walk_result_ (b.control P lvl F).fly_result_)
            (b.control P lvl F).jump_result_)
        else character.set_jump_result
          (if F.walk_formula_.isSome then
            character.issue_walk P lvl F (b.count_formula_tick.set_walk_fly_result
              (b.control P lvl F).walk_result_ (b.control P lvl F).fly_result_)
          else b.count_formula_tick.set_walk_fly_result
            (b.control P lvl F).walk_result_ (b.control P lvl F).fly_result_)
          (b.control P lvl F).jump_result_)) := by
  have hF := control_active P lvl F b hact
  have kp := pos_blocks_throttle F (character.jump_block P lvl F
    (character.walk_block P lvl F (character.eval_fly F b.count_formula_tick)))
  have kj := jump_block_fields P lvl F
    (character.walk_block P lvl F (character.eval_fly F b.count_formula_tick))
  have kw := walk_block_fields P lvl F (character.eval_fly F b.count_formula_tick)
  rw [← hF] at kp
  have hwr : (b.control P lvl F).walk_result_ =
      (character.walk_block P lvl F (character.eval_fly F b.count_formula_tick)).walk_result_ :=
    kp.2.2.1.trans kj.2.2.2
  have hjr : (b.control P lvl F).jump_result_ =
      (character.jump_block P lvl F (character.walk_block P lvl F
        (character.eval_fly F b.count_formula_tick))).jump_result_ := kp.2.2.2.1
  have hfr : (b.control P lvl F).fly_result_ =
      (character.eval_fly F b.count_formula_tick).fly_result_ :=
    kp.2.2.2.2.trans (kj.2.2.1.trans kw.2.2.1)
  rw [hwr, hjr, hfr]
  rw [hF]
  congr 2
  have h1 := jump_block_stored P lvl F
    (character.walk_block P lvl F (character.eval_fly F b.count_formula_tick))
  have h2 := walk_block_stored P lvl F (character.eval_fly F b.count_formula_tick)
  have h3 : (character.eval_fly F b.count_formula_tick).set_walk_fly_result
      (character.walk_block P lvl F (character.eval_fly F b.count_formula_tick)).walk_result_
      (character.eval_fly F b.count_formula_tick).fly_result_ =
      b.count_formula_tick.set_walk_fly_result
        (character.walk_block P lvl F (character.eval_fly F b.count_formula_tick)).walk_result_
        (character.eval_fly F b.count_formula_tick).fly_result_ := by
    have := eval_fly_sets F b.count_formula_tick
    generalize (character.walk_block P lvl F
      (character.eval_fly F b.count_formula_tick)).walk_result_ = v
    generalize (character.eval_fly F b.count_formula_tick).fly_result_ = u at this ⊢
    rw [this]
    rfl
  rw [h3] at h2
  rw [← h2]
  exact h1

/-- C16: for a frequency `N >= 1` and an actor whose formula counter starts at 0,
over consecutive control ticks none of which is suppressed (with the rest of the
simulation acting in between without touching the throttle), after tick `t + 1`
the counter is `(t + 1) mod N`, so it stays in `0 <= counter < N`.  When `N`
divides `t + 1` the fly, walk and jump expressions that the script has are
executed in that tick, each against the actor as it then is, and their values
become the cached results.  On every other tick the three cached results keep
their values, the outcome of the control call does not depend on the bodies of
the three expressions, and the tick issues the intents those last values call
for: the fly intent, or the walk intent in the direction of the sign of the walk
result, and the jump intent when the jump result is nonzero.  In every tick the
intents issued are those the cached results call for as the tick leaves them. -/
theorem control_throttle (P : params) (lvl : level) (F : formulas)
    (rest : Nat → character → character) (N : Int) (c : character) (hN : 1 ≤ N)
    (hfreq : c.formula_test_frequency_ = N) (h0 : c.time_since_last_formula_ = 0)
    (hrest : ∀ t d, throttle_kept d (rest t d)) (t : Nat)
    (hact : ∀ k, k ≤ t → ¬ (rest k (character.control_run P lvl F rest k c)).suppressed) :
    ((character.control_run P lvl F rest (t + 1) c).time_since_last_formula_ =
        ((t : Int) + 1) % N ∧
      0 ≤ (character.control_run P lvl F rest (t + 1) c).time_since_last_formula_ ∧
      (character.control_run P lvl F rest (t + 1) c).time_since_last_formula_ < N) ∧
    (N ∣ (t : Int) + 1 →
      (∀ f, F.fly_formula_ = some f →
        (character.control_run P lvl F rest (t + 1) c).fly_result_ =
          f (rest t (character.control_run P lvl F rest t c)).count_formula_tick) ∧
      (∀ f, F.walk_formula_ = some f →
        (character.control_run P lvl F rest (t + 1) c).walk_result_ =
          f (character.eval_fly F
            (rest t (character.control_run P lvl F rest t c)).count_formula_tick)) ∧
      (∀ f, F.jump_formula_ = some f →
        (character.control_run P lvl F rest (t + 1) c).jump_result_ =
          f (character.walk_block P lvl F (character.eval_fly F
            (rest t (character.control_run P lvl F rest t c)).count_formula_tick)))) ∧
    (¬ N ∣ (t : Int) + 1 →
      (character.control_run P lvl F rest (t + 1) c).walk_result_ =
        (character.control_run P lvl F rest t c).walk_result_ ∧
      (character.control_run P lvl F rest (t + 1) c).jump_result_ =
        (character.control_run P lvl F rest t c).jump_result_ ∧
      (character.control_run P lvl F rest (t + 1) c).fly_result_ =
        (character.control_run P lvl F rest t c).fly_result_ ∧
      (∀ G : formulas, F.same_shape G →
        character.control P lvl G (rest t (character.control_run P lvl F rest t c)) =
          character.control_run P lvl F rest (t + 1) c) ∧
      character.control_run P lvl F rest (t + 1) c =
        character.ypos_block F (character.xpos_block F
          (character.cached_intents P lvl F
            (character.control_run P lvl F rest t c).walk_result_
            (character.control_run P lvl F rest t c).jump_result_
            (character.control_run P lvl F rest t c).fly_result_
            (rest t (character.control_run P lvl F rest t c)).count_formula_tick))) ∧
    character.control_run P lvl F rest (t + 1) c =
      character.ypos_block F (character.xpos_block F
        (character.cached_intents P lvl F
          (character.control_run P lvl F rest (t + 1) c).walk_result_
          (character.control_run P lvl F rest (t + 1) c).jump_result_
          (character.control_run P lvl F rest (t + 1) c).fly_result_
          (rest t (character.control_run P lvl F rest t c)).count_formula_tick)) := by
  have hcnt := control_run_counter P lvl F rest N c hN hfreq h0 hrest (t + 1)
    (fun k hk => hact k (by omega))
  have kr := hrest t (character.control_run P lvl F rest t c)
  have hstep : character.control_run P lvl F rest (t + 1) c =
      character.control P lvl F (rest t (character.control_run P lvl F rest t c)) := rfl
  have hcast : ((t + 1 : Nat) : Int) % N = ((t : Int) + 1) % N := by
    push_cast
    rfl
  rw [hcast] at hcnt
  rw [hstep] at hcnt ⊢
  have hactive := hact t (le_refl t)
  generalize character.control_run P lvl F rest t c = l at kr hcnt hactive ⊢
  generalize rest t l = b at kr hcnt hactive ⊢
  obtain ⟨-, g2, g3, g4⟩ := control_tick P lvl F b hactive
  have hsto := control_stored P lvl F b hactive
  have hdrv : character.control P lvl F b =
      character.ypos_block F (character.xpos_block F
        (character.cached_intents P lvl F (character.control P lvl F b).walk_result_
          (character.control P lvl F b).jump_result_ (character.control P lvl F b).fly_result_
          b.count_formula_tick)) := by
    refine hsto.trans ?_
    congr 2
    generalize (character.control P lvl F b).walk_result_ = wr
    generalize (character.control P lvl F b).jump_result_ = jr
    generalize (character.control P lvl F b).fly_result_ = fr
    have hw : (if F.walk_formula_.isSome then
          character.issue_walk P lvl F (b.count_formula_tick.set_walk_fly_result wr fr)
        else b.count_formula_tick.set_walk_fly_result wr fr) =
        character.cached_walk P lvl F wr fr (b.count_formula_tick.set_walk_fly_result wr fr) := by
      unfold character.cached_walk character.issue_walk
      rfl
    rw [hw]
    unfold character.cached_intents
    generalize character.cached_walk P lvl F wr fr
      (b.count_formula_tick.set_walk_fly_result wr fr) = w
    unfold character.cached_jump character.issue_jump
    have hj : (w.set_jump_result jr).jump_result_ = jr := rfl
    rw [hj]
    by_cases h1 : F.jump_formula_.isSome = true
    · by_cases h2 : jr ≠ 0
      · rw [if_pos h1, if_pos h2, if_pos ⟨h1, h2⟩]
      · rw [if_pos h1, if_neg h2, if_neg (fun a => h2 a.2)]
    · rw [if_neg h1, if_neg (fun a => h1 a.1)]
  have hval : b.count_formula_tick.time_since_last_formula_ = ((t : Int) + 1) % N :=
    g2.symm.trans hcnt.2
  refine ⟨⟨hcnt.2, ?_, ?_⟩, ?_, ?_, hdrv⟩
  · rw [hcnt.2]
    exact Int.emod_nonneg _ (by omega)
  · rw [hcnt.2]
    exact Int.emod_lt_of_pos _ (by omega)
  · intro hdiv
    exact g3 (hval.trans (Int.emod_eq_zero_of_dvd hdiv))
  · intro hdiv
    have hne : b.count_formula_tick.time_since_last_formula_ ≠ 0 := by
      rw [hval]
      exact fun e => hdiv (Int.dvd_of_emod_eq_zero e)
    obtain ⟨a1, a2, a3, a4⟩ := g4 hne
    have b1 := a1.trans kr.2.2.1
    have b2 := a2.trans kr.2.2.2.1
    have b3 := a3.trans kr.2.2.2.2
    refine ⟨b1, b2, b3, a4, ?_⟩
    rw [← b1, ← b2, ← b3]
    exact hdrv

theorem control_throttle_witness :
    (character.control_run demo_params flat_level march_script (fun _ d => d) 2
      scripted_actor).walk_result_ = 0 ∧
    character.control demo_params flat_level retreat_script
      (character.control_run demo_params flat_level march_script (fun _ d => d) 1
        scripted_actor) =
      character.control_run demo_params flat_level march_script (fun _ d => d) 2
        scripted_actor ∧
    (character.control_run demo_params flat_level march_script (fun _ d => d) 3
      scripted_actor).time_since_last_formula_ = 0 ∧
    (character.control_run demo_params flat_level march_script (fun _ d => d) 3
      scripted_actor).walk_result_ = 1 ∧
    (character.control_run demo_params flat_level march_script (fun _ d => d) 3
      scripted_actor).jump_result_ = 1 ∧
    (character.control_run demo_params flat_level march_script (fun _ d => d) 4
      scripted_actor).jump_result_ = 1 ∧
    (character.control_run demo_params flat_level march_script (fun _ d => d) 4
      scripted_actor).velocity_x_ = 400 ∧
    (character.control_run demo_params flat_level march_script (fun _ d => d) 4
      scripted_actor).frame_id_ = 3 :=
  ⟨((control_throttle demo_params flat_level march_script (fun _ d => d) 3 scripted_actor
      (by decide) rfl rfl (fun _ d => throttle_kept_refl d) 1 (by decide)).2.2.1
      (by decide)).1.trans (by decide),
   ((control_throttle demo_params flat_level march_script (fun _ d => d) 3 scripted_actor
      (by decide) rfl rfl (fun _ d => throttle_kept_refl d) 1 (by decide)).2.2.1
      (by decide)).2.2.2.1 retreat_script ⟨rfl, rfl, rfl, rfl, rfl⟩,
   (control_throttle demo_params flat_level march_script (fun _ d => d) 3 scripted_actor
      (by decide) rfl rfl (fun _ d => throttle_kept_refl d) 2 (by decide)).1.1.trans (by decide),
   (((control_throttle demo_params flat_level march_script (fun _ d => d) 3 scripted_actor
      (by decide) rfl rfl (fun _ d => throttle_kept_refl d) 2 (by decide)).2.1
      (by decide)).2.1 _ rfl).trans (by decide),
   (((control_throttle demo_params flat_level march_script (fun _ d => d) 3 scripted_actor
      (by decide) rfl rfl (fun _ d => throttle_kept_refl d) 2 (by decide)).2.1
      (by decide)).2.2 _ rfl).trans (by decide),
   ((control_throttle demo_params flat_level march_script (fun _ d => d) 3 scripted_actor
      (by decide) rfl rfl (fun _ d => throttle_kept_refl d) 3 (by decide)).2.2.1
      (by decide)).2.1.trans (by decide),
   (congrArg (fun d : character => d.velocity_x_)
     ((control_throttle demo_params flat_level march_script (fun _ d => d) 3 scripted_actor
      (by decide) rfl rfl (fun _ d => throttle_kept_refl d) 3 (by decide)).2.2.1
      (by decide)).2.2.2.2).trans (by decide),
   (congrArg (fun d : character => d.frame_id_)
     (control_throttle demo_params flat_level march_script (fun _ d => d) 3 scripted_actor
      (by decide) rfl rfl (fun _ d => throttle_kept_refl d) 3 (by decide)).2.2.2).trans
     (by decide)⟩

/-! ## The position expressions -/

/-- C17, as stated, fails.  With the frequency 10 the first control tick leaves
the formula counter at 1, and yet the xpos and ypos expressions are executed and
override the position (lines 1151 to 1157 carry no test of the counter); the
second tick, with the counter at 2, overrides it again. -/
theorem position_override_not_throttled :
    demo_actor.formula_test_frequency_ = 10 ∧ demo_actor.time_since_last_formula_ = 0 ∧
    (demo_actor.x_ = 100 ∧ demo_actor.y_ = 68) ∧
    (demo_actor.control demo_params flat_level drift_script).time_since_last_formula_ = 1 ∧
    (demo_actor.control demo_params flat_level drift_script).x_ = 107 ∧
    (demo_actor.control demo_params flat_level drift_script).y_ = 65 ∧
    (character.control_run demo_params flat_level drift_script (fun _ d => d) 2
      demo_actor).time_since_last_formula_ = 2 ∧
    (character.control_run demo_params flat_level drift_script (fun _ d => d) 2
      demo_actor).x_ = 114 :=
  ⟨rfl, rfl, ⟨rfl, rfl⟩, by decide, by decide, by decide, by decide, by decide⟩

/-- C17, amended.  The position expressions are not throttled: whatever the
frequency and the formula counter, every control call that is not suppressed
executes the xpos expression, if the script has one, against the actor as the
walk and jump blocks left it and sets x to its value, and then executes the ypos
expression, if the script has one, and sets y to its value. -/
theorem position_override_every_tick (P : params) (lvl : level) (F : formulas)
    (c : character) (hact : ¬ c.suppressed) :
    (∀ fx, F.xpos_formula_ = some fx →
      (c.control P lvl F).x_ = fx (character.jump_block P lvl F
        (character.walk_block P lvl F (character.eval_fly F c.count_formula_tick)))) ∧
    (∀ fy, F.ypos_formula_ = some fy →
      (c.control P lvl F).y_ = fy (character.xpos_block F (character.jump_block P lvl F
        (character.walk_block P lvl F (character.eval_fly F c.count_formula_tick))))) := by
  rw [control_active P lvl F c hact]
  generalize character.jump_block P lvl F
    (character.walk_block P lvl F (character.eval_fly F c.count_formula_tick)) = s
  constructor
  · intro fx hx
    unfold character.ypos_block character.xpos_block
    rw [hx]
    cases F.ypos_formula_ <;> rfl
  · intro fy hy
    unfold character.ypos_block
    rw [hy]
    rfl

theorem position_override_every_tick_witness :
    (demo_actor.control demo_params flat_level drift_script).x_ = 100 + 7 ∧
    (demo_actor.control demo_params flat_level drift_script).y_ = 68 - 3 :=
  ⟨((position_override_every_tick demo_params flat_level drift_script demo_actor
      (by decide)).1 _ rfl).trans (by decide),
   ((position_override_every_tick demo_params flat_level drift_script demo_actor
      (by decide)).2 _ rfl).trans (by decide)⟩

/-! ## The fly expression -/

/-- C18, as stated, fails.  A scripted actor with a fly expression and no walk
expression has the fly expression executed (the result -50 is cached) but no fly
intent issued: the call of `fly` sits inside the block of the walk expression
(line 1134), so the velocity and the frame stay as they are.  And with a walk
expression of value -1 the fly intent goes right (`fly(lvl, walk_result_ < 0,
...)`), while the walk intent for the same value goes left (line 1136). -/
theorem fly_without_walk_is_idle :
    (eager_actor.control demo_params flat_level hover_script).fly_result_ = -50 ∧
    (eager_actor.control demo_params flat_level hover_script).velocity_y_ = 0 ∧
    (eager_actor.control demo_params flat_level hover_script).current_frame_ = .stand ∧
    (eager_actor.fly demo_params flat_level true (-50)).velocity_y_ = -50 ∧
    (eager_actor.fly demo_params flat_level false (-50)).velocity_y_ = -50 ∧
    ((eager_actor.control demo_params flat_level glide_script).velocity_x_ = 20 ∧
      (eager_actor.control demo_params flat_level glide_script).face_right_ = true ∧
      (eager_actor.walk demo_params flat_level false).face_right_ = false ∧
      (eager_actor.walk demo_params flat_level false).velocity_x_ = -200) :=
  ⟨by decide, by decide, by decide, by decide, by decide,
    ⟨by decide, by decide, by decide, by decide⟩⟩

/-- C18, amended.  For a scripted actor that has a fly expression and a walk
expression, each control tick that is not suppressed issues, in the block of the
walk expression, the fly intent with lift equal to the cached fly result, and
not the walk intent.  For a scripted actor that has a fly expression and no walk
expression, the fly expression is executed on its schedule and no fly or walk
intent is issued. -/
theorem fly_takes_precedence (P : params) (lvl : level) (F : formulas) (c : character)
    (hact : ¬ c.suppressed) (fl : character → Int) (hfl : F.fly_formula_ = some fl) :
    c.control P lvl F = character.ypos_block F (character.xpos_block F
      (character.jump_block P lvl F
        (character.walk_block P lvl F (character.eval_fly F c.count_formula_tick)))) ∧
    (character.eval_fly F c.count_formula_tick).fly_result_ =
      (if c.count_formula_tick.time_since_last_formula_ = 0 then fl c.count_formula_tick
       else c.fly_result_) ∧
    (∀ fw, F.walk_formula_ = some fw → ∃ move_right,
      character.walk_block P lvl F (character.eval_fly F c.count_formula_tick) =
        character.fly P lvl
          (character.eval_walk fw (character.eval_fly F c.count_formula_tick)) move_right
          (character.eval_fly F c.count_formula_tick).fly_result_) ∧
    (F.walk_formula_ = none →
      character.walk_block P lvl F (character.eval_fly F c.count_formula_tick) =
        character.eval_fly F c.count_formula_tick) := by
  refine ⟨control_active P lvl F c hact, ?_, ?_, ?_⟩
  · unfold character.eval_fly
    rw [hfl]
    simp only
    split <;> rfl
  · intro fw hw
    refine ⟨decide ((character.eval_walk fw
      (character.eval_fly F c.count_formula_tick)).walk_result_ < 0), ?_⟩
    unfold character.walk_block character.issue_walk
    rw [hw, hfl]
    simp only [Option.isSome_some, if_true]
    rw [(eval_walk_fields fw _).2.2.1]
  · intro hw
    unfold character.walk_block
    rw [hw]

theorem fly_takes_precedence_witness :
    (eager_actor.control demo_params flat_level glide_script).velocity_y_ = -50 ∧
    (eager_actor.control demo_params flat_level hover_script).velocity_y_ = 0 :=
  ⟨by
     obtain ⟨h1, -, h3, -⟩ := fly_takes_precedence demo_params flat_level glide_script
       eager_actor (by decide) _ rfl
     obtain ⟨b, hb⟩ := h3 _ rfl
     rw [h1, hb]
     cases b <;> decide,
   by
     obtain ⟨h1, -, -, h4⟩ := fly_takes_precedence demo_params flat_level hover_script
       eager_actor (by decide) _ rfl
     rw [h1, h4 rfl]
     decide⟩

/-! ## Serialization -/

theorem digit_value (d : Nat) (h : d < 10) : (Nat.digitChar d).toNat - 48 = d := by
  interval_cases d <;> rfl

theorem digit_ne_minus (d : Nat) (h : d < 10) : Nat.digitChar d ≠ '-' := by
  interval_cases d <;> decide

/-- Reading the digits that `Nat.toDigitsCore` puts in front of `ds`. -/
theorem parse_toDigitsCore : ∀ (fuel n : Nat) (ds : List Char), n < fuel →
    List.foldl (fun acc ch => acc * 10 + (ch.toNat - 48)) 0 (Nat.toDigitsCore 10 fuel n ds) =
      List.foldl (fun acc ch => acc * 10 + (ch.toNat - 48)) n ds := by
  intro fuel
  induction fuel with
  | zero => intro n ds h; omega
  | succ fuel ih =>
    intro n ds h
    unfold Nat.toDigitsCore
    simp only
    split
    · rename_i h0
      rw [List.foldl_cons, digit_value _ (Nat.mod_lt n (by decide))]
      congr 1
      omega
    · rename_i h0
      rw [ih (n / 10) _ (by omega), List.foldl_cons, digit_value _ (Nat.mod_lt n (by decide))]
      congr 1
      omega

theorem toDigitsCore_head : ∀ (fuel n : Nat) (ds : List Char), n < fuel →
    ∃ d, d < 10 ∧ ∃ rest, Nat.toDigitsCore 10 fuel n ds = Nat.digitChar d :: rest := by
  intro fuel
  induction fuel with
  | zero => intro n ds h; omega
  | succ fuel ih =>
    intro n ds h
    unfold Nat.toDigitsCore
    simp only
    split
    · exact ⟨n % 10, Nat.mod_lt n (by decide), ds, rfl⟩
    · exact ih (n / 10) _ (by omega)

theorem parse_nat_toDigits (m : Nat) : parse_nat (Nat.toDigits 10 m) = m := by
  unfold parse_nat Nat.toDigits
  rw [parse_toDigitsCore (m + 1) m [] (by omega)]
  rfl

/-- The text of a number is not empty. -/
theorem format_int_data (n : Int) : (format_int n).data ≠ [] := by
  cases n with
  | ofNat m =>
    obtain ⟨d, -, rest, h⟩ := toDigitsCore_head (m + 1) m [] (by omega)
    show Nat.toDigits 10 m ≠ []
    unfold Nat.toDigits
    rw [h]
    exact List.cons_ne_nil _ _
  | negSucc m => exact List.cons_ne_nil _ _

/-- Reading the decimal text of an integer gives the integer back. -/
theorem parse_format_int (n : Int) : parse_int (format_int n) = n := by
  cases n with
  | ofNat m =>
    obtain ⟨d, hd, rest, h⟩ := toDigitsCore_head (m + 1) m [] (by omega)
    have hdata : (format_int (Int.ofNat m)).data = Nat.digitChar d :: rest := h
    have hval := parse_nat_toDigits m
    unfold Nat.toDigits at hval
    rw [h] at hval
    unfold parse_int
    rw [hdata]
    simp only [digit_ne_minus d hd, if_false, hval]
    rfl
  | negSucc m =>
    have hdata : (format_int (Int.negSucc m)).data = '-' :: Nat.toDigits 10 (m + 1) := rfl
    unfold parse_int
    rw [hdata]
    simp only [if_true, parse_nat_toDigits]
    rfl

theorem format_int_eq_toString (n : Int) : format_int n = toString n := by
  cases n <;> rfl

theorem find_filter_other (k k' : String) (h : k' ≠ k) :
    ∀ l : List (String × String),
      (l.filter (fun kv => !(kv.1 == k))).find? (fun kv => kv.1 == k') =
        l.find? (fun kv => kv.1 == k') := by
  intro l
  induction l with
  | nil => rfl
  | cons x l ih =>
    by_cases hx : x.1 = k
    · have h1 : (x.1 == k) = true := by simpa using hx
      have h2 : (x.1 == k') = false := by
        simp only [beq_eq_false_iff_ne, ne_eq]
        rw [hx]
        exact fun e => h e.symm
      rw [List.filter_cons, List.find?_cons]
      simp only [h1, h2, Bool.not_true]
      exact ih
    · have h1 : (x.1 == k) = false := by simpa using hx
      rw [List.filter_cons]
      simp only [h1, Bool.not_false, if_true, List.find?_cons]
      rw [ih]

theorem any_filter_other (k k' : String) (h : k' ≠ k) :
    ∀ l : List (String × String),
      (l.filter (fun kv => !(kv.1 == k))).any (fun kv => kv.1 == k') =
        l.any (fun kv => kv.1 == k') := by
  intro l
  induction l with
  | nil => rfl
  | cons x l ih =>
    by_cases hx : x.1 = k
    · have h1 : (x.1 == k) = true := by simpa using hx
      have h2 : (x.1 == k') = false := by
        simp only [beq_eq_false_iff_ne, ne_eq]
        rw [hx]
        exact fun e => h e.symm
      rw [List.filter_cons, List.any_cons]
      simp only [h1, h2, Bool.not_true, Bool.false_or]
      exact ih
    · have h1 : (x.1 == k) = false := by simpa using hx
      rw [List.filter_cons]
      simp only [h1, Bool.not_false, if_true, List.any_cons]
      rw [ih]

theorem attr_set_attr (n : wml_node) (k v k' : String) :
    (n.set_attr k v).attr k' = if k' = k then v else n.attr k' := by
  unfold wml_node.attr wml_node.set_attr
  by_cases h : k' = k
  · simp [h]
  · have h2 : (k == k') = false := by simpa using fun e : k = k' => h e.symm
    simp only [List.find?_cons, h2, if_neg h]
    rw [find_filter_other k k' h]

theorem has_attr_set_attr (n : wml_node) (k v k' : String) :
    (n.set_attr k v).has_attr k' = (decide (k' = k) || n.has_attr k') := by
  unfold wml_node.has_attr wml_node.set_attr
  by_cases h : k' = k
  · simp [h]
  · have h2 : (k == k') = false := by simpa using fun e : k = k' => h e.symm
    simp only [List.any_cons, h2, Bool.false_or, h, decide_False]
    rw [any_filter_other k k' h]

theorem attr_set_attr_if (n : wml_node) (b : Bool) (k v k' : String) :
    (n.set_attr_if b k v).attr k' = if b = true ∧ k' = k then v else n.attr k' := by
  unfold wml_node.set_attr_if
  cases b
  · simp
  · simp [attr_set_attr]

theorem has_attr_set_attr_if (n : wml_node) (b : Bool) (k v k' : String) :
    (n.set_attr_if b k v).has_attr k' = ((b && decide (k' = k)) || n.has_attr k') := by
  unfold wml_node.set_attr_if
  cases b
  · simp
  · simp [has_attr_set_attr]

theorem attr_set_attr_opt (n : wml_node) (o : Option String) (k k' : String) (h : k' ≠ k) :
    (n.set_attr_opt k o).attr k' = n.attr k' := by
  unfold wml_node.set_attr_opt
  cases o with
  | none => rfl
  | some v => simp [attr_set_attr, h]

theorem has_attr_set_attr_opt (n : wml_node) (o : Option String) (k k' : String)
    (h : k' ≠ k) : (n.set_attr_opt k o).has_attr k' = n.has_attr k' := by
  unfold wml_node.set_attr_opt
  cases o with
  | none => rfl
  | some v => simp [has_attr_set_attr, h]

theorem write_attr_fixed (c : character) (S : formula_texts) :
    (c.write S).attr "type" = c.type_.id ∧
    (c.write S).attr "face_right" = (if c.face_right_ then "true" else "false") ∧
    (c.write S).attr "x" = format_int c.x_ ∧
    (c.write S).attr "y" = format_int c.y_ ∧
    (c.write S).attr "velocity_x" = format_int c.velocity_x_ ∧
    (c.write S).attr "velocity_y" = format_int c.velocity_y_ ∧
    (c.write S).attr "formula_test_frequency" = format_int c.formula_test_frequency_ := by
  refine ⟨?_, ?_, ?_, ?_, ?_, ?_, ?_⟩ <;>
  simp [character.write, character.write_flags, formula_texts.write, character.write_stats,
    character.write_fixed, attr_set_attr, attr_set_attr_if, attr_set_attr_opt]

theorem attr_empty (s k : String) : ({ name := s, attrs := [] } : wml_node).attr k = "" := rfl

theorem has_attr_empty (s k : String) :
    ({ name := s, attrs := [] } : wml_node).has_attr k = false := rfl

theorem write_attr_stats (c : character) (S : formula_texts) :
    (c.write S).attr "hitpoints" =
      (if c.hitpoints_ ≠ c.type_.hitpoints_ then format_int c.hitpoints_ else "") ∧
    (c.write S).attr "max_hitpoints" =
      (if c.max_hitpoints_ ≠ c.type_.hitpoints_ then format_int c.max_hitpoints_ else "") ∧
    (c.write S).attr "walk_speed" =
      (if c.walk_speed_ ≠ c.type_.walk_ then format_int c.walk_speed_ else "") ∧
    (c.write S).attr "jump_power" =
      (if c.jump_power_ ≠ c.type_.jump_ then format_int c.jump_power_ else "") ∧
    (c.write S).attr "boost_power" =
      (if c.boost_power_ ≠ c.type_.boost_ then format_int c.boost_power_ else "") ∧
    (c.write S).attr "glide_speed" =
      (if c.glide_speed_ ≠ c.type_.glide_ then format_int c.glide_speed_ else "") := by
  refine ⟨?_, ?_, ?_, ?_, ?_, ?_⟩ <;>
  simp [character.write, character.write_flags, formula_texts.write, character.write_stats,
    character.write_fixed, attr_set_attr, attr_set_attr_if, attr_set_attr_opt, attr_empty]

/-- A stat is among the attributes of `write` exactly when it differs from the
value of the archetype. -/
theorem write_has_stats (c : character) (S : formula_texts) :
    ((c.write S).has_attr "hitpoints" = true ↔ c.hitpoints_ ≠ c.type_.hitpoints_) ∧
    ((c.write S).has_attr "max_hitpoints" = true ↔ c.max_hitpoints_ ≠ c.type_.hitpoints_) ∧
    ((c.write S).has_attr "walk_speed" = true ↔ c.walk_speed_ ≠ c.type_.walk_) ∧
    ((c.write S).has_attr "jump_power" = true ↔ c.jump_power_ ≠ c.type_.jump_) ∧
    ((c.write S).has_attr "boost_power" = true ↔ c.boost_power_ ≠ c.type_.boost_) ∧
    ((c.write S).has_attr "glide_speed" = true ↔ c.glide_speed_ ≠ c.type_.glide_) := by
  refine ⟨?_, ?_, ?_, ?_, ?_, ?_⟩ <;>
  simp [character.write, character.write_flags, formula_texts.write, character.write_stats,
    character.write_fixed, has_attr_set_attr, has_attr_set_attr_if, has_attr_set_attr_opt,
    has_attr_empty]

/-- Reading a number that `write` stored, or that it left out because it is the
default. -/
theorem get_int_stored (n : wml_node) (k : String) (v dflt : Int)
    (h : n.attr k = format_int v ∨ (n.attr k = "" ∧ v = dflt)) : n.get_int k dflt = v := by
  unfold wml_node.get_int
  rcases h with h | ⟨h, e⟩
  · rw [h, if_neg (format_int_data v), parse_format_int]
  · rw [h, e]
    rfl

theorem attr_of_not_has (n : wml_node) (k : String) (h : n.has_attr k = false) :
    n.attr k = "" := by
  unfold wml_node.has_attr at h
  unfold wml_node.attr
  have : n.attrs.find? (fun kv => kv.1 == k) = none := by
    rw [List.find?_eq_none]
    intro x hx
    have := (List.any_eq_false.1 h) x hx
    simpa using this
  rw [this]

theorem get_int_absent (n : wml_node) (k : String) (dflt : Int) (h : n.has_attr k = false) :
    n.get_int k dflt = dflt := by
  unfold wml_node.get_int
  rw [attr_of_not_has n k h]
  rfl

/-- C12: for an actor `a` whose archetype is registered under its id, constructing
an actor from `write(a)` succeeds and yields the archetype, facing, position,
velocity, formula test frequency, hitpoints, max_hitpoints, walk_speed,
jump_power, boost_power and glide_speed of `a`; `write(a)` contains a stat
attribute exactly when the stat differs from the value of the archetype
(max_hitpoints being compared with the archetype's hitpoints, as line 88 does);
and from any node without the attribute of a stat the constructor takes the
value of the archetype. -/
theorem write_round_trip (types : String → Option character_type) (a : character)
    (S : formula_texts) (hreg : types a.type_.id = some a.type_) :
    (∃ b T, character.from_node types (a.write S) = .ok (b, T) ∧
      b.type_ = a.type_ ∧ b.face_right_ = a.face_right_ ∧ b.x_ = a.x_ ∧ b.y_ = a.y_ ∧
      b.velocity_x_ = a.velocity_x_ ∧ b.velocity_y_ = a.velocity_y_ ∧
      b.formula_test_frequency_ = a.formula_test_frequency_ ∧
      b.hitpoints_ = a.hitpoints_ ∧ b.max_hitpoints_ = a.max_hitpoints_ ∧
      b.walk_speed_ = a.walk_speed_ ∧ b.jump_power_ = a.jump_power_ ∧
      b.boost_power_ = a.boost_power_ ∧ b.glide_speed_ = a.glide_speed_) ∧
    (((a.write S).has_attr "hitpoints" = true ↔ a.hitpoints_ ≠ a.type_.hitpoints_) ∧
      ((a.write S).has_attr "max_hitpoints" = true ↔ a.max_hitpoints_ ≠ a.type_.hitpoints_) ∧
      ((a.write S).has_attr "walk_speed" = true ↔ a.walk_speed_ ≠ a.type_.walk_) ∧
      ((a.write S).has_attr "jump_power" = true ↔ a.jump_power_ ≠ a.type_.jump_) ∧
      ((a.write S).has_attr "boost_power" = true ↔ a.boost_power_ ≠ a.type_.boost_) ∧
      ((a.write S).has_attr "glide_speed" = true ↔ a.glide_speed_ ≠ a.type_.glide_)) ∧
    (∀ (node : wml_node) (t : character_type), types (node.attr "type") = some t →
      ∃ b T, character.from_node types node = .ok (b, T) ∧ b.type_ = t ∧
        (node.has_attr "hitpoints" = false → b.hitpoints_ = t.hitpoints_) ∧
        (node.has_attr "max_hitpoints" = false → b.max_hitpoints_ = t.hitpoints_) ∧
        (node.has_attr "walk_speed" = false → b.walk_speed_ = t.walk_) ∧
        (node.has_attr "jump_power" = false → b.jump_power_ = t.jump_) ∧
        (node.has_attr "boost_power" = false → b.boost_power_ = t.boost_) ∧
        (node.has_attr "glide_speed" = false → b.glide_speed_ = t.glide_)) := by
  obtain ⟨f1, f2, f3, f4, f5, f6, f7⟩ := write_attr_fixed a S
  obtain ⟨s1, s2, s3, s4, s5, s6⟩ := write_attr_stats a S
  have stat : ∀ (k : String) (v dflt : Int),
      (a.write S).attr k = (if v ≠ dflt then format_int v else "") →
      (a.write S).get_int k dflt = v := by
    intro k v dflt h
    apply get_int_stored
    by_cases e : v = dflt
    · right
      rw [h, if_neg (not_not.2 e)]
      exact ⟨rfl, e⟩
    · left
      rw [h, if_pos e]
  refine ⟨?_, write_has_stats a S, ?_⟩
  · unfold character.from_node
    rw [f1, hreg]
    refine ⟨_, _, rfl, rfl, ?_, ?_, ?_, ?_, ?_, ?_, ?_, ?_, ?_, ?_, ?_, ?_⟩
    · show (a.write S).get_bool "face_right" = a.face_right_
      unfold wml_node.get_bool
      rw [f2]
      cases a.face_right_ <;> decide
    · exact get_int_stored _ _ _ _ (Or.inl f3)
    · exact get_int_stored _ _ _ _ (Or.inl f4)
    · exact get_int_stored _ _ _ _ (Or.inl f5)
    · exact get_int_stored _ _ _ _ (Or.inl f6)
    · exact get_int_stored _ _ _ _ (Or.inl f7)
    · exact stat _ _ _ s1
    · exact stat _ _ _ s2
    · exact stat _ _ _ s3
    · exact stat _ _ _ s4
    · exact stat _ _ _ s5
    · exact stat _ _ _ s6
  · intro node t ht
    unfold character.from_node
    rw [ht]
    exact ⟨_, _, rfl, rfl, get_int_absent node _ _, get_int_absent node _ _,
      get_int_absent node _ _, get_int_absent node _ _, get_int_absent node _ _,
      get_int_absent node _ _⟩

theorem write_round_trip_witness :
    demo_types tuned_actor.type_.id = some tuned_actor.type_ ∧
    (tuned_actor.write no_texts).attr "walk_speed" = "350" ∧
    (tuned_actor.write no_texts).has_attr "jump_power" = false ∧
    (∃ b T, character.from_node demo_types (tuned_actor.write no_texts) = .ok (b, T) ∧
      b.x_ = -12 ∧ b.walk_speed_ = 350 ∧ b.jump_power_ = 1000) :=
  ⟨by rfl, by decide, by decide,
   (write_round_trip demo_types tuned_actor no_texts (by rfl)).1.elim
     (fun b h => h.elim (fun T h => ⟨b, T, h.1, h.2.2.2.1.trans (by decide),
       h.2.2.2.2.2.2.2.2.2.2.1.trans (by decide),
       h.2.2.2.2.2.2.2.2.2.2.2.1.trans (by decide)⟩))⟩

/-! ## Missing frames -/

theorem ptr_none_of_not_isSome (t : character_type) (tag : frame_tag)
    (h : ¬ (t.ptr tag).isSome = true) : t.ptr tag = none := by
  cases hx : t.ptr tag with
  | none => rfl
  | some v => rw [hx] at h; exact absurd rfl h

/-- C21: `change_frame` with an absent (null) frame is the identity on the state;
hence `crouch`, `lookup`, `run` and `spring_off_head` return the state unchanged
when the archetype lacks their target frame, and so does `attack` when the frame
its branch selects is absent: the attack frame on the ground (the run-attack and
up-attack branches are only taken when their frame exists, so an absent
run-attack frame just skips that branch), the jump-attack frame in the air. -/
theorem missing_frame_no_transition (P : params) (lvl : level) (c : character) :
    c.change_frame none = c ∧
    (c.type_.crouch_frame = none → c.crouch P lvl = c) ∧
    (c.type_.lookup_frame = none → c.lookup P lvl = c) ∧
    (c.type_.run_frame = none → ∀ b, c.run b = c) ∧
    (c.type_.spring_frame = none → ∀ e, c.spring_off_head e = c) ∧
    (∀ look_up : Bool, c.type_.attack_frame = none → c.is_standing P lvl = true →
      ¬ (c.type_.run_attack_frame.isSome = true ∧ some c.current_frame_ = c.type_.run_frame) →
      ¬ (c.type_.up_attack_frame.isSome = true ∧ look_up = true) →
      c.attack P lvl look_up = c) ∧
    (∀ look_up : Bool, c.type_.jump_attack_frame = none → c.is_standing P lvl = false →
      c.attack P lvl look_up = c) ∧
    (∀ look_up : Bool, c.type_.run_attack_frame = none → c.is_standing P lvl = true →
      c.attack P lvl look_up =
        if c.type_.up_attack_frame.isSome = true ∧ look_up = true then
          c.change_frame c.type_.up_attack_frame
        else c.change_frame c.type_.attack_frame) := by
  refine ⟨rfl, ?_, ?_, ?_, ?_, ?_, ?_, ?_⟩
  · intro h
    unfold character.crouch
    rw [h]
    split <;> rfl
  · intro h
    unfold character.lookup
    rw [h]
    split <;> rfl
  · intro h b
    unfold character.run
    rw [h]
    split <;> rfl
  · intro h e
    unfold character.spring_off_head
    rw [h]
    rfl
  · intro look_up h hs h1 h2
    unfold character.attack
    rw [hs, if_pos rfl, if_neg h1, if_neg h2, h]
    rfl
  · intro look_up h hs
    unfold character.attack
    rw [hs, h]
    simp only [Bool.false_eq_true, if_false]
    split <;> rfl
  · intro look_up h hs
    unfold character.attack
    rw [hs, if_pos rfl, if_neg]
    rw [h]
    exact fun a => absurd a.1 (by decide)

theorem missing_frame_no_transition_witness :
    bare_actor.crouch demo_params flat_level = bare_actor ∧
    bare_actor.run true = bare_actor ∧
    bare_actor.attack demo_params flat_level true = bare_actor ∧
    (calm_runner.attack demo_params flat_level false).current_frame_ = .attack :=
  ⟨(missing_frame_no_transition demo_params flat_level bare_actor).2.1 rfl,
   (missing_frame_no_transition demo_params flat_level bare_actor).2.2.2.1 rfl true,
   (missing_frame_no_transition demo_params flat_level bare_actor).2.2.2.2.2.1 true rfl
     (by decide) (by decide) (by decide),
   (congrArg (fun d : character => d.current_frame_)
     ((missing_frame_no_transition demo_params flat_level calm_runner).2.2.2.2.2.2.2 false rfl
       (by decide))).trans (by decide)⟩

/-! ## Postconditions of a frame change and of a hit -/

theorem change_frame_frame_id (c : character) (nf : frame_tag)
    (h : some c.current_frame_ ≠ c.type_.die_frame) :
    (c.change_frame (some nf)).frame_id_ = c.frame_id_ + 1 ∧
    (c.change_frame (some nf)).face_right_ = c.face_right_ ∧
    (c.change_frame (some nf)).hitpoints_ = c.hitpoints_ ∧
    (c.change_frame (some nf)).invincible_ = c.invincible_ := by
  unfold character.change_frame
  simp only [h, if_false]
  by_cases h1 : (c.type_.deref nf).velocity_x ≠ 0 <;>
  by_cases h2 : (c.type_.deref nf).velocity_y ≠ 0 <;>
  simp [h1, h2, character.set_pos, character.log]

/-- C22: for an actor that is not in the die frame and a frame `f` that the
archetype has, after `change_frame(f)` the current frame is `f`, `time_in_frame`
is 0, `frame_id` is one greater than before (also when `f` was already the
current frame), `velocity_x` is the impulse `f` declares times the facing sign
when that impulse is nonzero and unchanged otherwise, and `velocity_y` is the
impulse `f` declares when nonzero and unchanged otherwise. -/
theorem change_frame_postcondition (c : character) (f : frame_tag)
    (hd : some c.current_frame_ ≠ c.type_.die_frame) (hf : (c.type_.slot f).isSome = true) :
    (c.change_frame (c.type_.ptr f)).current_frame_ = f ∧
    (c.change_frame (c.type_.ptr f)).time_in_frame_ = 0 ∧
    (c.change_frame (c.type_.ptr f)).frame_id_ = c.frame_id_ + 1 ∧
    (c.change_frame (c.type_.ptr f)).velocity_x_ =
      (if (c.type_.deref f).velocity_x ≠ 0 then
        (c.type_.deref f).velocity_x * (if c.face_right_ then 1 else -1)
      else c.velocity_x_) ∧
    (c.change_frame (c.type_.ptr f)).velocity_y_ =
      (if (c.type_.deref f).velocity_y ≠ 0 then (c.type_.deref f).velocity_y
      else c.velocity_y_) ∧
    (c.change_frame (c.type_.ptr f)).face_right_ = c.face_right_ ∧
    (c.type_.slot f = some (c.type_.deref f)) := by
  have hp : c.type_.ptr f = some f := by
    unfold character_type.ptr
    rw [if_pos hf]
  rw [hp]
  refine ⟨change_frame_current c f hd, change_frame_time c f hd, (change_frame_frame_id c f hd).1,
    change_frame_velocity_x c f hd, (change_frame_applied c f hd).2.2,
    (change_frame_frame_id c f hd).2.1, ?_⟩
  unfold character_type.deref
  cases hs : c.type_.slot f with
  | none => rw [hs] at hf; exact absurd hf (by decide)
  | some v => rfl

theorem change_frame_postcondition_witness :
    (impulse_actor.change_frame impulse_actor.type_.walk_frame).current_frame_ = .walk ∧
    (impulse_actor.change_frame impulse_actor.type_.walk_frame).velocity_x_ = 150 ∧
    (left_facing_actor.change_frame left_facing_actor.type_.get_frame).frame_id_ = 0 + 1 :=
  ⟨(change_frame_postcondition impulse_actor .walk (by decide) (by decide)).1,
   (change_frame_postcondition impulse_actor .walk (by decide) (by decide)).2.2.2.1.trans
     (by decide),
   (change_frame_postcondition left_facing_actor .stand (by decide) (by decide)).2.2.1⟩

theorem notify_hitter_frame (lvl : level) (c : character) :
    (c.notify_hitter lvl).type_ = c.type_ ∧
    (c.notify_hitter lvl).current_frame_ = c.current_frame_ ∧
    (c.notify_hitter lvl).hitpoints_ = c.hitpoints_ := by
  unfold character.notify_hitter
  split
  · split <;> exact ⟨rfl, rfl, rfl⟩
  · exact ⟨rfl, rfl, rfl⟩

/-- C23: for an actor with `invincible == 0` that is not in the die frame,
`get_hit` returns, reduces the hitpoints by exactly one, sets `invincible` to the
invincibility duration, and forces the frame: the die frame if the new hitpoints
are `<= 0` and the archetype has a die frame, otherwise the gethit frame if the
archetype has one, otherwise the frame is unchanged. -/
theorem get_hit_postcondition (P : params) (lvl : level) (c : character)
    (hi : c.invincible_ = 0) (hd : some c.current_frame_ ≠ c.type_.die_frame) :
    ∃ d, c.get_hit P lvl = .ok d ∧
      d.hitpoints_ = c.hitpoints_ - 1 ∧ d.invincible_ = P.invincibility_duration ∧
      d.current_frame_ =
        (if c.hitpoints_ - 1 ≤ 0 ∧ c.type_.die_frame.isSome = true then .die
         else if c.type_.gethit_frame.isSome = true then .gethit
         else c.current_frame_) := by
  have e := get_hit_ok P lvl c hi
  obtain ⟨-, -, g3, g4, -⟩ := get_hit_fields P lvl c _ e
  refine ⟨_, e, g4, g3, ?_⟩
  obtain ⟨n1, n2, n3⟩ := notify_hitter_frame lvl (c.log .get_hit)
  have m1 : (character.lose_hitpoint P (character.notify_hitter lvl (c.log .get_hit))).type_ =
      c.type_ := n1
  have m2 : (character.lose_hitpoint P
      (character.notify_hitter lvl (c.log .get_hit))).current_frame_ = c.current_frame_ := n2
  have m3 : (character.lose_hitpoint P
      (character.notify_hitter lvl (c.log .get_hit))).hitpoints_ = c.hitpoints_ - 1 := by
    show (character.notify_hitter lvl (c.log .get_hit)).hitpoints_ - 1 = _
    rw [n3]
    rfl
  generalize character.lose_hitpoint P (character.notify_hitter lvl (c.log .get_hit)) = m
    at m1 m2 m3
  have hmd : some m.current_frame_ ≠ m.type_.die_frame := by
    rw [m1, m2]
    exact hd
  unfold character.hurt_frame
  rw [m1, m3]
  by_cases h1 : c.hitpoints_ - 1 ≤ 0 ∧ c.type_.die_frame.isSome = true
  · have hp : c.type_.die_frame = some .die := ptr_of_isSome _ _ h1.2
    rw [if_pos h1, if_pos h1, hp]
    exact change_frame_current m _ hmd
  · rw [if_neg h1, if_neg h1]
    by_cases h2 : c.type_.gethit_frame.isSome = true
    · have hp : c.type_.gethit_frame = some .gethit := ptr_of_isSome _ _ h2
      rw [if_pos h2, if_pos h2, hp]
      exact change_frame_current m _ hmd
    · rw [if_neg h2, if_neg h2]
      exact m2

theorem get_hit_postcondition_witness :
    (∃ d, frail_actor.get_hit demo_params flat_level = .ok d ∧ d.hitpoints_ = 0 ∧
      d.invincible_ = 10 ∧ d.current_frame_ = .die) ∧
    (∃ d, demo_actor.get_hit demo_params flat_level = .ok d ∧ d.hitpoints_ = 2 ∧
      d.current_frame_ = .gethit) ∧
    (∃ d, bare_actor.get_hit demo_params flat_level = .ok d ∧ d.current_frame_ = .walk) :=
  ⟨(get_hit_postcondition demo_params flat_level frail_actor rfl (by decide)).elim
     (fun d h => ⟨d, h.1, h.2.1.trans (by decide), h.2.2.1.trans (by decide),
       h.2.2.2.trans (by decide)⟩),
   (get_hit_postcondition demo_params flat_level demo_actor rfl (by decide)).elim
     (fun d h => ⟨d, h.1, h.2.1.trans (by decide), h.2.2.2.trans (by decide)⟩),
   (get_hit_postcondition demo_params flat_level bare_actor rfl (by decide)).elim
     (fun d h => ⟨d, h.1, h.2.2.2.trans (by decide)⟩)⟩

/-! ## The jump latch -/

/-- C24: with `last_jump` set, `jump()` starts no new jump: its only effect is
`velocity_y := velocity_y - boost_power` when `velocity_y < 0`, and it has no
effect at all when `velocity_y >= 0`; so `velocity_x`, the facing and the current
frame stay, and `velocity_y` is set neither to `-jump_power` nor to
`-jump_power*3/4`.  The latch is set by the interactive strategy after every
tick in which the jump input is held, and cleared otherwise (lines 1220 to
1229). -/
theorem jump_latched (P : params) (lvl : level) (c : character) (h : c.last_jump_ = true) :
    (c.jump P lvl =
      if c.velocity_y_ < 0 then c.set_velocity c.velocity_x_ (c.velocity_y_ - c.boost_power_)
      else c) ∧
    (c.jump P lvl).velocity_x_ = c.velocity_x_ ∧
    (c.jump P lvl).face_right_ = c.face_right_ ∧
    (c.jump P lvl).current_frame_ = c.current_frame_ ∧
    (c.jump P lvl).velocity_y_ =
      (if c.velocity_y_ < 0 then c.velocity_y_ - c.boost_power_ else c.velocity_y_) ∧
    (∀ K : controls, (c.pc_jump P lvl K).last_jump_ = K.jump_button) := by
  have e : c.jump P lvl =
      if c.velocity_y_ < 0 then c.set_velocity c.velocity_x_ (c.velocity_y_ - c.boost_power_)
      else c := by
    unfold character.jump
    rw [if_neg, if_neg]
    · intro a
      rw [h] at a
      exact absurd a.1 (by decide)
    · intro a
      rw [h] at a
      exact absurd a.1 (by decide)
  refine ⟨e, ?_, ?_, ?_, ?_, ?_⟩
  · rw [e]
    split <;> rfl
  · rw [e]
    split <;> rfl
  · rw [e]
    split <;> rfl
  · rw [e]
    split <;> rfl
  · intro K
    unfold character.pc_jump
    cases K.jump_button <;> rfl

theorem jump_latched_witness :
    (held_jumper.jump demo_params flat_level).velocity_y_ = -400 - 30 ∧
    held_stander.is_standing demo_params flat_level = true ∧
    (held_stander.jump demo_params flat_level).velocity_y_ = 0 ∧
    (demo_actor.jump demo_params flat_level).velocity_y_ = -1000 :=
  ⟨(jump_latched demo_params flat_level held_jumper rfl).2.2.2.2.1.trans (by decide),
   by decide,
   (jump_latched demo_params flat_level held_stander rfl).2.2.2.2.1.trans (by decide),
   by decide⟩

/-! ## Bounded step adjustment -/

/-- The loop of `try_to_make_standing` with its two moves written out. -/
theorem step_until_standing_two (P : params) (lvl : level) (dy : Int) (c : character) :
    character.step_until_standing P lvl dy 2 c =
      if c.is_standing P lvl then c
      else if (c.set_pos c.x_ (c.y_ + dy)).is_standing P lvl then c.set_pos c.x_ (c.y_ + dy)
      else c.set_pos c.x_ (c.y_ + dy + dy) := rfl

theorem set_pos_congr (c : character) (x : Int) {a b : Int} (h : a = b) :
    c.set_pos x a = c.set_pos x b := by rw [h]

theorem try_to_make_standing_unfold (P : params) (lvl : level) (c : character) :
    c.try_to_make_standing P lvl =
      if (character.step_until_standing P lvl 1 2 c).is_standing P lvl then
        character.step_until_standing P lvl 1 2 c
      else if (character.step_until_standing P lvl (-1) 2
          ((character.step_until_standing P lvl 1 2 c).set_pos
            (character.step_until_standing P lvl 1 2 c).x_
            ((character.step_until_standing P lvl 1 2 c).y_ - MaxStep))).is_standing P lvl then
        character.step_until_standing P lvl (-1) 2
          ((character.step_until_standing P lvl 1 2 c).set_pos
            (character.step_until_standing P lvl 1 2 c).x_
            ((character.step_until_standing P lvl 1 2 c).y_ - MaxStep))
      else
        (character.step_until_standing P lvl (-1) 2
          ((character.step_until_standing P lvl 1 2 c).set_pos
            (character.step_until_standing P lvl 1 2 c).x_
            ((character.step_until_standing P lvl 1 2 c).y_ - MaxStep))).set_pos
          (character.step_until_standing P lvl (-1) 2
            ((character.step_until_standing P lvl 1 2 c).set_pos
              (character.step_until_standing P lvl 1 2 c).x_
              ((character.step_until_standing P lvl 1 2 c).y_ - MaxStep))).x_
          ((character.step_until_standing P lvl (-1) 2
            ((character.step_until_standing P lvl 1 2 c).set_pos
              (character.step_until_standing P lvl 1 2 c).x_
              ((character.step_until_standing P lvl 1 2 c).y_ - MaxStep))).y_ + MaxStep) := rfl

/-- The six probes of `try_to_make_standing` in their order. -/
theorem try_to_make_standing_eq (P : params) (lvl : level) (c : character) :
    c.try_to_make_standing P lvl =
      if c.is_standing P lvl then c
      else if (c.set_pos c.x_ (c.y_ + 1)).is_standing P lvl then c.set_pos c.x_ (c.y_ + 1)
      else if (c.set_pos c.x_ (c.y_ + 2)).is_standing P lvl then c.set_pos c.x_ (c.y_ + 2)
      else if (c.set_pos c.x_ (c.y_ + -1)).is_standing P lvl then c.set_pos c.x_ (c.y_ + -1)
      else if (c.set_pos c.x_ (c.y_ + -2)).is_standing P lvl then c.set_pos c.x_ (c.y_ + -2)
      else if (c.set_pos c.x_ (c.y_ + -3)).is_standing P lvl then c.set_pos c.x_ (c.y_ + -3)
      else c := by
  rw [try_to_make_standing_unfold]
  by_cases h0 : c.is_standing P lvl = true
  · have e1 : character.step_until_standing P lvl 1 2 c = c := by
      rw [step_until_standing_two, if_pos h0]
    rw [e1, if_pos h0, if_pos h0]
  by_cases h1 : (c.set_pos c.x_ (c.y_ + 1)).is_standing P lvl = true
  · have e1 : character.step_until_standing P lvl 1 2 c = c.set_pos c.x_ (c.y_ + 1) := by
      rw [step_until_standing_two, if_neg h0, if_pos h1]
    rw [e1, if_pos h1, if_neg h0, if_pos h1]
  have e1 : character.step_until_standing P lvl 1 2 c = c.set_pos c.x_ (c.y_ + 2) := by
    rw [step_until_standing_two, if_neg h0, if_neg h1]
    exact set_pos_congr c _ (by ring)
  rw [e1, if_neg h0, if_neg h1]
  by_cases h2 : (c.set_pos c.x_ (c.y_ + 2)).is_standing P lvl = true
  · rw [if_pos h2, if_pos h2]
  rw [if_neg h2, if_neg h2]
  have e3 : (c.set_pos c.x_ (c.y_ + 2)).set_pos (c.set_pos c.x_ (c.y_ + 2)).x_
      ((c.set_pos c.x_ (c.y_ + 2)).y_ - MaxStep) = c.set_pos c.x_ (c.y_ + -1) :=
    set_pos_congr c _ (show c.y_ + 2 - 3 = c.y_ + -1 by ring)
  rw [e3]
  by_cases h3 : (c.set_pos c.x_ (c.y_ + -1)).is_standing P lvl = true
  · have e4 : character.step_until_standing P lvl (-1) 2 (c.set_pos c.x_ (c.y_ + -1)) =
        c.set_pos c.x_ (c.y_ + -1) := by
      rw [step_until_standing_two, if_pos h3]
    rw [e4, if_pos h3, if_pos h3]
  have s2 : (c.set_pos c.x_ (c.y_ + -1)).set_pos (c.set_pos c.x_ (c.y_ + -1)).x_
      ((c.set_pos c.x_ (c.y_ + -1)).y_ + -1) = c.set_pos c.x_ (c.y_ + -2) :=
    set_pos_congr c _ (show c.y_ + -1 + -1 = c.y_ + -2 by ring)
  have s3 : (c.set_pos c.x_ (c.y_ + -1)).set_pos (c.set_pos c.x_ (c.y_ + -1)).x_
      ((c.set_pos c.x_ (c.y_ + -1)).y_ + -1 + -1) = c.set_pos c.x_ (c.y_ + -3) :=
    set_pos_congr c _ (show c.y_ + -1 + -1 + -1 = c.y_ + -3 by ring)
  rw [if_neg h3]
  by_cases h4 : (c.set_pos c.x_ (c.y_ + -2)).is_standing P lvl = true
  · have e4 : character.step_until_standing P lvl (-1) 2 (c.set_pos c.x_ (c.y_ + -1)) =
        c.set_pos c.x_ (c.y_ + -2) := by
      rw [step_until_standing_two, if_neg h3, s2, if_pos h4]
    rw [e4, if_pos h4, if_pos h4]
  have e4 : character.step_until_standing P lvl (-1) 2 (c.set_pos c.x_ (c.y_ + -1)) =
      c.set_pos c.x_ (c.y_ + -3) := by
    rw [step_until_standing_two, if_neg h3, s2, if_neg h4, s3]
  rw [e4, if_neg h4]
  by_cases h5 : (c.set_pos c.x_ (c.y_ + -3)).is_standing P lvl = true
  · rw [if_pos h5, if_pos h5]
  · rw [if_neg h5, if_neg h5]
    show c.set_pos c.x_ (c.y_ + -3 + 3) = c
    rw [show c.y_ + -3 + 3 = c.y_ by ring]
    rfl

/-- C26: `try_to_make_standing` is total (its loops count down from a fixed
bound), leaves x unchanged and changes y by an offset in {-3, -2, -1, 0, +1, +2}:
it stops at the first offset in the order 0, +1, +2, -1, -2, -3 at which the
actor is ground-supported, and when the actor is supported at none of them the
actor is exactly as before; whenever y was changed the actor is ground-supported
afterwards. -/
theorem try_to_make_standing_bounded (P : params) (lvl : level) (c : character) :
    (c.try_to_make_standing P lvl =
      match c.first_supported_offset P lvl with
      | some k => c.set_pos c.x_ (c.y_ + k)
      | none => c) ∧
    (c.try_to_make_standing P lvl).x_ = c.x_ ∧
    (∃ k : Int, k ∈ [0, 1, 2, -1, -2, -3] ∧ (c.try_to_make_standing P lvl).y_ = c.y_ + k) ∧
    ((c.try_to_make_standing P lvl).y_ ≠ c.y_ →
      (c.try_to_make_standing P lvl).is_standing P lvl = true) ∧
    (c.first_supported_offset P lvl = none → c.try_to_make_standing P lvl = c) := by
  have e0 : c.set_pos c.x_ (c.y_ + 0) = c := by
    rw [add_zero]
    rfl
  have hspec : c.first_supported_offset P lvl =
      if c.is_standing P lvl then some 0
      else if (c.set_pos c.x_ (c.y_ + 1)).is_standing P lvl then some 1
      else if (c.set_pos c.x_ (c.y_ + 2)).is_standing P lvl then some 2
      else if (c.set_pos c.x_ (c.y_ + -1)).is_standing P lvl then some (-1)
      else if (c.set_pos c.x_ (c.y_ + -2)).is_standing P lvl then some (-2)
      else if (c.set_pos c.x_ (c.y_ + -3)).is_standing P lvl then some (-3)
      else none := by
    unfold character.first_supported_offset
    simp only [List.find?, e0]
    by_cases h0 : c.is_standing P lvl = true
    · simp [h0]
    by_cases h1 : (c.set_pos c.x_ (c.y_ + 1)).is_standing P lvl = true
    · simp [h0, h1]
    by_cases h2 : (c.set_pos c.x_ (c.y_ + 2)).is_standing P lvl = true
    · simp [h0, h1, h2]
    by_cases h3 : (c.set_pos c.x_ (c.y_ + -1)).is_standing P lvl = true
    · simp [h0, h1, h2, h3]
    by_cases h4 : (c.set_pos c.x_ (c.y_ + -2)).is_standing P lvl = true
    · simp [h0, h1, h2, h3, h4]
    by_cases h5 : (c.set_pos c.x_ (c.y_ + -3)).is_standing P lvl = true
    · simp [h0, h1, h2, h3, h4, h5]
    · simp [h0, h1, h2, h3, h4, h5]
  have hcode := try_to_make_standing_eq P lvl c
  by_cases h0 : c.is_standing P lvl = true
  · rw [if_pos h0] at hcode hspec
    rw [hcode, hspec]
    exact ⟨e0.symm, rfl, ⟨0, by simp, by simp⟩, fun a => absurd rfl a, fun a => by cases a⟩
  rw [if_neg h0] at hcode hspec
  by_cases h1 : (c.set_pos c.x_ (c.y_ + 1)).is_standing P lvl = true
  · rw [if_pos h1] at hcode hspec
    rw [hcode, hspec]
    exact ⟨rfl, rfl, ⟨1, by simp, rfl⟩, fun _ => h1, fun a => by cases a⟩
  rw [if_neg h1] at hcode hspec
  by_cases h2 : (c.set_pos c.x_ (c.y_ + 2)).is_standing P lvl = true
  · rw [if_pos h2] at hcode hspec
    rw [hcode, hspec]
    exact ⟨rfl, rfl, ⟨2, by simp, rfl⟩, fun _ => h2, fun a => by cases a⟩
  rw [if_neg h2] at hcode hspec
  by_cases h3 : (c.set_pos c.x_ (c.y_ + -1)).is_standing P lvl = true
  · rw [if_pos h3] at hcode hspec
    rw [hcode, hspec]
    exact ⟨rfl, rfl, ⟨-1, by simp, rfl⟩, fun _ => h3, fun a => by cases a⟩
  rw [if_neg h3] at hcode hspec
  by_cases h4 : (c.set_pos c.x_ (c.y_ + -2)).is_standing P lvl = true
  · rw [if_pos h4] at hcode hspec
    rw [hcode, hspec]
    exact ⟨rfl, rfl, ⟨-2, by simp, rfl⟩, fun _ => h4, fun a => by cases a⟩
  rw [if_neg h4] at hcode hspec
  by_cases h5 : (c.set_pos c.x_ (c.y_ + -3)).is_standing P lvl = true
  · rw [if_pos h5] at hcode hspec
    rw [hcode, hspec]
    exact ⟨rfl, rfl, ⟨-3, by simp, rfl⟩, fun _ => h5, fun a => by cases a⟩
  rw [if_neg h5] at hcode hspec
  rw [hcode, hspec]
  exact ⟨rfl, rfl, ⟨0, by simp, by simp⟩, fun a => absurd rfl a, fun _ => rfl⟩

theorem try_to_make_standing_bounded_witness :
    (demo_actor.try_to_make_standing demo_params raised_level).y_ = 68 + -2 ∧
    (demo_actor.try_to_make_standing demo_params raised_level).is_standing demo_params
      raised_level = true ∧
    demo_actor.try_to_make_standing demo_params void_level = demo_actor :=
  ⟨(congrArg (fun d : character => d.y_)
      (try_to_make_standing_bounded demo_params raised_level demo_actor).1).trans (by decide),
   (try_to_make_standing_bounded demo_params raised_level demo_actor).2.2.2.1 (by decide),
   (try_to_make_standing_bounded demo_params void_level demo_actor).2.2.2.2 (by decide)⟩

/-! ## Friction -/

/-- A truncating decay by a percentage keeps the sign and does not grow. -/
theorem tdiv_decay (w k : Int) (hk0 : 0 ≤ k) (hk : k ≤ 100) :
    (0 ≤ w → 0 ≤ (w * k).tdiv 100 ∧ (w * k).tdiv 100 ≤ w) ∧
    (w ≤ 0 → w ≤ (w * k).tdiv 100 ∧ (w * k).tdiv 100 ≤ 0) := by
  have pos : ∀ v : Int, 0 ≤ v → 0 ≤ (v * k).tdiv 100 ∧ (v * k).tdiv 100 ≤ v := by
    intro v hv
    have h1 : 0 ≤ v * k := mul_nonneg hv hk0
    rw [Int.tdiv_eq_ediv h1 (by decide)]
    refine ⟨Int.ediv_nonneg h1 (by decide), ?_⟩
    have h2 : v * k ≤ v * 100 := mul_le_mul_of_nonneg_left hk hv
    calc v * k / 100 ≤ v * 100 / 100 := Int.ediv_le_ediv (by decide) h2
      _ = v := Int.mul_ediv_cancel v (by decide)
  refine ⟨pos w, fun hw => ?_⟩
  have h := pos (-w) (by omega)
  rw [neg_mul, Int.neg_tdiv] at h
  omega

/-- An `int` result that is representable is the exact result. -/
theorem wrap_int_of_fits (n : Int) (h : fits_int n) : wrap_int n = n := by
  unfold fits_int at h
  unfold wrap_int
  omega

/-- C27, as stated, fails.  The actor moves right at 30000000 with no frame
acceleration, and the friction is `f = 25`, within `0 <= f <= 100`; the product
`30000000 * 75` leaves the range of `int`, and the friction step leaves
`velocity_x = -20449672`: not `(30000000 * 75)/100 = 22500000`, and of the
opposite sign. -/
theorem friction_overflow_reverses :
    bolt.velocity_x_ + (if bolt.face_right_ then bolt.current_frame.accel_x
      else -bolt.current_frame.accel_x) = 30000000 ∧
    bolt.tick_friction demo_params rough_level = 25 ∧
    ((30000000 : Int) * (100 - 25)).tdiv 100 = 22500000 ∧
    (bolt.apply_friction demo_params rough_level).velocity_x_ = -20449672 := by
  refine ⟨by decide, by decide, by decide, by decide⟩

/-- C27, amended.  Let `a` be the current frame's `accel_x` signed by the facing
and `f` the friction of the tick.  When the sum `ground_friction +
air_resistance` and its product with the traction are representable as `int`,
`f = ((ground_friction + air_resistance) * traction)/100`.  When `a`,
`velocity_x + a`, `100 - f` and the product `(velocity_x + a) * (100 - f)` are
representable, the friction step sets `velocity_x` to
`((velocity_x + a) * (100 - f))/100`.  Whenever `0 <= f <= 100` and
`|velocity_x + a| <= 21474836` (so that the product is representable), the new
`velocity_x` is that value, has the sign of `velocity_x + a` or is zero, and its
magnitude is at most `|velocity_x + a|`. -/
theorem friction_decay (P : params) (lvl : level) (c : character)
    (ha : c.face_right_ = false → fits_int (-c.current_frame.accel_x))
    (hv : fits_int (c.velocity_x_ +
      (if c.face_right_ then c.current_frame.accel_x else -c.current_frame.accel_x))) :
    (fits_int (((c.is_standing_out P lvl).friction.getD 0) + lvl.air_resistance) →
      fits_int ((((c.is_standing_out P lvl).friction.getD 0) + lvl.air_resistance) *
        c.type_.traction_) →
      c.tick_friction P lvl =
        ((((c.is_standing_out P lvl).friction.getD 0) + lvl.air_resistance) *
          c.type_.traction_).tdiv 100) ∧
    (fits_int (100 - c.tick_friction P lvl) →
      fits_int ((c.velocity_x_ +
          (if c.face_right_ then c.current_frame.accel_x else -c.current_frame.accel_x)) *
        (100 - c.tick_friction P lvl)) →
      (c.apply_friction P lvl).velocity_x_ =
        ((c.velocity_x_ +
            (if c.face_right_ then c.current_frame.accel_x else -c.current_frame.accel_x)) *
          (100 - c.tick_friction P lvl)).tdiv 100) ∧
    (0 ≤ c.tick_friction P lvl → c.tick_friction P lvl ≤ 100 →
      |c.velocity_x_ +
        (if c.face_right_ then c.current_frame.accel_x else -c.current_frame.accel_x)| ≤
        21474836 →
      (c.apply_friction P lvl).velocity_x_ =
        ((c.velocity_x_ +
            (if c.face_right_ then c.current_frame.accel_x else -c.current_frame.accel_x)) *
          (100 - c.tick_friction P lvl)).tdiv 100 ∧
      (0 ≤ c.velocity_x_ +
          (if c.face_right_ then c.current_frame.accel_x else -c.current_frame.accel_x) →
        0 ≤ (c.apply_friction P lvl).velocity_x_ ∧
        (c.apply_friction P lvl).velocity_x_ ≤ c.velocity_x_ +
          (if c.face_right_ then c.current_frame.accel_x else -c.current_frame.accel_x)) ∧
      (c.velocity_x_ +
          (if c.face_right_ then c.current_frame.accel_x else -c.current_frame.accel_x) ≤ 0 →
        c.velocity_x_ +
          (if c.face_right_ then c.current_frame.accel_x else -c.current_frame.accel_x) ≤
          (c.apply_friction P lvl).velocity_x_ ∧
        (c.apply_friction P lvl).velocity_x_ ≤ 0) ∧
      |(c.apply_friction P lvl).velocity_x_| ≤ |c.velocity_x_ +
          (if c.face_right_ then c.current_frame.accel_x else -c.current_frame.accel_x)|) := by
  have hacc : c.accelerated_x = c.velocity_x_ +
      (if c.face_right_ then c.current_frame.accel_x else -c.current_frame.accel_x) := by
    unfold character.accelerated_x
    cases hf : c.face_right_ with
    | true =>
      rw [hf] at hv
      simp only [if_true] at hv ⊢
      exact wrap_int_of_fits _ hv
    | false =>
      rw [hf] at hv
      simp only [Bool.false_eq_true, if_false] at hv ⊢
      rw [mul_neg_one, wrap_int_of_fits _ (ha hf), wrap_int_of_fits _ hv]
  have hnew : (c.apply_friction P lvl).velocity_x_ =
      (wrap_int (c.accelerated_x * wrap_int (100 - c.tick_friction P lvl))).tdiv 100 := rfl
  rw [hnew, hacc]
  generalize c.velocity_x_ +
    (if c.face_right_ then c.current_frame.accel_x else -c.current_frame.accel_x) = w
  have hform : fits_int (100 - c.tick_friction P lvl) →
      fits_int (w * (100 - c.tick_friction P lvl)) →
      (wrap_int (w * wrap_int (100 - c.tick_friction P lvl))).tdiv 100 =
        (w * (100 - c.tick_friction P lvl)).tdiv 100 := by
    intro h1 h2
    rw [wrap_int_of_fits _ h1, wrap_int_of_fits _ h2]
  refine ⟨fun h1 h2 => ?_, hform, fun h0 h1 hw => ?_⟩
  · unfold character.tick_friction
    rw [wrap_int_of_fits _ h1, wrap_int_of_fits _ h2]
  · have hk : fits_int (100 - c.tick_friction P lvl) := by
      unfold fits_int
      omega
    have hprod : fits_int (w * (100 - c.tick_friction P lvl)) := by
      generalize c.tick_friction P lvl = f at h0 h1
      have hb := abs_le.1 hw
      have k0 : (0 : Int) ≤ 100 - f := by omega
      have k1 : 100 - f ≤ 100 := by omega
      have u1 : w * (100 - f) ≤ 21474836 * (100 - f) :=
        mul_le_mul_of_nonneg_right hb.2 k0
      have u2 : -21474836 * (100 - f) ≤ w * (100 - f) :=
        mul_le_mul_of_nonneg_right hb.1 k0
      unfold fits_int
      constructor <;> nlinarith
    rw [hform hk hprod]
    obtain ⟨p, n⟩ := tdiv_decay w (100 - c.tick_friction P lvl) (by omega) (by omega)
    refine ⟨rfl, p, n, ?_⟩
    rcases le_total 0 w with hw0 | hw0
    · obtain ⟨a, b⟩ := p hw0
      rw [abs_of_nonneg a, abs_of_nonneg hw0]
      exact b
    · obtain ⟨a, b⟩ := n hw0
      rw [abs_of_nonpos b, abs_of_nonpos hw0]
      omega

theorem friction_decay_witness :
    walker.tick_friction demo_params rough_level = 25 ∧
    (walker.apply_friction demo_params rough_level).velocity_x_ = 225 ∧
    (back_walker.apply_friction demo_params rough_level).velocity_x_ = -232 ∧
    |(back_walker.apply_friction demo_params rough_level).velocity_x_| ≤ 310 :=
  ⟨((friction_decay demo_params rough_level walker (by decide) (by decide)).1
      (by decide) (by decide)).trans (by decide),
   ((friction_decay demo_params rough_level walker (by decide) (by decide)).2.1
      (by decide) (by decide)).trans (by decide),
   (((friction_decay demo_params rough_level back_walker (by decide) (by decide)).2.2
      (by decide) (by decide) (by decide)).1).trans (by decide),
   (((friction_decay demo_params rough_level back_walker (by decide) (by decide)).2.2
      (by decide) (by decide) (by decide)).2.2.2).trans (by decide)⟩

/-! ## Driver placement -/

theorem slope_retry_found (lvl : level) (xpos ypos forward : Int) (n : Nat)
    (range y1 y2 : Int) (h1 : y1 ≠ INT_MIN) (h2 : y2 ≠ INT_MIN) :
    slope_retry lvl xpos ypos forward n range y1 y2 = (range, y1, y2) := by
  cases n with
  | zero => rfl
  | succ n =>
    unfold slope_retry
    rw [if_neg]
    exact fun a => a.1.elim h1 h2

/-- When both sides have ground at the initial range the fallback loop is not
entered and the estimate is the scaled height difference over twice the range. -/
theorem slope_found_at_once (P : params) (lvl : level) (c : character) (range : Int)
    (hs : c.is_standing P lvl = true) (hr : 1 < range)
    (h1 : lvl.find_ground_level (c.feet_x + (if c.face_right_ then 1 else -1) * range)
      (probe_down lvl c.feet_x 10 c.feet_y) (range + 1) ≠ INT_MIN)
    (h2 : lvl.find_ground_level (c.feet_x - (if c.face_right_ then 1 else -1) * range)
      (probe_down lvl c.feet_x 10 c.feet_y) (range + 1) ≠ INT_MIN) :
    c.slope_standing_on P lvl range =
      ((lvl.find_ground_level (c.feet_x - (if c.face_right_ then 1 else -1) * range)
          (probe_down lvl c.feet_x 10 c.feet_y) (range + 1) -
        lvl.find_ground_level (c.feet_x + (if c.face_right_ then 1 else -1) * range)
          (probe_down lvl c.feet_x 10 c.feet_y) (range + 1)) * 45).tdiv (range * 2) := by
  have h3 : ¬ range = 1 := by omega
  have h4 : ¬ range = 0 := by omega
  unfold character.slope_standing_on
  simp only [hs, Bool.not_true, Bool.false_eq_true, if_false, h3]
  rw [slope_retry_found lvl _ _ _ _ _ _ _ h1 h2]
  simp only [h4, if_false]

/-- C25 does not hold of the code.  The fallback loop of lines 845 to 849 issues
its two queries with the current range and decrements the range afterwards, so
when it leaves with ground found at offset `r` the range is `r - 1`.  With ground
found two pixels to either side (heights 98 ahead, 102 behind) after a failed
probe at range 3 the estimate is `(4*45)/(2*1) = 90`, not `(4*45)/(2*2) = 45`;
and with ground found one pixel to either side after a failed probe at range 2
the range has reached 0 and the estimate is 0, not `(2*45)/(2*1) = 45`. -/
theorem slope_fallback_off_by_one :
    (demo_actor.is_standing demo_params pit_level = true ∧ demo_actor.feet_x = 116 ∧
      demo_actor.slope_standing_on demo_params pit_level 3 = 90 ∧
      ((102 - 98 : Int) * 45).tdiv (2 * 2) = 45) ∧
    (demo_actor.is_standing demo_params needle_level = true ∧
      demo_actor.slope_standing_on demo_params needle_level 2 = 0 ∧
      ((101 - 99 : Int) * 45).tdiv (2 * 1) = 45) :=
  ⟨⟨by decide, by decide, by decide, by decide⟩, ⟨by decide, by decide, by decide⟩⟩

end Frogatto
